import Mathlib

/-!
# ov16a1q camera sensor driver: register transport, table player, streaming

A shallow embedding of `drivers/media/i2c/ov16a1q.c`.  Machine integers are
natural numbers or integers with explicit reduction modulo the width.  The I2C
layer, the runtime-PM core and the V4L2 control framework are external
collaborators: their results are supplied by an environment, and every call
the driver makes on them is recorded in the device state.
-/

namespace Ov16a1q

/-! ## Constants from kernel headers -/

/-- Value of `EIO` (`errno-base.h`). -/
def EIO : Int := 5

/-- Value of `ENODEV` (`errno-base.h`). -/
def ENODEV : Int := 19

/-- Value of `EINVAL` (`errno-base.h`). -/
def EINVAL : Int := 22

/-- Value of `ERANGE` (`errno-base.h`). -/
def ERANGE : Int := 34

/-- Value of `MEDIA_BUS_FMT_SBGGR10_1X10` (`media-bus-format.h`). -/
def MEDIA_BUS_FMT_SBGGR10_1X10 : Nat := 0x3007

/-- Value of `V4L2_CID_EXPOSURE` (`v4l2-controls.h`). -/
def V4L2_CID_EXPOSURE : Nat := 0x00980911

/-- Value of `V4L2_CID_VBLANK` (`v4l2-controls.h`). -/
def V4L2_CID_VBLANK : Nat := 0x009e0901

/-- Value of `V4L2_CID_ANALOGUE_GAIN` (`v4l2-controls.h`). -/
def V4L2_CID_ANALOGUE_GAIN : Nat := 0x009e0903

/-- Value of `V4L2_CID_HBLANK` (`v4l2-controls.h`). -/
def V4L2_CID_HBLANK : Nat := 0x009e0902

/-- Value of `V4L2_CID_LINK_FREQ` (`v4l2-controls.h`). -/
def V4L2_CID_LINK_FREQ : Nat := 0x009f0901

/-- Value of `V4L2_CID_PIXEL_RATE` (`v4l2-controls.h`). -/
def V4L2_CID_PIXEL_RATE : Nat := 0x009f0902

/-- Value of `V4L2_CTRL_FLAG_READ_ONLY` (`videodev2.h`). -/
def V4L2_CTRL_FLAG_READ_ONLY : Nat := 0x0004

/-! ## Data model -/

/-- One transaction handed to the I2C layer.  `send frame` is
`i2c_master_send(client, buf, count)` with `frame` the first `count` bytes of
`buf`; `transfer addr rdlen` is `i2c_transfer` with the two messages of
`ov16a1q_read`: a write of the bytes `addr` and a read of `rdlen` bytes. -/
inductive BusOp where
  | send (frame : List Nat)
  | transfer (addr : List Nat) (rdlen : Nat)
  deriving DecidableEq, Repr

/-- Embedding of `struct ov16a1q_reg`. -/
structure ov16a1q_reg where
  address : Nat
  val : Nat
  deriving DecidableEq, Repr

/-- Embedding of `struct ov16a1q_mode`; `reg_list` is the array together with
its `ARRAY_SIZE`. -/
structure ov16a1q_mode where
  width : Nat
  height : Nat
  hts : Nat
  vts : Nat
  link_freq : Int
  lane_count : Nat
  depth : Nat
  reg_list : List ov16a1q_reg
  mbus_code : Nat
  deriving DecidableEq, Repr

/-- The fields of `struct v4l2_ctrl` the driver reads or changes; `val` is the
current value (an `s32`), `qmenu_int` the entries of an integer menu (empty
for the other control types). -/
structure v4l2_ctrl where
  id : Nat
  flags : Nat
  minimum : Int
  maximum : Int
  step : Nat
  default_value : Int
  val : Int
  qmenu_int : List Int
  deriving DecidableEq, Repr

/-- Device state: `struct ov16a1q` together with the record of the calls made
on the external collaborators.  `bus_hist` is every I2C transaction so far,
oldest first; `usage_count` is the runtime-PM usage counter of the client
device; `state_locks` and `state_unlocks` count the calls that take and
release the active-state lock; `ctrl_handler` holds the controls of the
handler in creation order (`exposure`, `vblank`, ... of the C struct point
into it and are found by control id). -/
structure ov16a1q where
  bus_hist : List BusOp
  usage_count : Int
  state_locks : Nat
  state_unlocks : Nat
  cur_mode : ov16a1q_mode
  ctrl_handler : List v4l2_ctrl

/-- Behaviour of the external collaborators.  `i2c_master_send` gives the
return value of a send of `frame` after the bus history `hist`;
`i2c_transfer` gives the return value of the two-message transfer and, for
each offset `i` of the read message, the byte the adapter stored there;
`rpm_resume` is the result of the resume attempted inside
`pm_runtime_resume_and_get`; `get_if_in_use` is the return value of
`pm_runtime_get_if_in_use`. -/
structure Env where
  i2c_master_send : (hist : List BusOp) → (frame : List Nat) → Int
  i2c_transfer : (hist : List BusOp) → (addr : List Nat) → (rdlen : Nat) → Int × (Nat → Nat)
  rpm_resume : ov16a1q → Int
  get_if_in_use : ov16a1q → Int

/-! ## Register tables and mode catalog -/

/-- The common initialisation table `ov16a1q_regs[]`. -/
def ov16a1q_regs : List ov16a1q_reg := [
  ov16a1q_reg.mk 0x0103 0x0001, ov16a1q_reg.mk 0x0102 0x0000, ov16a1q_reg.mk 0x0301 0x0048, ov16a1q_reg.mk 0x0302 0x0031,
  ov16a1q_reg.mk 0x0303 0x0004, ov16a1q_reg.mk 0x0305 0x00c2, ov16a1q_reg.mk 0x0306 0x0000, ov16a1q_reg.mk 0x0320 0x0002,
  ov16a1q_reg.mk 0x0323 0x0005, ov16a1q_reg.mk 0x0324 0x0002, ov16a1q_reg.mk 0x0325 0x00ee, ov16a1q_reg.mk 0x0326 0x00d8,
  ov16a1q_reg.mk 0x0327 0x000b, ov16a1q_reg.mk 0x0329 0x0001, ov16a1q_reg.mk 0x0343 0x0004, ov16a1q_reg.mk 0x0344 0x0001,
  ov16a1q_reg.mk 0x0345 0x0077, ov16a1q_reg.mk 0x0346 0x00c0, ov16a1q_reg.mk 0x034a 0x0007, ov16a1q_reg.mk 0x300e 0x0022,
  ov16a1q_reg.mk 0x3012 0x0041, ov16a1q_reg.mk 0x3016 0x00d2, ov16a1q_reg.mk 0x3018 0x0070, ov16a1q_reg.mk 0x301e 0x0098,
  ov16a1q_reg.mk 0x3025 0x0003, ov16a1q_reg.mk 0x3026 0x0010, ov16a1q_reg.mk 0x3027 0x0008, ov16a1q_reg.mk 0x3102 0x0000,
  ov16a1q_reg.mk 0x3400 0x0004, ov16a1q_reg.mk 0x3406 0x0004, ov16a1q_reg.mk 0x3408 0x0004, ov16a1q_reg.mk 0x3421 0x0009,
  ov16a1q_reg.mk 0x3422 0x0020, ov16a1q_reg.mk 0x3423 0x0015, ov16a1q_reg.mk 0x3424 0x0040, ov16a1q_reg.mk 0x3425 0x0014,
  ov16a1q_reg.mk 0x3426 0x0004, ov16a1q_reg.mk 0x3504 0x0008, ov16a1q_reg.mk 0x3508 0x0001, ov16a1q_reg.mk 0x3509 0x0000,
  ov16a1q_reg.mk 0x350a 0x0001, ov16a1q_reg.mk 0x350b 0x0000, ov16a1q_reg.mk 0x350c 0x0000, ov16a1q_reg.mk 0x3548 0x0001,
  ov16a1q_reg.mk 0x3549 0x0000, ov16a1q_reg.mk 0x354a 0x0001, ov16a1q_reg.mk 0x354b 0x0000, ov16a1q_reg.mk 0x354c 0x0000,
  ov16a1q_reg.mk 0x3600 0x00ff, ov16a1q_reg.mk 0x3602 0x0042, ov16a1q_reg.mk 0x3603 0x007b, ov16a1q_reg.mk 0x3608 0x009b,
  ov16a1q_reg.mk 0x360a 0x0069, ov16a1q_reg.mk 0x360b 0x0053, ov16a1q_reg.mk 0x3618 0x00c0, ov16a1q_reg.mk 0x361a 0x008b,
  ov16a1q_reg.mk 0x361d 0x0020, ov16a1q_reg.mk 0x361e 0x0030, ov16a1q_reg.mk 0x361f 0x0001, ov16a1q_reg.mk 0x3620 0x0089,
  ov16a1q_reg.mk 0x3624 0x008f, ov16a1q_reg.mk 0x3629 0x0009, ov16a1q_reg.mk 0x362e 0x0050, ov16a1q_reg.mk 0x3631 0x00e2,
  ov16a1q_reg.mk 0x3632 0x00e2, ov16a1q_reg.mk 0x3634 0x0010, ov16a1q_reg.mk 0x3635 0x0010, ov16a1q_reg.mk 0x3636 0x0010,
  ov16a1q_reg.mk 0x3639 0x00a6, ov16a1q_reg.mk 0x363a 0x00aa, ov16a1q_reg.mk 0x363b 0x000c, ov16a1q_reg.mk 0x363c 0x0016,
  ov16a1q_reg.mk 0x363d 0x0029, ov16a1q_reg.mk 0x363e 0x004f, ov16a1q_reg.mk 0x3642 0x00a8, ov16a1q_reg.mk 0x3652 0x0000,
  ov16a1q_reg.mk 0x3653 0x0000, ov16a1q_reg.mk 0x3654 0x008a, ov16a1q_reg.mk 0x3656 0x000c, ov16a1q_reg.mk 0x3657 0x008e,
  ov16a1q_reg.mk 0x3660 0x0080, ov16a1q_reg.mk 0x3663 0x0000, ov16a1q_reg.mk 0x3664 0x0000, ov16a1q_reg.mk 0x3668 0x0005,
  ov16a1q_reg.mk 0x3669 0x0005, ov16a1q_reg.mk 0x370d 0x0010, ov16a1q_reg.mk 0x370e 0x0005, ov16a1q_reg.mk 0x370f 0x0010,
  ov16a1q_reg.mk 0x3711 0x0001, ov16a1q_reg.mk 0x3712 0x0009, ov16a1q_reg.mk 0x3713 0x0040, ov16a1q_reg.mk 0x3714 0x00e4,
  ov16a1q_reg.mk 0x3716 0x0004, ov16a1q_reg.mk 0x3717 0x0001, ov16a1q_reg.mk 0x3718 0x0002, ov16a1q_reg.mk 0x3719 0x0001,
  ov16a1q_reg.mk 0x371a 0x0002, ov16a1q_reg.mk 0x371b 0x0002, ov16a1q_reg.mk 0x371c 0x0001, ov16a1q_reg.mk 0x371d 0x0002,
  ov16a1q_reg.mk 0x371e 0x0012, ov16a1q_reg.mk 0x371f 0x0002, ov16a1q_reg.mk 0x3720 0x0014, ov16a1q_reg.mk 0x3721 0x0012,
  ov16a1q_reg.mk 0x3722 0x0044, ov16a1q_reg.mk 0x3723 0x0060, ov16a1q_reg.mk 0x372f 0x0034, ov16a1q_reg.mk 0x3726 0x0021,
  ov16a1q_reg.mk 0x37d0 0x0002, ov16a1q_reg.mk 0x37d1 0x0010, ov16a1q_reg.mk 0x37db 0x0008, ov16a1q_reg.mk 0x3808 0x0012,
  ov16a1q_reg.mk 0x3809 0x0030, ov16a1q_reg.mk 0x380a 0x000d, ov16a1q_reg.mk 0x380b 0x00a8, ov16a1q_reg.mk 0x380c 0x0003,
  ov16a1q_reg.mk 0x380d 0x0052, ov16a1q_reg.mk 0x380e 0x000f, ov16a1q_reg.mk 0x380f 0x0051, ov16a1q_reg.mk 0x3814 0x0011,
  ov16a1q_reg.mk 0x3815 0x0011, ov16a1q_reg.mk 0x3820 0x0000, ov16a1q_reg.mk 0x3821 0x0006, ov16a1q_reg.mk 0x3822 0x0000,
  ov16a1q_reg.mk 0x3823 0x0004, ov16a1q_reg.mk 0x3837 0x0010, ov16a1q_reg.mk 0x383c 0x0034, ov16a1q_reg.mk 0x383d 0x00ff,
  ov16a1q_reg.mk 0x383e 0x000d, ov16a1q_reg.mk 0x383f 0x0022, ov16a1q_reg.mk 0x3857 0x0000, ov16a1q_reg.mk 0x388f 0x0000,
  ov16a1q_reg.mk 0x3890 0x0000, ov16a1q_reg.mk 0x3891 0x0000, ov16a1q_reg.mk 0x3d81 0x0010, ov16a1q_reg.mk 0x3d83 0x000c,
  ov16a1q_reg.mk 0x3d84 0x0000, ov16a1q_reg.mk 0x3d85 0x001b, ov16a1q_reg.mk 0x3d88 0x0000, ov16a1q_reg.mk 0x3d89 0x0000,
  ov16a1q_reg.mk 0x3d8a 0x0000, ov16a1q_reg.mk 0x3d8b 0x0001, ov16a1q_reg.mk 0x3d8c 0x0077, ov16a1q_reg.mk 0x3d8d 0x00a0,
  ov16a1q_reg.mk 0x3f00 0x0002, ov16a1q_reg.mk 0x3f0c 0x0007, ov16a1q_reg.mk 0x3f0d 0x002f, ov16a1q_reg.mk 0x4012 0x000d,
  ov16a1q_reg.mk 0x4015 0x0004, ov16a1q_reg.mk 0x4016 0x001b, ov16a1q_reg.mk 0x4017 0x0004, ov16a1q_reg.mk 0x4018 0x000b,
  ov16a1q_reg.mk 0x401b 0x001f, ov16a1q_reg.mk 0x401e 0x0001, ov16a1q_reg.mk 0x401f 0x0038, ov16a1q_reg.mk 0x4500 0x0020,
  ov16a1q_reg.mk 0x4501 0x006a, ov16a1q_reg.mk 0x4502 0x00b4, ov16a1q_reg.mk 0x4586 0x0000, ov16a1q_reg.mk 0x4588 0x0002,
  ov16a1q_reg.mk 0x4640 0x0001, ov16a1q_reg.mk 0x4641 0x0004, ov16a1q_reg.mk 0x4643 0x0000, ov16a1q_reg.mk 0x4645 0x0003,
  ov16a1q_reg.mk 0x4806 0x0040, ov16a1q_reg.mk 0x480e 0x0000, ov16a1q_reg.mk 0x4815 0x002b, ov16a1q_reg.mk 0x481b 0x003c,
  ov16a1q_reg.mk 0x4833 0x0018, ov16a1q_reg.mk 0x4837 0x0008, ov16a1q_reg.mk 0x484b 0x0007, ov16a1q_reg.mk 0x4850 0x0041,
  ov16a1q_reg.mk 0x4860 0x0000, ov16a1q_reg.mk 0x4861 0x00ec, ov16a1q_reg.mk 0x4864 0x0000, ov16a1q_reg.mk 0x4883 0x0000,
  ov16a1q_reg.mk 0x4888 0x0010, ov16a1q_reg.mk 0x4a00 0x0010, ov16a1q_reg.mk 0x4e00 0x0000, ov16a1q_reg.mk 0x4e01 0x0004,
  ov16a1q_reg.mk 0x4e02 0x0001, ov16a1q_reg.mk 0x4e03 0x0000, ov16a1q_reg.mk 0x4e04 0x0008, ov16a1q_reg.mk 0x4e05 0x0004,
  ov16a1q_reg.mk 0x4e06 0x0000, ov16a1q_reg.mk 0x4e07 0x0013, ov16a1q_reg.mk 0x4e08 0x0001, ov16a1q_reg.mk 0x4e09 0x0000,
  ov16a1q_reg.mk 0x4e0a 0x0015, ov16a1q_reg.mk 0x4e0b 0x000e, ov16a1q_reg.mk 0x4e0c 0x0000, ov16a1q_reg.mk 0x4e0d 0x0017,
  ov16a1q_reg.mk 0x4e0e 0x0007, ov16a1q_reg.mk 0x4e0f 0x0000, ov16a1q_reg.mk 0x4e10 0x0019, ov16a1q_reg.mk 0x4e11 0x0006,
  ov16a1q_reg.mk 0x4e12 0x0000, ov16a1q_reg.mk 0x4e13 0x001b, ov16a1q_reg.mk 0x4e14 0x0008, ov16a1q_reg.mk 0x4e15 0x0000,
  ov16a1q_reg.mk 0x4e16 0x001f, ov16a1q_reg.mk 0x4e17 0x0008, ov16a1q_reg.mk 0x4e18 0x0000, ov16a1q_reg.mk 0x4e19 0x0021,
  ov16a1q_reg.mk 0x4e1a 0x000e, ov16a1q_reg.mk 0x4e1b 0x0000, ov16a1q_reg.mk 0x4e1c 0x002d, ov16a1q_reg.mk 0x4e1d 0x0030,
  ov16a1q_reg.mk 0x4e1e 0x0000, ov16a1q_reg.mk 0x4e1f 0x006a, ov16a1q_reg.mk 0x4e20 0x0005, ov16a1q_reg.mk 0x4e21 0x0000,
  ov16a1q_reg.mk 0x4e22 0x006c, ov16a1q_reg.mk 0x4e23 0x0005, ov16a1q_reg.mk 0x4e24 0x0000, ov16a1q_reg.mk 0x4e25 0x006e,
  ov16a1q_reg.mk 0x4e26 0x0039, ov16a1q_reg.mk 0x4e27 0x0000, ov16a1q_reg.mk 0x4e28 0x007a, ov16a1q_reg.mk 0x4e29 0x006d,
  ov16a1q_reg.mk 0x4e2a 0x0000, ov16a1q_reg.mk 0x4e2b 0x0000, ov16a1q_reg.mk 0x4e2c 0x0000, ov16a1q_reg.mk 0x4e2d 0x0000,
  ov16a1q_reg.mk 0x4e2e 0x0000, ov16a1q_reg.mk 0x4e2f 0x0000, ov16a1q_reg.mk 0x4e30 0x0000, ov16a1q_reg.mk 0x4e31 0x0000,
  ov16a1q_reg.mk 0x4e32 0x0000, ov16a1q_reg.mk 0x4e33 0x0000, ov16a1q_reg.mk 0x4e34 0x0000, ov16a1q_reg.mk 0x4e35 0x0000,
  ov16a1q_reg.mk 0x4e36 0x0000, ov16a1q_reg.mk 0x4e37 0x0000, ov16a1q_reg.mk 0x4e38 0x0000, ov16a1q_reg.mk 0x4e39 0x0000,
  ov16a1q_reg.mk 0x4e3a 0x0000, ov16a1q_reg.mk 0x4e3b 0x0000, ov16a1q_reg.mk 0x4e3c 0x0000, ov16a1q_reg.mk 0x4e3d 0x0000,
  ov16a1q_reg.mk 0x4e3e 0x0000, ov16a1q_reg.mk 0x4e3f 0x0000, ov16a1q_reg.mk 0x4e40 0x0000, ov16a1q_reg.mk 0x4e41 0x0000,
  ov16a1q_reg.mk 0x4e42 0x0000, ov16a1q_reg.mk 0x4e43 0x0000, ov16a1q_reg.mk 0x4e44 0x0000, ov16a1q_reg.mk 0x4e45 0x0000,
  ov16a1q_reg.mk 0x4e46 0x0000, ov16a1q_reg.mk 0x4e47 0x0000, ov16a1q_reg.mk 0x4e48 0x0000, ov16a1q_reg.mk 0x4e49 0x0000,
  ov16a1q_reg.mk 0x4e4a 0x0000, ov16a1q_reg.mk 0x4e4b 0x0000, ov16a1q_reg.mk 0x4e4c 0x0000, ov16a1q_reg.mk 0x4e4d 0x0000,
  ov16a1q_reg.mk 0x4e4e 0x0000, ov16a1q_reg.mk 0x4e4f 0x0000, ov16a1q_reg.mk 0x4e50 0x0000, ov16a1q_reg.mk 0x4e51 0x0000,
  ov16a1q_reg.mk 0x4e52 0x0000, ov16a1q_reg.mk 0x4e53 0x0000, ov16a1q_reg.mk 0x4e54 0x0000, ov16a1q_reg.mk 0x4e55 0x0000,
  ov16a1q_reg.mk 0x4e56 0x0000, ov16a1q_reg.mk 0x4e57 0x0000, ov16a1q_reg.mk 0x4e58 0x0000, ov16a1q_reg.mk 0x4e59 0x0000,
  ov16a1q_reg.mk 0x4e5a 0x0000, ov16a1q_reg.mk 0x4e5b 0x0000, ov16a1q_reg.mk 0x4e5c 0x0000, ov16a1q_reg.mk 0x4e5d 0x0000,
  ov16a1q_reg.mk 0x4e5e 0x0000, ov16a1q_reg.mk 0x4e5f 0x0000, ov16a1q_reg.mk 0x4e60 0x0000, ov16a1q_reg.mk 0x4e61 0x0000,
  ov16a1q_reg.mk 0x4e62 0x0000, ov16a1q_reg.mk 0x4e63 0x0000, ov16a1q_reg.mk 0x4e64 0x0000, ov16a1q_reg.mk 0x4e65 0x0000,
  ov16a1q_reg.mk 0x4e66 0x0000, ov16a1q_reg.mk 0x4e67 0x0000, ov16a1q_reg.mk 0x4e68 0x0000, ov16a1q_reg.mk 0x4e69 0x0000,
  ov16a1q_reg.mk 0x4e6a 0x0000, ov16a1q_reg.mk 0x4e6b 0x0000, ov16a1q_reg.mk 0x4e6c 0x0000, ov16a1q_reg.mk 0x4e6d 0x0000,
  ov16a1q_reg.mk 0x4e6e 0x0000, ov16a1q_reg.mk 0x4e6f 0x0000, ov16a1q_reg.mk 0x4e70 0x0000, ov16a1q_reg.mk 0x4e71 0x0000,
  ov16a1q_reg.mk 0x4e72 0x0000, ov16a1q_reg.mk 0x4e73 0x0000, ov16a1q_reg.mk 0x4e74 0x0000, ov16a1q_reg.mk 0x4e75 0x0000,
  ov16a1q_reg.mk 0x4e76 0x0000, ov16a1q_reg.mk 0x4e77 0x0000, ov16a1q_reg.mk 0x4e78 0x001c, ov16a1q_reg.mk 0x4e79 0x001e,
  ov16a1q_reg.mk 0x4e7a 0x0000, ov16a1q_reg.mk 0x4e7b 0x0000, ov16a1q_reg.mk 0x4e7c 0x002c, ov16a1q_reg.mk 0x4e7d 0x002f,
  ov16a1q_reg.mk 0x4e7e 0x0079, ov16a1q_reg.mk 0x4e7f 0x007b, ov16a1q_reg.mk 0x4e80 0x000a, ov16a1q_reg.mk 0x4e81 0x0031,
  ov16a1q_reg.mk 0x4e82 0x0066, ov16a1q_reg.mk 0x4e83 0x0081, ov16a1q_reg.mk 0x4e84 0x0003, ov16a1q_reg.mk 0x4e85 0x0040,
  ov16a1q_reg.mk 0x4e86 0x0002, ov16a1q_reg.mk 0x4e87 0x0009, ov16a1q_reg.mk 0x4e88 0x0043, ov16a1q_reg.mk 0x4e89 0x0053,
  ov16a1q_reg.mk 0x4e8a 0x0032, ov16a1q_reg.mk 0x4e8b 0x0067, ov16a1q_reg.mk 0x4e8c 0x0005, ov16a1q_reg.mk 0x4e8d 0x0083,
  ov16a1q_reg.mk 0x4e8e 0x0000, ov16a1q_reg.mk 0x4e8f 0x0000, ov16a1q_reg.mk 0x4e90 0x0000, ov16a1q_reg.mk 0x4e91 0x0000,
  ov16a1q_reg.mk 0x4e92 0x0000, ov16a1q_reg.mk 0x4e93 0x0000, ov16a1q_reg.mk 0x4e94 0x0000, ov16a1q_reg.mk 0x4e95 0x0000,
  ov16a1q_reg.mk 0x4e96 0x0000, ov16a1q_reg.mk 0x4e97 0x0000, ov16a1q_reg.mk 0x4e98 0x0000, ov16a1q_reg.mk 0x4e99 0x0000,
  ov16a1q_reg.mk 0x4e9a 0x0000, ov16a1q_reg.mk 0x4e9b 0x0000, ov16a1q_reg.mk 0x4e9c 0x0000, ov16a1q_reg.mk 0x4e9d 0x0000,
  ov16a1q_reg.mk 0x4e9e 0x0000, ov16a1q_reg.mk 0x4e9f 0x0000, ov16a1q_reg.mk 0x4ea0 0x0000, ov16a1q_reg.mk 0x4ea1 0x0000,
  ov16a1q_reg.mk 0x4ea2 0x0000, ov16a1q_reg.mk 0x4ea3 0x0000, ov16a1q_reg.mk 0x4ea4 0x0000, ov16a1q_reg.mk 0x4ea5 0x0000,
  ov16a1q_reg.mk 0x4ea6 0x001e, ov16a1q_reg.mk 0x4ea7 0x0020, ov16a1q_reg.mk 0x4ea8 0x0032, ov16a1q_reg.mk 0x4ea9 0x006d,
  ov16a1q_reg.mk 0x4eaa 0x0018, ov16a1q_reg.mk 0x4eab 0x007f, ov16a1q_reg.mk 0x4eac 0x0000, ov16a1q_reg.mk 0x4ead 0x0000,
  ov16a1q_reg.mk 0x4eae 0x007c, ov16a1q_reg.mk 0x4eaf 0x0007, ov16a1q_reg.mk 0x4eb0 0x007c, ov16a1q_reg.mk 0x4eb1 0x0007,
  ov16a1q_reg.mk 0x4eb2 0x0007, ov16a1q_reg.mk 0x4eb3 0x001c, ov16a1q_reg.mk 0x4eb4 0x0007, ov16a1q_reg.mk 0x4eb5 0x001c,
  ov16a1q_reg.mk 0x4eb6 0x0007, ov16a1q_reg.mk 0x4eb7 0x001c, ov16a1q_reg.mk 0x4eb8 0x0007, ov16a1q_reg.mk 0x4eb9 0x001c,
  ov16a1q_reg.mk 0x4eba 0x0007, ov16a1q_reg.mk 0x4ebb 0x0014, ov16a1q_reg.mk 0x4ebc 0x0007, ov16a1q_reg.mk 0x4ebd 0x001c,
  ov16a1q_reg.mk 0x4ebe 0x0007, ov16a1q_reg.mk 0x4ebf 0x001c, ov16a1q_reg.mk 0x4ec0 0x0007, ov16a1q_reg.mk 0x4ec1 0x001c,
  ov16a1q_reg.mk 0x4ec2 0x0007, ov16a1q_reg.mk 0x4ec3 0x001c, ov16a1q_reg.mk 0x4ec4 0x002c, ov16a1q_reg.mk 0x4ec5 0x002f,
  ov16a1q_reg.mk 0x4ec6 0x0079, ov16a1q_reg.mk 0x4ec7 0x007b, ov16a1q_reg.mk 0x4ec8 0x007c, ov16a1q_reg.mk 0x4ec9 0x0007,
  ov16a1q_reg.mk 0x4eca 0x007c, ov16a1q_reg.mk 0x4ecb 0x0007, ov16a1q_reg.mk 0x4ecc 0x0000, ov16a1q_reg.mk 0x4ecd 0x0000,
  ov16a1q_reg.mk 0x4ece 0x0007, ov16a1q_reg.mk 0x4ecf 0x0031, ov16a1q_reg.mk 0x4ed0 0x0069, ov16a1q_reg.mk 0x4ed1 0x007f,
  ov16a1q_reg.mk 0x4ed2 0x0067, ov16a1q_reg.mk 0x4ed3 0x0000, ov16a1q_reg.mk 0x4ed4 0x0000, ov16a1q_reg.mk 0x4ed5 0x0000,
  ov16a1q_reg.mk 0x4ed6 0x007c, ov16a1q_reg.mk 0x4ed7 0x0007, ov16a1q_reg.mk 0x4ed8 0x007c, ov16a1q_reg.mk 0x4ed9 0x0007,
  ov16a1q_reg.mk 0x4eda 0x0033, ov16a1q_reg.mk 0x4edb 0x007f, ov16a1q_reg.mk 0x4edc 0x0000, ov16a1q_reg.mk 0x4edd 0x0016,
  ov16a1q_reg.mk 0x4ede 0x0000, ov16a1q_reg.mk 0x4edf 0x0000, ov16a1q_reg.mk 0x4ee0 0x0032, ov16a1q_reg.mk 0x4ee1 0x0070,
  ov16a1q_reg.mk 0x4ee2 0x0001, ov16a1q_reg.mk 0x4ee3 0x0030, ov16a1q_reg.mk 0x4ee4 0x0022, ov16a1q_reg.mk 0x4ee5 0x0028,
  ov16a1q_reg.mk 0x4ee6 0x006f, ov16a1q_reg.mk 0x4ee7 0x0075, ov16a1q_reg.mk 0x4ee8 0x0000, ov16a1q_reg.mk 0x4ee9 0x0000,
  ov16a1q_reg.mk 0x4eea 0x0030, ov16a1q_reg.mk 0x4eeb 0x007f, ov16a1q_reg.mk 0x4eec 0x0000, ov16a1q_reg.mk 0x4eed 0x0000,
  ov16a1q_reg.mk 0x4eee 0x0000, ov16a1q_reg.mk 0x4eef 0x0000, ov16a1q_reg.mk 0x4ef0 0x0069, ov16a1q_reg.mk 0x4ef1 0x007f,
  ov16a1q_reg.mk 0x4ef2 0x0007, ov16a1q_reg.mk 0x4ef3 0x0030, ov16a1q_reg.mk 0x4ef4 0x0032, ov16a1q_reg.mk 0x4ef5 0x0009,
  ov16a1q_reg.mk 0x4ef6 0x007d, ov16a1q_reg.mk 0x4ef7 0x0065, ov16a1q_reg.mk 0x4ef8 0x0000, ov16a1q_reg.mk 0x4ef9 0x0000,
  ov16a1q_reg.mk 0x4efa 0x0000, ov16a1q_reg.mk 0x4efb 0x0000, ov16a1q_reg.mk 0x4efc 0x007f, ov16a1q_reg.mk 0x4efd 0x0009,
  ov16a1q_reg.mk 0x4efe 0x007f, ov16a1q_reg.mk 0x4eff 0x0009, ov16a1q_reg.mk 0x4f00 0x001e, ov16a1q_reg.mk 0x4f01 0x007c,
  ov16a1q_reg.mk 0x4f02 0x007f, ov16a1q_reg.mk 0x4f03 0x0009, ov16a1q_reg.mk 0x4f04 0x007f, ov16a1q_reg.mk 0x4f05 0x000b,
  ov16a1q_reg.mk 0x4f06 0x007c, ov16a1q_reg.mk 0x4f07 0x0002, ov16a1q_reg.mk 0x4f08 0x007c, ov16a1q_reg.mk 0x4f09 0x0002,
  ov16a1q_reg.mk 0x4f0a 0x0032, ov16a1q_reg.mk 0x4f0b 0x0064, ov16a1q_reg.mk 0x4f0c 0x0032, ov16a1q_reg.mk 0x4f0d 0x0064,
  ov16a1q_reg.mk 0x4f0e 0x0032, ov16a1q_reg.mk 0x4f0f 0x0064, ov16a1q_reg.mk 0x4f10 0x0032, ov16a1q_reg.mk 0x4f11 0x0064,
  ov16a1q_reg.mk 0x4f12 0x0031, ov16a1q_reg.mk 0x4f13 0x004f, ov16a1q_reg.mk 0x4f14 0x0083, ov16a1q_reg.mk 0x4f15 0x0084,
  ov16a1q_reg.mk 0x4f16 0x0063, ov16a1q_reg.mk 0x4f17 0x0064, ov16a1q_reg.mk 0x4f18 0x0083, ov16a1q_reg.mk 0x4f19 0x0084,
  ov16a1q_reg.mk 0x4f1a 0x0031, ov16a1q_reg.mk 0x4f1b 0x0032, ov16a1q_reg.mk 0x4f1c 0x007b, ov16a1q_reg.mk 0x4f1d 0x007c,
  ov16a1q_reg.mk 0x4f1e 0x002f, ov16a1q_reg.mk 0x4f1f 0x0030, ov16a1q_reg.mk 0x4f20 0x0030, ov16a1q_reg.mk 0x4f21 0x0069,
  ov16a1q_reg.mk 0x4d06 0x0008, ov16a1q_reg.mk 0x5000 0x0001, ov16a1q_reg.mk 0x5001 0x0040, ov16a1q_reg.mk 0x5002 0x0053,
  ov16a1q_reg.mk 0x5003 0x0042, ov16a1q_reg.mk 0x5005 0x0000, ov16a1q_reg.mk 0x5038 0x0000, ov16a1q_reg.mk 0x5081 0x0000,
  ov16a1q_reg.mk 0x5180 0x0000, ov16a1q_reg.mk 0x5181 0x0010, ov16a1q_reg.mk 0x5182 0x0007, ov16a1q_reg.mk 0x5183 0x008f,
  ov16a1q_reg.mk 0x5820 0x00c5, ov16a1q_reg.mk 0x5854 0x0000, ov16a1q_reg.mk 0x58cb 0x0003, ov16a1q_reg.mk 0x5bd0 0x0015,
  ov16a1q_reg.mk 0x5bd1 0x0002, ov16a1q_reg.mk 0x5c0e 0x0011, ov16a1q_reg.mk 0x5c11 0x0000, ov16a1q_reg.mk 0x5c16 0x0002,
  ov16a1q_reg.mk 0x5c17 0x0001, ov16a1q_reg.mk 0x5c1a 0x0004, ov16a1q_reg.mk 0x5c1b 0x0003, ov16a1q_reg.mk 0x5c21 0x0010,
  ov16a1q_reg.mk 0x5c22 0x0010, ov16a1q_reg.mk 0x5c23 0x0004, ov16a1q_reg.mk 0x5c24 0x000c, ov16a1q_reg.mk 0x5c25 0x0004,
  ov16a1q_reg.mk 0x5c26 0x000c, ov16a1q_reg.mk 0x5c27 0x0004, ov16a1q_reg.mk 0x5c28 0x000c, ov16a1q_reg.mk 0x5c29 0x0004,
  ov16a1q_reg.mk 0x5c2a 0x000c, ov16a1q_reg.mk 0x5c2b 0x0001, ov16a1q_reg.mk 0x5c2c 0x0001, ov16a1q_reg.mk 0x5c2e 0x0008,
  ov16a1q_reg.mk 0x5c30 0x0004, ov16a1q_reg.mk 0x5c35 0x0003, ov16a1q_reg.mk 0x5c36 0x0003, ov16a1q_reg.mk 0x5c37 0x0003,
  ov16a1q_reg.mk 0x5c38 0x0003, ov16a1q_reg.mk 0x5d00 0x00ff, ov16a1q_reg.mk 0x5d01 0x000f, ov16a1q_reg.mk 0x5d02 0x0080,
  ov16a1q_reg.mk 0x5d03 0x0044, ov16a1q_reg.mk 0x5d05 0x00fc, ov16a1q_reg.mk 0x5d06 0x000b, ov16a1q_reg.mk 0x5d08 0x0010,
  ov16a1q_reg.mk 0x5d09 0x0010, ov16a1q_reg.mk 0x5d0a 0x0004, ov16a1q_reg.mk 0x5d0b 0x000c, ov16a1q_reg.mk 0x5d0c 0x0004,
  ov16a1q_reg.mk 0x5d0d 0x000c, ov16a1q_reg.mk 0x5d0e 0x0004, ov16a1q_reg.mk 0x5d0f 0x000c, ov16a1q_reg.mk 0x5d10 0x0004,
  ov16a1q_reg.mk 0x5d11 0x000c, ov16a1q_reg.mk 0x5d12 0x0001, ov16a1q_reg.mk 0x5d13 0x0001, ov16a1q_reg.mk 0x5d15 0x0010,
  ov16a1q_reg.mk 0x5d16 0x0010, ov16a1q_reg.mk 0x5d17 0x0010, ov16a1q_reg.mk 0x5d18 0x0010, ov16a1q_reg.mk 0x5d1a 0x0010,
  ov16a1q_reg.mk 0x5d1b 0x0010, ov16a1q_reg.mk 0x5d1c 0x0010, ov16a1q_reg.mk 0x5d1d 0x0010, ov16a1q_reg.mk 0x5d1e 0x0004,
  ov16a1q_reg.mk 0x5d1f 0x0004, ov16a1q_reg.mk 0x5d20 0x0004, ov16a1q_reg.mk 0x5d27 0x0064, ov16a1q_reg.mk 0x5d28 0x00c8,
  ov16a1q_reg.mk 0x5d29 0x0096, ov16a1q_reg.mk 0x5d2a 0x00ff, ov16a1q_reg.mk 0x5d2b 0x00c8, ov16a1q_reg.mk 0x5d2c 0x00ff,
  ov16a1q_reg.mk 0x5d2d 0x0004, ov16a1q_reg.mk 0x5d34 0x0000, ov16a1q_reg.mk 0x5d35 0x0008, ov16a1q_reg.mk 0x5d36 0x0000,
  ov16a1q_reg.mk 0x5d37 0x0004, ov16a1q_reg.mk 0x5d4a 0x0000, ov16a1q_reg.mk 0x5d4c 0x0000
]

/-- The mode table `ov16a1q_2304x1728_4lane_regs[]`. -/
def ov16a1q_2304x1728_4lane_regs : List ov16a1q_reg := [
  ov16a1q_reg.mk 0x0305 0x00e1, ov16a1q_reg.mk 0x0307 0x0001, ov16a1q_reg.mk 0x4837 0x0014, ov16a1q_reg.mk 0x0329 0x0001,
  ov16a1q_reg.mk 0x0344 0x0001, ov16a1q_reg.mk 0x0345 0x0077, ov16a1q_reg.mk 0x034a 0x0007, ov16a1q_reg.mk 0x3608 0x0075,
  ov16a1q_reg.mk 0x360a 0x0069, ov16a1q_reg.mk 0x361a 0x008b, ov16a1q_reg.mk 0x361e 0x0030, ov16a1q_reg.mk 0x3639 0x0093,
  ov16a1q_reg.mk 0x363a 0x0099, ov16a1q_reg.mk 0x3642 0x0098, ov16a1q_reg.mk 0x3654 0x008a, ov16a1q_reg.mk 0x3656 0x000c,
  ov16a1q_reg.mk 0x3663 0x0001, ov16a1q_reg.mk 0x370e 0x0005, ov16a1q_reg.mk 0x3712 0x0008, ov16a1q_reg.mk 0x3713 0x00c0,
  ov16a1q_reg.mk 0x3714 0x00e2, ov16a1q_reg.mk 0x37d0 0x0002, ov16a1q_reg.mk 0x37d1 0x0010, ov16a1q_reg.mk 0x37db 0x0004,
  ov16a1q_reg.mk 0x3808 0x0009, ov16a1q_reg.mk 0x3809 0x0000, ov16a1q_reg.mk 0x380a 0x0006, ov16a1q_reg.mk 0x380b 0x00c0,
  ov16a1q_reg.mk 0x380c 0x0003, ov16a1q_reg.mk 0x380d 0x0052, ov16a1q_reg.mk 0x380e 0x000f, ov16a1q_reg.mk 0x380f 0x0050,
  ov16a1q_reg.mk 0x3814 0x0022, ov16a1q_reg.mk 0x3815 0x0022, ov16a1q_reg.mk 0x3820 0x0001, ov16a1q_reg.mk 0x3821 0x000c,
  ov16a1q_reg.mk 0x3822 0x0000, ov16a1q_reg.mk 0x383c 0x0022, ov16a1q_reg.mk 0x383f 0x0033, ov16a1q_reg.mk 0x4015 0x0002,
  ov16a1q_reg.mk 0x4016 0x000d, ov16a1q_reg.mk 0x4017 0x0000, ov16a1q_reg.mk 0x4018 0x0007, ov16a1q_reg.mk 0x401b 0x001f,
  ov16a1q_reg.mk 0x401f 0x00fe, ov16a1q_reg.mk 0x4500 0x0020, ov16a1q_reg.mk 0x4501 0x006a, ov16a1q_reg.mk 0x4502 0x00e4,
  ov16a1q_reg.mk 0x4e05 0x0004, ov16a1q_reg.mk 0x4e11 0x0006, ov16a1q_reg.mk 0x4e1d 0x0025, ov16a1q_reg.mk 0x4e26 0x0044,
  ov16a1q_reg.mk 0x4e29 0x006d, ov16a1q_reg.mk 0x5000 0x0009, ov16a1q_reg.mk 0x5001 0x0042, ov16a1q_reg.mk 0x5003 0x0042,
  ov16a1q_reg.mk 0x5820 0x00c5, ov16a1q_reg.mk 0x5854 0x0000, ov16a1q_reg.mk 0x5bd0 0x0019, ov16a1q_reg.mk 0x5c0e 0x0013,
  ov16a1q_reg.mk 0x5c11 0x0000, ov16a1q_reg.mk 0x5c16 0x0001, ov16a1q_reg.mk 0x5c17 0x0000, ov16a1q_reg.mk 0x5c1a 0x0000,
  ov16a1q_reg.mk 0x5c1b 0x0000, ov16a1q_reg.mk 0x5c21 0x0008, ov16a1q_reg.mk 0x5c22 0x0008, ov16a1q_reg.mk 0x5c23 0x0002,
  ov16a1q_reg.mk 0x5c24 0x0006, ov16a1q_reg.mk 0x5c25 0x0002, ov16a1q_reg.mk 0x5c26 0x0006, ov16a1q_reg.mk 0x5c27 0x0002,
  ov16a1q_reg.mk 0x5c28 0x0006, ov16a1q_reg.mk 0x5c29 0x0002, ov16a1q_reg.mk 0x5c2a 0x0006, ov16a1q_reg.mk 0x5c2b 0x0000,
  ov16a1q_reg.mk 0x5c2c 0x0000, ov16a1q_reg.mk 0x5d01 0x0007, ov16a1q_reg.mk 0x5d08 0x0008, ov16a1q_reg.mk 0x5d09 0x0008,
  ov16a1q_reg.mk 0x5d0a 0x0002, ov16a1q_reg.mk 0x5d0b 0x0006, ov16a1q_reg.mk 0x5d0c 0x0002, ov16a1q_reg.mk 0x5d0d 0x0006,
  ov16a1q_reg.mk 0x5d0e 0x0002, ov16a1q_reg.mk 0x5d0f 0x0006, ov16a1q_reg.mk 0x5d10 0x0002, ov16a1q_reg.mk 0x5d11 0x0006,
  ov16a1q_reg.mk 0x5d12 0x0000, ov16a1q_reg.mk 0x5d13 0x0000, ov16a1q_reg.mk 0x3500 0x0000, ov16a1q_reg.mk 0x3501 0x0007,
  ov16a1q_reg.mk 0x3502 0x003c, ov16a1q_reg.mk 0x3508 0x0001, ov16a1q_reg.mk 0x3509 0x0000
]

/-- The mode catalog `ov16a1q_modes[]`. -/
def ov16a1q_modes : List ov16a1q_mode := [
  { width := 2304, height := 1728, hts := 2550, vts := 3920,
    link_freq := 180000000, lane_count := 4, depth := 10,
    reg_list := ov16a1q_2304x1728_4lane_regs,
    mbus_code := MEDIA_BUS_FMT_SBGGR10_1X10 }]

/-! ## Register transport -/

/-- Bytes written by `put_unaligned_be16` for a `u16` argument. -/
def put_unaligned_be16 (v : Nat) : List Nat :=
  [v / 256 % 256, v % 256]

/-- Bytes written by `put_unaligned_be32` for a `u32` argument. -/
def put_unaligned_be32 (v : Nat) : List Nat :=
  [v / 16777216 % 256, v / 65536 % 256, v / 256 % 256, v % 256]

/-- Value read by `get_unaligned_be32` from a four byte buffer. -/
def get_unaligned_be32 (b : List Nat) : Nat :=
  b.getD 0 0 * 16777216 + b.getD 1 0 * 65536 + b.getD 2 0 * 256 + b.getD 3 0

/-- Embedding of `ov16a1q_write`: returns the status and the device state after the call.
`val << 8 * (4 - len)` is taken in 32 bits.  (For `len = 0` the C shift count
is 32; the four value bytes it produces lie beyond the two bytes that are
sent.) -/
def ov16a1q_write (env : Env) (d : ov16a1q) (reg len val : Nat) : Int × ov16a1q :=
  if len > 4 then
    (- EINVAL, d)
  else
    let buf := put_unaligned_be16 reg ++ put_unaligned_be32 ((val <<< (8 * (4 - len))) % 2 ^ 32)
    let frame := buf.take (len + 2)
    if env.i2c_master_send d.bus_hist frame ≠ ((len + 2 : Nat) : Int) then
      (- EIO, { d with bus_hist := d.bus_hist ++ [BusOp.send frame] })
    else
      (0, { d with bus_hist := d.bus_hist ++ [BusOp.send frame] })

/-- Embedding of `ov16a1q_write_reg_list`: `ret` starts at 0 and each iteration of the loop
overwrites it with the status of the width-1 write of the next entry. -/
def ov16a1q_write_reg_list (env : Env) (d : ov16a1q) (reg_list : List ov16a1q_reg) :
    Int × ov16a1q :=
  reg_list.foldl (fun acc r => ov16a1q_write env acc.2 r.address 1 r.val) (0, d)

/-- Embedding of `ov16a1q_read`: returns the status, the content of `*val` after the call
(`val0` is its content before) and the device state after the call.  The read
message points at `data_buf[4 - len]`, so the `len` received bytes land at the
low-order end of the zeroed four byte buffer. -/
def ov16a1q_read (env : Env) (d : ov16a1q) (reg len val0 : Nat) : Int × Nat × ov16a1q :=
  if len > 4 then
    (- EINVAL, val0, d)
  else
    let addr_buf := put_unaligned_be16 reg
    let res := env.i2c_transfer d.bus_hist addr_buf len
    let data_buf := List.replicate (4 - len) 0 ++ (List.range len).map (fun i => res.2 i % 256)
    if res.1 ≠ 2 then
      (- EIO, val0, { d with bus_hist := d.bus_hist ++ [BusOp.transfer addr_buf len] })
    else
      (0, get_unaligned_be32 data_buf,
        { d with bus_hist := d.bus_hist ++ [BusOp.transfer addr_buf len] })

/-! ## Runtime PM and the state lock -/

/-- Modelled from the spec: the runtime-power reference is a counter.
`pm_runtime_resume_and_get` takes a reference and resumes the device; when the
resume fails it drops the reference again and returns the error, otherwise it
returns 0. -/
def pm_runtime_resume_and_get (env : Env) (d : ov16a1q) : Int × ov16a1q :=
  if env.rpm_resume d < 0 then
    (env.rpm_resume d, d)
  else
    (0, { d with usage_count := d.usage_count + 1 })

/-- Modelled from the spec: `pm_runtime_get_if_in_use` takes a reference
exactly when it returns a positive value. -/
def pm_runtime_get_if_in_use (env : Env) (d : ov16a1q) : Int × ov16a1q :=
  if env.get_if_in_use d > 0 then
    (env.get_if_in_use d, { d with usage_count := d.usage_count + 1 })
  else
    (env.get_if_in_use d, d)

/-- Modelled from the spec: `pm_runtime_put` releases one reference. -/
def pm_runtime_put (d : ov16a1q) : ov16a1q :=
  { d with usage_count := d.usage_count - 1 }

/-- Modelled from the spec: `pm_runtime_put_sync` releases one reference. -/
def pm_runtime_put_sync (d : ov16a1q) : ov16a1q :=
  { d with usage_count := d.usage_count - 1 }

/-- Modelled from the spec: `pm_runtime_put_autosuspend` releases one
reference (the power-down itself is deferred). -/
def pm_runtime_put_autosuspend (d : ov16a1q) : ov16a1q :=
  { d with usage_count := d.usage_count - 1 }

/-- Modelled from the spec: `pm_runtime_mark_last_busy` only refreshes the
idle timestamp. -/
def pm_runtime_mark_last_busy (d : ov16a1q) : ov16a1q := d

/-- Modelled from the spec: `v4l2_subdev_lock_and_get_active_state` takes the
active-state lock. -/
def v4l2_subdev_lock_and_get_active_state (d : ov16a1q) : ov16a1q :=
  { d with state_locks := d.state_locks + 1 }

/-- Modelled from the spec: `v4l2_subdev_unlock_state` releases the
active-state lock. -/
def v4l2_subdev_unlock_state (d : ov16a1q) : ov16a1q :=
  { d with state_unlocks := d.state_unlocks + 1 }

/-! ## Controls -/

/-- Modelled from the spec: `__v4l2_ctrl_modify_range` installs the range
`[min, max]`, the step and the default of a control and brings the current
value into the new range; a range the framework rejects (zero step, empty
range, default outside it) changes nothing. -/
def v4l2_ctrl_modify_range (c : v4l2_ctrl) (min max : Int) (step : Nat) (dflt : Int) :
    v4l2_ctrl :=
  if step = 0 ∨ max < min ∨ dflt < min ∨ max < dflt then
    c
  else
    { c with minimum := min, maximum := max, step := step, default_value := dflt,
             val := if c.val < min then min else if max < c.val then max else c.val }

/-- Conversion of an `s32` to `u32`. -/
def to_u32 (v : Int) : Nat := (v % 4294967296).toNat

/-- Embedding of `ov16a1q_set_ctrl` for the control `id` with new value `val`. -/
def ov16a1q_set_ctrl (env : Env) (d : ov16a1q) (id : Nat) (val : Int) : Int × ov16a1q :=
  let d1 : ov16a1q :=
    if id = V4L2_CID_VBLANK then
      let exposure_max : Nat := (d.cur_mode.height + to_u32 val + (4294967296 - 2)) % 4294967296
      { d with ctrl_handler := d.ctrl_handler.map (fun c =>
          if c.id = V4L2_CID_EXPOSURE then
            v4l2_ctrl_modify_range c c.minimum exposure_max c.step exposure_max
          else c) }
    else d
  let g := pm_runtime_get_if_in_use env d1
  if g.1 = 0 then
    (0, g.2)
  else
    let w : Int × ov16a1q :=
      if id = V4L2_CID_EXPOSURE then
        ov16a1q_write env g.2 0x3500 3 (to_u32 val)
      else if id = V4L2_CID_ANALOGUE_GAIN then
        ov16a1q_write env g.2 0x3508 2 (to_u32 val)
      else if id = V4L2_CID_VBLANK then
        ov16a1q_write env g.2 0x380e 2 ((d.cur_mode.height + to_u32 val) % 4294967296)
      else
        (- EINVAL, g.2)
    (w.1, pm_runtime_put w.2)

/-- Modelled from the spec: the loop of `__v4l2_ctrl_handler_setup` over the
control positions `idx`; each control is looked up when its turn comes, so a
range update made by an earlier `s_ctrl` call is seen. -/
def ctrl_handler_setup_loop (env : Env) : List Nat → ov16a1q → Int × ov16a1q
  | [], d => (0, d)
  | i :: idx, d =>
    match d.ctrl_handler.get? i with
    | none => ctrl_handler_setup_loop env idx d
    | some c =>
      if c.flags &&& V4L2_CTRL_FLAG_READ_ONLY ≠ 0 then
        ctrl_handler_setup_loop env idx d
      else
        let r := ov16a1q_set_ctrl env d c.id c.val
        if r.1 ≠ 0 then r else ctrl_handler_setup_loop env idx r.2

/-- Modelled from the spec: `__v4l2_ctrl_handler_setup` re-applies the current
control state: it walks the controls of the handler in creation order, skips
the read-only ones, hands the current value of every other control to the
driver's `s_ctrl` operation (`ov16a1q_set_ctrl`), and stops at the first
error. -/
def v4l2_ctrl_handler_setup (env : Env) (d : ov16a1q) : Int × ov16a1q :=
  ctrl_handler_setup_loop env (List.range d.ctrl_handler.length) d

/-! ## Streaming -/

/-- Embedding of `ov16a1q_start_stream`. -/
def ov16a1q_start_stream (env : Env) (d : ov16a1q) : Int × ov16a1q :=
  let r1 := ov16a1q_write_reg_list env d ov16a1q_regs
  if r1.1 ≠ 0 then r1
  else
    let r2 := ov16a1q_write_reg_list env r1.2 r1.2.cur_mode.reg_list
    if r2.1 ≠ 0 then r2
    else
      let r3 := v4l2_ctrl_handler_setup env r2.2
      if r3.1 ≠ 0 then r3
      else
        let r4 := ov16a1q_write env r3.2 0x0100 1 0x01
        if r4.1 ≠ 0 then r4 else (0, r4.2)

/-- Embedding of `ov16a1q_stop_stream`. -/
def ov16a1q_stop_stream (env : Env) (d : ov16a1q) : Int × ov16a1q :=
  let r := ov16a1q_write env d 0x0100 1 0x00
  if r.1 ≠ 0 then r else (0, r.2)

/-- Embedding of `ov16a1q_s_stream`; `enable` is the C argument `int on`. -/
def ov16a1q_s_stream (env : Env) (d : ov16a1q) (enable : Int) : Int × ov16a1q :=
  let d0 := v4l2_subdev_lock_and_get_active_state d
  if enable ≠ 0 then
    let g := pm_runtime_resume_and_get env d0
    if g.1 < 0 then
      (g.1, v4l2_subdev_unlock_state g.2)
    else
      let s := ov16a1q_start_stream env g.2
      if s.1 ≠ 0 then
        (s.1, v4l2_subdev_unlock_state (pm_runtime_put_sync s.2))
      else
        (s.1, v4l2_subdev_unlock_state s.2)
  else
    let t := ov16a1q_stop_stream env d0
    (0, v4l2_subdev_unlock_state (pm_runtime_put_autosuspend (pm_runtime_mark_last_busy t.2)))

/-! ## Reference notions used in the statements -/

/-- The low `len` bytes of `val`, most significant byte first. -/
def be_bytes (len val : Nat) : List Nat :=
  (List.range len).map (fun i => val / 256 ^ (len - 1 - i) % 256)

/-- Big-endian value of a byte string. -/
def be_decode (bytes : List Nat) : Nat :=
  bytes.foldl (fun acc b => acc * 256 + b) 0

/-- The frame of a register write: the address, high byte first, then the low
`len` bytes of the value, most significant first. -/
def write_frame (reg len val : Nat) : List Nat :=
  [reg / 256, reg % 256] ++ be_bytes len val

/-- The bytes a completed read of `rdlen` bytes leaves in the `u8` buffer. -/
def received (env : Env) (hist : List BusOp) (addr : List Nat) (rdlen : Nat) : List Nat :=
  (List.range rdlen).map (fun i => (env.i2c_transfer hist addr rdlen).2 i % 256)

/-- Modelled from the spec: the simulated bus keeps one byte per 16-bit
register address; a write frame stores its data bytes at consecutive
addresses starting at the frame's address. -/
def sim_store (mem : Nat → Nat) (a : Nat) : List Nat → Nat → Nat
  | [] => mem
  | b :: bs => sim_store (fun x => if x = a % 65536 then b else mem x) (a + 1) bs

/-- Modelled from the spec: effect of one transaction on the register file of
the simulated bus. -/
def sim_apply (mem : Nat → Nat) : BusOp → Nat → Nat
  | BusOp.send (hi :: lo :: data) => sim_store mem (hi * 256 + lo) data
  | _ => mem

/-- Modelled from the spec: register file of the simulated bus after the
history `hist`, starting from `mem0`. -/
def sim_mem (mem0 : Nat → Nat) (hist : List BusOp) : Nat → Nat :=
  hist.foldl sim_apply mem0

/-- Modelled from the spec: a simulated bus that stores written bytes at
consecutive register addresses and returns them on read; every transaction
completes fully.  Power acquisition succeeds and the device reports in use. -/
def sim_env (mem0 : Nat → Nat) : Env where
  i2c_master_send := fun _ frame => (frame.length : Int)
  i2c_transfer := fun hist addr _ => (2, fun i => sim_mem mem0 hist ((be_decode addr + i) % 65536))
  rpm_resume := fun _ => 0
  get_if_in_use := fun _ => 1

/-- The three bytes of a width-1 register write of a table entry: the
address, high byte first, and the low byte of the value. -/
def reg_frame (r : ov16a1q_reg) : List Nat :=
  [r.address / 256 % 256, r.address % 256, r.val % 256]

/-- The register a bus send is addressed to (its first two bytes, big-endian),
if it is a send carrying an address. -/
def op_reg : BusOp → Option Nat
  | BusOp.send (hi :: lo :: _) => some (hi * 256 + lo)
  | _ => none

/-- An environment in which the very first send on the bus is not
acknowledged (`-EREMOTEIO`) and every later transaction completes. -/
def env_nack_first : Env where
  i2c_master_send := fun hist frame => if hist = [] then -121 else (frame.length : Int)
  i2c_transfer := fun _ _ _ => (2, fun _ => 0)
  rpm_resume := fun _ => 0
  get_if_in_use := fun _ => 1

/-- Every send issued once the bus history extends `hist` completes in full:
the bus reports as many bytes as the frame has. -/
def sends_complete_after (env : Env) (hist : List BusOp) : Prop :=
  ∀ ext frame, env.i2c_master_send (hist ++ ext) frame = (frame.length : Int)

/-- Every control of the handler that is not read-only is one of the three
controls `ov16a1q_set_ctrl` writes to the sensor (the handler built by
`ov16a1q_init_ctrls` has this shape). -/
@[reducible] def writable_handled (d : ov16a1q) : Prop :=
  ∀ c ∈ d.ctrl_handler, c.flags &&& V4L2_CTRL_FLAG_READ_ONLY = 0 →
    c.id = V4L2_CID_VBLANK ∨ c.id = V4L2_CID_EXPOSURE ∨ c.id = V4L2_CID_ANALOGUE_GAIN

/-- The bus send is addressed to one of the three control registers. -/
def ctrl_reg_op (op : BusOp) : Prop :=
  op_reg op = some 0x3500 ∨ op_reg op = some 0x3508 ∨ op_reg op = some 0x380e

/-- First half of `ov16a1q_set_ctrl`: the propagation of a new vertical blank
to the range of the exposure control. -/
def set_ctrl_range (d : ov16a1q) (id : Nat) (val : Int) : ov16a1q :=
  if id = V4L2_CID_VBLANK then
    { d with ctrl_handler := d.ctrl_handler.map (fun c =>
        if c.id = V4L2_CID_EXPOSURE then
          v4l2_ctrl_modify_range c c.minimum
            (((d.cur_mode.height + to_u32 val + (4294967296 - 2)) % 4294967296 : Nat) : Int)
            c.step
            (((d.cur_mode.height + to_u32 val + (4294967296 - 2)) % 4294967296 : Nat) : Int)
        else c) }
  else d

/-- The `switch` of `ov16a1q_set_ctrl`: the register write selected by the
control id, on the state `s`. -/
def set_ctrl_hw (env : Env) (s : ov16a1q) (height id : Nat) (val : Int) : Int × ov16a1q :=
  if id = V4L2_CID_EXPOSURE then
    ov16a1q_write env s 0x3500 3 (to_u32 val)
  else if id = V4L2_CID_ANALOGUE_GAIN then
    ov16a1q_write env s 0x3508 2 (to_u32 val)
  else if id = V4L2_CID_VBLANK then
    ov16a1q_write env s 0x380e 2 ((height + to_u32 val) % 4294967296)
  else
    (- EINVAL, s)

/-- Second half of `ov16a1q_set_ctrl`: the power check, the register write
and the release of the reference, on the state `d1` left by the first half. -/
def set_ctrl_apply (env : Env) (d1 : ov16a1q) (height id : Nat) (val : Int) : Int × ov16a1q :=
  if (pm_runtime_get_if_in_use env d1).1 = 0 then
    (0, (pm_runtime_get_if_in_use env d1).2)
  else
    ((set_ctrl_hw env (pm_runtime_get_if_in_use env d1).2 height id val).1,
      pm_runtime_put (set_ctrl_hw env (pm_runtime_get_if_in_use env d1).2 height id val).2)

/-- The sends of a register table: one width-1 frame per entry, in table
order. -/
def table_ops (regs : List ov16a1q_reg) : List BusOp :=
  regs.map (fun r => BusOp.send (reg_frame r))

/-- The device state once the base table and the table of the active mode
have been put on the bus. -/
def tables_played (d : ov16a1q) : ov16a1q :=
  { d with bus_hist := d.bus_hist ++ table_ops ov16a1q_regs ++ table_ops d.cur_mode.reg_list }

/-- The state `d'` has the same lock counters as `d`. -/
def same_locks (d d' : ov16a1q) : Prop :=
  d'.state_locks = d.state_locks ∧ d'.state_unlocks = d.state_unlocks

/-- The state `d'` has the same runtime-PM usage count as `d`. -/
def same_usage (d d' : ov16a1q) : Prop :=
  d'.usage_count = d.usage_count

/-- The device state at the entry of `ov16a1q_start_stream` inside a
stream-enable request: the lock taken and the power reference acquired. -/
def stream_on_entry (d : ov16a1q) : ov16a1q :=
  { v4l2_subdev_lock_and_get_active_state d with
    usage_count := (v4l2_subdev_lock_and_get_active_state d).usage_count + 1 }

/-- A device state right after probe: nothing on the bus yet, the catalog's
mode active, and the six controls `ov16a1q_init_ctrls` creates for it, in
creation order and at their defaults (link frequency, pixel rate and
horizontal blank read-only). -/
def dev0 : ov16a1q where
  bus_hist := []
  usage_count := 0
  state_locks := 0
  state_unlocks := 0
  cur_mode := ov16a1q_modes.headD ⟨0, 0, 0, 0, 0, 0, 0, [], 0⟩
  ctrl_handler := [
    ⟨V4L2_CID_LINK_FREQ, V4L2_CTRL_FLAG_READ_ONLY, 0, 0, 0, 0, 0, [180000000]⟩,
    ⟨V4L2_CID_PIXEL_RATE, V4L2_CTRL_FLAG_READ_ONLY, 0, 144000000, 1, 144000000, 144000000, []⟩,
    ⟨V4L2_CID_HBLANK, V4L2_CTRL_FLAG_READ_ONLY, 246, 246, 1, 246, 246, []⟩,
    ⟨V4L2_CID_VBLANK, 0, 2192, 31031, 1, 2192, 2192, []⟩,
    ⟨V4L2_CID_EXPOSURE, 0, 0, 3916, 1, 3916, 3916, []⟩,
    ⟨V4L2_CID_ANALOGUE_GAIN, 0, 128, 1984, 1, 128, 128, []⟩]

/-! ## Power sequencing -/

/-- One call the power sequences make on the GPIO, clock, regulator and delay
services. -/
inductive PowerCall where
  | gpiod_set_value_cansleep (value : Nat)
  | clk_prepare_enable
  | clk_disable_unprepare
  | regulator_bulk_enable
  | regulator_bulk_disable
  | usleep_range (min max : Nat)
  deriving DecidableEq, Repr

/-- The resources `ov16a1q_power_on` and `ov16a1q_power_off` drive:
`reset_value` is the value last set on `reset_gpio`, `clk_enable_count` the
enable count of `xvclk`, `regulator_enable_count` the enable count of the bulk
of three supplies, and `calls` every call made so far, oldest first. -/
structure PowerState where
  reset_value : Nat
  clk_enable_count : Int
  regulator_enable_count : Int
  calls : List PowerCall
  deriving DecidableEq, Repr

/-- Results of the two calls of the power-on sequence that can fail, as
functions of the state they are made in. -/
structure PowerEnv where
  clk_prepare_enable : PowerState → Int
  regulator_bulk_enable : PowerState → Int

/-- Modelled from the spec: `gpiod_set_value_cansleep` on the reset line. -/
def gpiod_set_value_cansleep (p : PowerState) (value : Nat) : PowerState :=
  { p with reset_value := value,
           calls := p.calls ++ [PowerCall.gpiod_set_value_cansleep value] }

/-- Modelled from the spec: `clk_prepare_enable` takes one enable of the clock
exactly when it returns 0. -/
def clk_prepare_enable (env : PowerEnv) (p : PowerState) : Int × PowerState :=
  (env.clk_prepare_enable p,
    { p with clk_enable_count :=
               if env.clk_prepare_enable p = 0 then p.clk_enable_count + 1
               else p.clk_enable_count,
             calls := p.calls ++ [PowerCall.clk_prepare_enable] })

/-- Modelled from the spec: `clk_disable_unprepare` drops one enable of the
clock. -/
def clk_disable_unprepare (p : PowerState) : PowerState :=
  { p with clk_enable_count := p.clk_enable_count - 1,
           calls := p.calls ++ [PowerCall.clk_disable_unprepare] }

/-- Modelled from the spec: `regulator_bulk_enable` enables all supplies as a
unit exactly when it returns 0 (on failure it leaves none of them enabled). -/
def regulator_bulk_enable (env : PowerEnv) (p : PowerState) : Int × PowerState :=
  (env.regulator_bulk_enable p,
    { p with regulator_enable_count :=
               if env.regulator_bulk_enable p = 0 then p.regulator_enable_count + 1
               else p.regulator_enable_count,
             calls := p.calls ++ [PowerCall.regulator_bulk_enable] })

/-- Modelled from the spec: `regulator_bulk_disable` disables all supplies as
a unit; its result is not looked at. -/
def regulator_bulk_disable (p : PowerState) : PowerState :=
  { p with regulator_enable_count := p.regulator_enable_count - 1,
           calls := p.calls ++ [PowerCall.regulator_bulk_disable] }

/-- Modelled from the spec: `usleep_range` only lets time pass; the call is
recorded. -/
def usleep_range (p : PowerState) (min max : Nat) : PowerState :=
  { p with calls := p.calls ++ [PowerCall.usleep_range min max] }

/-- Embedding of `ov16a1q_power_on`. -/
def ov16a1q_power_on (env : PowerEnv) (p : PowerState) : Int × PowerState :=
  let p1 := gpiod_set_value_cansleep p 0
  let c := clk_prepare_enable env p1
  if c.1 ≠ 0 then
    (c.1, c.2)
  else
    let p2 := usleep_range c.2 2000 3000
    let r := regulator_bulk_enable env p2
    if r.1 ≠ 0 then
      (r.1, clk_disable_unprepare r.2)
    else
      let p3 := gpiod_set_value_cansleep r.2 1
      let p4 := usleep_range p3 1000 2000
      (0, p4)

/-- Embedding of `ov16a1q_power_off`. -/
def ov16a1q_power_off (p : PowerState) : Int × PowerState :=
  let p1 := gpiod_set_value_cansleep p 0
  let p2 := usleep_range p1 2000 3000
  let p3 := clk_disable_unprepare p2
  let p4 := usleep_range p3 2000 3000
  let p5 := regulator_bulk_disable p4
  (0, p5)

/-- The state in which `ov16a1q_power_on` asks for the clock. -/
def power_on_clk_state (p : PowerState) : PowerState :=
  gpiod_set_value_cansleep p 0

/-- The state in which `ov16a1q_power_on` asks for the regulators, once the
clock is enabled. -/
def power_on_regulator_state (env : PowerEnv) (p : PowerState) : PowerState :=
  usleep_range (clk_prepare_enable env (power_on_clk_state p)).2 2000 3000

/-- Resources as probe leaves them before the first power-on: reset line low,
nothing enabled, no call made. -/
def power0 : PowerState where
  reset_value := 0
  clk_enable_count := 0
  regulator_enable_count := 0
  calls := []

/-- A platform on which the clock and the regulators come up. -/
def power_env_ok : PowerEnv where
  clk_prepare_enable := fun _ => 0
  regulator_bulk_enable := fun _ => 0

/-- A platform on which the clock comes up and the regulators do not
(`-EIO`). -/
def power_env_no_regulator : PowerEnv where
  clk_prepare_enable := fun _ => 0
  regulator_bulk_enable := fun _ => -5

/-! ## Mode selection and derived timing -/

/-- The scan of `ov16a1q_parse_of` over the catalog `modes`: `cur_mode` is the
mode selected before the loop, `lanes` the number of data lanes of the
endpoint; the first entry with that lane count is selected and ends the
loop. -/
def parse_of_scan : List ov16a1q_mode → Option ov16a1q_mode → Nat → Option ov16a1q_mode
  | [], cur_mode, _ => cur_mode
  | mode :: rest, cur_mode, lanes =>
    if mode.lane_count ≠ lanes then parse_of_scan rest cur_mode lanes else some mode

/-- Embedding of `ov16a1q_parse_of`.  The firmware node is outside the driver:
`endpoint` is `none` when no endpoint is found, and otherwise holds the return
value of `v4l2_fwnode_endpoint_parse` together with the number of data lanes
it stored.  `cur_mode` is the mode pointer before the call (`none` for
`NULL`). -/
def ov16a1q_parse_of (endpoint : Option (Int × Nat)) (cur_mode : Option ov16a1q_mode) :
    Int × Option ov16a1q_mode :=
  match endpoint with
  | none => (- EINVAL, cur_mode)
  | some (ret, num_data_lanes) =>
    if ret ≠ 0 then
      (ret, cur_mode)
    else
      match parse_of_scan ov16a1q_modes cur_mode num_data_lanes with
      | none => (- EINVAL, none)
      | some mode => (0, some mode)

/-- Conversion of an integer to `s64` (two's complement). -/
def to_s64 (x : Int) : Int :=
  (x + 9223372036854775808) % 18446744073709551616 - 9223372036854775808

/-- Conversion of an integer to `u64`. -/
def to_u64 (x : Int) : Nat :=
  (x % 18446744073709551616).toNat

/-- Subtraction of two `u32` values. -/
def u32_sub (a b : Nat) : Nat :=
  (a + (4294967296 - b % 4294967296)) % 4294967296

/-- The pixel rate as `ov16a1q_init_ctrls` and `ov16a1q_set_fmt` compute it:
`mode->link_freq * 2 * mode->lane_count / mode->depth`, every intermediate
result an `s64`, the quotient stored in a `u64`. -/
def ov16a1q_pixel_rate (mode : ov16a1q_mode) : Nat :=
  to_u64 (Int.tdiv (to_s64 (to_s64 (mode.link_freq * 2) * (mode.lane_count : Int)))
    (mode.depth : Int))

/-- The horizontal blanking `mode->hts - mode->width`, a `u32`. -/
def mode_h_blank (mode : ov16a1q_mode) : Nat :=
  u32_sub mode.hts mode.width

/-- The vertical blanking `mode->vts - mode->height`, a `u32`. -/
def mode_v_blank (mode : ov16a1q_mode) : Nat :=
  u32_sub mode.vts mode.height

/-! ## Control initialisation -/

/-- The part of `struct v4l2_ctrl_handler` the initialisation goes through:
the controls created so far, in creation order, and the first error. -/
structure v4l2_ctrl_handler where
  ctrls : List v4l2_ctrl
  error : Int
  deriving DecidableEq, Repr

/-- Results of the framework calls of `ov16a1q_init_ctrls` that depend on the
platform: the return value of `v4l2_ctrl_handler_init`, the return value of
`v4l2_fwnode_device_parse`, and for `v4l2_ctrl_new_fwnode_properties` its
return value together with the controls it adds for the parsed properties. -/
structure InitEnv where
  v4l2_ctrl_handler_init : Int
  v4l2_fwnode_device_parse : Int
  v4l2_ctrl_new_fwnode_properties : Int × List v4l2_ctrl

/-- Modelled from the spec: the flags the framework gives a standard control
at creation; of the controls of this driver only the pixel rate is created
read-only. -/
def v4l2_ctrl_fill_flags (id : Nat) : Nat :=
  if id = V4L2_CID_PIXEL_RATE then V4L2_CTRL_FLAG_READ_ONLY else 0

/-- Modelled from the spec: `v4l2_ctrl_new_std` appends a control with the
given range, step and default, its value at the default.  Nothing is created
when the handler already holds an error; a range the framework rejects (zero
step, empty range, default outside it) creates nothing and records
`-ERANGE`. -/
def v4l2_ctrl_new_std (hdl : v4l2_ctrl_handler) (id : Nat) (min max : Int) (step : Nat)
    (dflt : Int) : v4l2_ctrl_handler :=
  if hdl.error ≠ 0 then
    hdl
  else if step = 0 ∨ max < min ∨ dflt < min ∨ max < dflt then
    { hdl with error := - ERANGE }
  else
    { hdl with ctrls := hdl.ctrls ++
        [v4l2_ctrl.mk id (v4l2_ctrl_fill_flags id) min max step dflt dflt []] }

/-- Modelled from the spec: `v4l2_ctrl_new_int_menu` appends an integer-menu
control whose entries are `qmenu_int`, with indices `0..max` and default index
`dflt`.  Nothing is created when the handler already holds an error; a default
index above `max` creates nothing and records `-ERANGE`. -/
def v4l2_ctrl_new_int_menu (hdl : v4l2_ctrl_handler) (id : Nat) (max dflt : Nat)
    (qmenu_int : List Int) : v4l2_ctrl_handler :=
  if hdl.error ≠ 0 then
    hdl
  else if max < dflt then
    { hdl with error := - ERANGE }
  else
    { hdl with ctrls := hdl.ctrls ++
        [v4l2_ctrl.mk id (v4l2_ctrl_fill_flags id) 0 max 0 dflt dflt qmenu_int] }

/-- The statement `if (ctrl) ctrl->flags |= flag;` for the control `id` of the
handler (the pointer is `NULL` exactly when the control was not created). -/
def ctrl_or_flags (hdl : v4l2_ctrl_handler) (id flag : Nat) : v4l2_ctrl_handler :=
  { hdl with ctrls := hdl.ctrls.map (fun c =>
      if c.id = id then { c with flags := c.flags ||| flag } else c) }

/-- Embedding of `ov16a1q_init_ctrls` for the active mode `mode`: returns the
status and the controls of the handler installed in the subdevice (none on a
failure, where the handler is freed). -/
def ov16a1q_init_ctrls (ienv : InitEnv) (mode : ov16a1q_mode) : Int × List v4l2_ctrl :=
  if ienv.v4l2_ctrl_handler_init ≠ 0 then
    (ienv.v4l2_ctrl_handler_init, [])
  else
    let h0 : v4l2_ctrl_handler := { ctrls := [], error := 0 }
    let h1 := ctrl_or_flags (v4l2_ctrl_new_int_menu h0 V4L2_CID_LINK_FREQ (1 - 1) 0
      [mode.link_freq]) V4L2_CID_LINK_FREQ V4L2_CTRL_FLAG_READ_ONLY
    let pixel_rate := ov16a1q_pixel_rate mode
    let h2 := v4l2_ctrl_new_std h1 V4L2_CID_PIXEL_RATE 0 (to_s64 pixel_rate) 1
      (to_s64 pixel_rate)
    let h_blank := mode_h_blank mode
    let h3 := ctrl_or_flags (v4l2_ctrl_new_std h2 V4L2_CID_HBLANK h_blank h_blank 1 h_blank)
      V4L2_CID_HBLANK V4L2_CTRL_FLAG_READ_ONLY
    let v_blank := mode_v_blank mode
    let h4 := v4l2_ctrl_new_std h3 V4L2_CID_VBLANK v_blank (u32_sub 0x7ff7 mode.height) 1 v_blank
    let exposure_max := u32_sub mode.vts 4
    let h5 := v4l2_ctrl_new_std h4 V4L2_CID_EXPOSURE 0 exposure_max 1 exposure_max
    let h6 := v4l2_ctrl_new_std h5 V4L2_CID_ANALOGUE_GAIN 128 1984 1 128
    if h6.error ≠ 0 then
      (h6.error, [])
    else if ienv.v4l2_fwnode_device_parse ≠ 0 then
      (ienv.v4l2_fwnode_device_parse, [])
    else if ienv.v4l2_ctrl_new_fwnode_properties.1 ≠ 0 then
      (ienv.v4l2_ctrl_new_fwnode_properties.1, [])
    else
      (0, h6.ctrls ++ ienv.v4l2_ctrl_new_fwnode_properties.2)

/-- The handler as the six creation calls of `ov16a1q_init_ctrls` leave it,
before its error is looked at. -/
def init_ctrls_created (mode : ov16a1q_mode) : v4l2_ctrl_handler :=
  v4l2_ctrl_new_std
    (v4l2_ctrl_new_std
      (v4l2_ctrl_new_std
        (ctrl_or_flags
          (v4l2_ctrl_new_std
            (v4l2_ctrl_new_std
              (ctrl_or_flags
                (v4l2_ctrl_new_int_menu { ctrls := [], error := 0 } V4L2_CID_LINK_FREQ (1 - 1) 0
                  [mode.link_freq])
                V4L2_CID_LINK_FREQ V4L2_CTRL_FLAG_READ_ONLY)
              V4L2_CID_PIXEL_RATE 0 (to_s64 (ov16a1q_pixel_rate mode)) 1
              (to_s64 (ov16a1q_pixel_rate mode)))
            V4L2_CID_HBLANK (mode_h_blank mode) (mode_h_blank mode) 1 (mode_h_blank mode))
          V4L2_CID_HBLANK V4L2_CTRL_FLAG_READ_ONLY)
        V4L2_CID_VBLANK (mode_v_blank mode) (u32_sub 0x7ff7 mode.height) 1 (mode_v_blank mode))
      V4L2_CID_EXPOSURE 0 (u32_sub mode.vts 4) 1 (u32_sub mode.vts 4))
    V4L2_CID_ANALOGUE_GAIN 128 1984 1 128

/-- The arguments (minimum, maximum, step, default) of the
`__v4l2_ctrl_modify_range` call on the vertical blank control in
`ov16a1q_set_fmt`. -/
def set_fmt_vblank_range (mode : ov16a1q_mode) : Int × Int × Nat × Int :=
  ((mode_v_blank mode : Int), (u32_sub 0xffff mode.height : Int), 1, (mode_v_blank mode : Int))

/-- A platform on which control initialisation meets no error and the firmware
node carries no orientation or rotation property. -/
def init_env_ok : InitEnv where
  v4l2_ctrl_handler_init := 0
  v4l2_fwnode_device_parse := 0
  v4l2_ctrl_new_fwnode_properties := (0, [])

/-! ## Writes to the vertical blank control -/

/-- Modelled from the spec: a write of `v` to the vertical blank control
through the control framework.  The new value is handed to the driver's
`s_ctrl` operation (`ov16a1q_set_ctrl`); it becomes the current value of the
control when that returns 0. -/
def vblank_write (env : Env) (d : ov16a1q) (v : Int) : ov16a1q :=
  if (ov16a1q_set_ctrl env d V4L2_CID_VBLANK v).1 = 0 then
    { (ov16a1q_set_ctrl env d V4L2_CID_VBLANK v).2 with
      ctrl_handler := (ov16a1q_set_ctrl env d V4L2_CID_VBLANK v).2.ctrl_handler.map (fun c =>
        if c.id = V4L2_CID_VBLANK then { c with val := v } else c) }
  else
    (ov16a1q_set_ctrl env d V4L2_CID_VBLANK v).2

/-- The range the statement under test gives the exposure control: minimum 0
and maximum `vts - 4`, with `vts` the height of the active mode plus the
current value of the vertical blank control. -/
@[reducible] def exposure_range_vts_minus_4 (d : ov16a1q) : Prop :=
  ∀ e ∈ d.ctrl_handler, e.id = V4L2_CID_EXPOSURE →
    ∀ b ∈ d.ctrl_handler, b.id = V4L2_CID_VBLANK →
      e.minimum = 0 ∧ e.maximum = (d.cur_mode.height : Int) + b.val - 4

/-- The maximum of the exposure control after the vertical blank writes `vs`
(oldest first) that followed control initialisation for `mode`. -/
def exposure_max_after (mode : ov16a1q_mode) (vs : List Int) : Int :=
  match vs.getLast? with
  | none => (mode.vts : Int) - 4
  | some v => (mode.height : Int) + v - 2

/-! ## Sensor identification -/

/-- Embedding of `ov16a1q_check_sensor_id`: `id` starts at 0 and is filled by
one 2-byte read of register 0x300b. -/
def ov16a1q_check_sensor_id (env : Env) (d : ov16a1q) : Int × ov16a1q :=
  let r := ov16a1q_read env d 0x300b 2 0
  if r.1 ≠ 0 then
    (r.1, r.2.2)
  else if r.2.1 ≠ 0x1641 then
    (- ENODEV, r.2.2)
  else
    (0, r.2.2)

/-- An environment in which the bus works and the device is not in use: the
runtime-PM query reports 0. -/
def env_not_in_use : Env where
  i2c_master_send := fun _ frame => (frame.length : Int)
  i2c_transfer := fun _ _ _ => (2, fun _ => 0)
  rpm_resume := fun _ => 0
  get_if_in_use := fun _ => 0

/-- The result of the register write `ov16a1q_write` issues for the frame of
`len` value bytes on the bus history `hist`: 0 when the bus reports the whole
frame, `-EIO` otherwise. -/
def write_result (env : Env) (hist : List BusOp) (reg len val : Nat) : Int :=
  if env.i2c_master_send hist (write_frame reg len val) = ((len + 2 : Nat) : Int) then 0
  else - EIO

/-! ## Format negotiation -/

/-- Value of `V4L2_SUBDEV_FORMAT_TRY`. -/
def V4L2_SUBDEV_FORMAT_TRY : Nat := 0

/-- Value of `V4L2_SUBDEV_FORMAT_ACTIVE`. -/
def V4L2_SUBDEV_FORMAT_ACTIVE : Nat := 1

/-- Value of `V4L2_FIELD_NONE`. -/
def V4L2_FIELD_NONE : Nat := 1

/-- The fields of `struct v4l2_mbus_framefmt` the driver writes. -/
structure v4l2_mbus_framefmt where
  width : Nat
  height : Nat
  code : Nat
  field : Nat
  deriving DecidableEq, Repr

/-- The fields of `struct v4l2_subdev_format` the driver reads and writes. -/
structure v4l2_subdev_format where
  which : Nat
  format : v4l2_mbus_framefmt
  deriving DecidableEq, Repr

/-- Conversion of an integer to `s32` (two's complement). -/
def to_s32 (x : Int) : Int :=
  (x + 2147483648) % 4294967296 - 2147483648

/-- Modelled from the spec: the search loop of `v4l2_find_nearest_size` over
the remaining entries.  The distance of an entry is the sum of the absolute
differences of its width and height to the requested ones, a `u32`; an entry
farther away than the best so far is skipped, any other entry becomes the
best, and a distance of 0 ends the search. -/
def nearest_size_loop : List ov16a1q_mode → Int → Int → Nat → Option ov16a1q_mode →
    Option ov16a1q_mode
  | [], _, _, _, best => best
  | entry :: rest, width, height, min_error, best =>
    let error : Nat :=
      ((to_s32 ((entry.width : Int) - width)).natAbs +
        (to_s32 ((entry.height : Int) - height)).natAbs) % 4294967296
    if error > min_error then
      nearest_size_loop rest width height min_error best
    else if error = 0 then
      some entry
    else
      nearest_size_loop rest width height error (some entry)

/-- Modelled from the spec: `v4l2_find_nearest_size` returns the entry of the
array whose size is nearest to the requested one (`none` stands for `NULL`,
which only an empty array gives); the search starts with the largest `u32`
as the distance to beat. -/
def v4l2_find_nearest_size (modes : List ov16a1q_mode) (width height : Int) :
    Option ov16a1q_mode :=
  nearest_size_loop modes width height 4294967295 none

/-- Modelled from the spec: `__v4l2_ctrl_s_ctrl_int64` on a control without a
driver operation (the pixel rate): the new value, brought into the range of
the control, becomes its current value. -/
def v4l2_ctrl_s_ctrl_int64 (c : v4l2_ctrl) (val : Int) : v4l2_ctrl :=
  { c with val := if val < c.minimum then c.minimum
                  else if c.maximum < val then c.maximum else val }

/-- The format `ov16a1q_set_fmt` writes back: code, width and height of the
mode, field order `V4L2_FIELD_NONE`. -/
def set_fmt_format (mode : ov16a1q_mode) (format : v4l2_mbus_framefmt) : v4l2_mbus_framefmt :=
  { format with code := mode.mbus_code, width := mode.width, height := mode.height,
                field := V4L2_FIELD_NONE }

/-- The `else` branch of `ov16a1q_set_fmt` up to the range update of the
vertical blank control: the mode becomes the active one, the pixel rate
control is set, and the vertical blank control gets the range of
`set_fmt_vblank_range`. -/
def set_fmt_ranges (d : ov16a1q) (mode : ov16a1q_mode) : ov16a1q :=
  { d with
    cur_mode := mode
    ctrl_handler := (d.ctrl_handler.map (fun c =>
        if c.id = V4L2_CID_PIXEL_RATE then
          v4l2_ctrl_s_ctrl_int64 c (to_s64 (ov16a1q_pixel_rate mode))
        else c)).map (fun c =>
        if c.id = V4L2_CID_VBLANK then
          v4l2_ctrl_modify_range c (set_fmt_vblank_range mode).1 (set_fmt_vblank_range mode).2.1
            (set_fmt_vblank_range mode).2.2.1 (set_fmt_vblank_range mode).2.2.2
        else c) }

/-- The end of the `else` branch of `ov16a1q_set_fmt`: the range update of the
horizontal blank control. -/
def set_fmt_hblank (d : ov16a1q) (mode : ov16a1q_mode) : ov16a1q :=
  { d with ctrl_handler := d.ctrl_handler.map (fun c =>
      if c.id = V4L2_CID_HBLANK then
        v4l2_ctrl_modify_range c (mode_h_blank mode) (mode_h_blank mode) 1 (mode_h_blank mode)
      else c) }

/-- Embedding of `ov16a1q_set_fmt`: returns the status, the device state, the
format stored in `state` (pad 0) and the caller's `fmt` after the call.
`__v4l2_ctrl_s_ctrl` on the vertical blank control is `vblank_write`; its
result is not looked at.  `none` stands for the dereference of a `NULL` mode,
which needs an empty catalog. -/
def ov16a1q_set_fmt (env : Env) (d : ov16a1q) (state_format : v4l2_mbus_framefmt)
    (fmt : v4l2_subdev_format) :
    Option (Int × ov16a1q × v4l2_mbus_framefmt × v4l2_subdev_format) :=
  match v4l2_find_nearest_size ov16a1q_modes fmt.format.width fmt.format.height with
  | none => none
  | some mode =>
    if fmt.which = V4L2_SUBDEV_FORMAT_TRY then
      some (0, d, set_fmt_format mode fmt.format,
        { fmt with format := set_fmt_format mode fmt.format })
    else
      some (0,
        set_fmt_hblank
          (vblank_write env (set_fmt_ranges d mode) (to_s32 (mode_v_blank mode))) mode,
        state_format, { fmt with format := set_fmt_format mode fmt.format })

/-- A format request for the active configuration, asking for 640x480. -/
def fmt_request_active : v4l2_subdev_format :=
  { which := V4L2_SUBDEV_FORMAT_ACTIVE, format := { width := 640, height := 480, code := 0, field := 0 } }

/-! ## Register map left by the tables -/

/-- The byte the last entry of `regs` addressed to register `a` stores there
(the low byte of its value), if any entry addresses `a`: a later entry
overrides an earlier one. -/
def last_write : List ov16a1q_reg → Nat → Option Nat
  | [], _ => none
  | r :: rest, a =>
    match last_write rest a with
    | some v => some v
    | none => if a = r.address % 65536 then some (r.val % 256) else none

/-- The 16-bit value of the register pair at `a` and `a + 1` of the register
file `mem`, high byte first. -/
def reg_pair (mem : Nat → Nat) (a : Nat) : Nat :=
  mem a * 256 + mem (a + 1)

end Ov16a1q

namespace Drv2624

/-! ## The drv2624 haptics driver: constants -/

/-- Register `DRV2624_MODE`. -/
def DRV2624_MODE : Nat := 0x07

/-- Register `DRV2624_CONTROL1`. -/
def DRV2624_CONTROL1 : Nat := 0x08

/-- Register `DRV2624_GO`. -/
def DRV2624_GO : Nat := 0x0c

/-- Register `DRV2624_CONTROL2`. -/
def DRV2624_CONTROL2 : Nat := 0x0d

/-- Register `DRV2624_RATED_VOLTAGE`. -/
def DRV2624_RATED_VOLTAGE : Nat := 0x1f

/-- Register `DRV2624_OVERDRIVE_CLAMP`. -/
def DRV2624_OVERDRIVE_CLAMP : Nat := 0x20

/-- Register `DRV2624_DRIVE_TIME`. -/
def DRV2624_DRIVE_TIME : Nat := 0x27

/-- Register `DRV2624_OPENLOOP_PERIOD_H`. -/
def DRV2624_OPENLOOP_PERIOD_H : Nat := 0x2e

/-- Register `DRV2624_OPENLOOP_PERIOD_L`. -/
def DRV2624_OPENLOOP_PERIOD_L : Nat := 0x2f

def DRV2624_PINFUNC_MASK : Nat := 0x0c
def DRV2624_PINFUNC_INT : Nat := 0x02
def DRV2624_PINFUNC_SHIFT : Nat := 0x02
def DRV2624_MODE_MASK : Nat := 0x03
def DRV2624_MODE_CALIBRATION : Nat := 0x03
def DRV2624_ACTUATOR_MASK : Nat := 0x80
def DRV2624_ACTUATOR_SHIFT : Nat := 0x07
def DRV2624_LOOP_MASK : Nat := 0x40
def DRV2624_LOOP_SHIFT : Nat := 0x06
def DRV2624_AUTOBRK_OK_MASK : Nat := 0x10
def DRV2624_AUTOBRK_OK_ENABLE : Nat := 0x10
def DRV2624_LIB_MASK : Nat := 0x80
def DRV2624_DRIVE_TIME_MASK : Nat := 0x1f
def DRV2624_MINFREQ_SEL_45HZ : Nat := 0x01
def DRV2624_MINFREQ_SEL_MASK : Nat := 0x80
def DRV2624_MINFREQ_SEL_SHIFT : Nat := 0x07

/-- Actuator type `DRV2624_ERM_MODE` of the device tree binding. -/
def DRV2624_ERM_MODE : Nat := 0x00

/-- Actuator type `DRV2624_LRA_MODE` of the device tree binding. -/
def DRV2624_LRA_MODE : Nat := 0x01

/-! ## The drv2624 haptics driver: data model -/

/-- One call into the register map of the device. -/
inductive RegmapOp where
  | write (reg val : Nat)
  | update_bits (reg mask val : Nat)
  | read (reg : Nat)
  deriving DecidableEq, Repr

/-- Embedding of `struct drv2624_data`: the fields the driver computes with,
the calls made on `regmap` so far (oldest first), and the number of times
`work` was scheduled. -/
structure drv2624_data where
  regmap_hist : List RegmapOp
  work_scheduled : Nat
  magnitude : Nat
  mode : Nat
  lra_frequency : Nat
  rated_voltage : Int
  overdrive_voltage : Int
  deriving DecidableEq, Repr

/-- The register map is outside the driver: the error code of each call is a
function of the calls made before it and of its arguments, and so is the value
a read stores. -/
structure RegmapEnv where
  regmap_write : List RegmapOp → Nat → Nat → Int
  regmap_update_bits : List RegmapOp → Nat → Nat → Nat → Int
  regmap_read : List RegmapOp → Nat → Int × Nat

/-! ## The drv2624 haptics driver: operations -/

/-- Embedding of `drv2624_haptics_play` for the rumble effect with the
magnitudes `strong_magnitude` and `weak_magnitude` (both `__u16`); the
assignment to the `u8` field `magnitude` keeps the low eight bits. -/
def drv2624_haptics_play (haptics : drv2624_data) (strong_magnitude weak_magnitude : Nat) :
    Int × drv2624_data :=
  let m1 : Nat :=
    if strong_magnitude > 0 then (strong_magnitude >>> 8) % 256
    else if weak_magnitude > 0 then (weak_magnitude >>> 8) % 256
    else 0
  let m2 : Nat := if m1 > 0x7f then 0x7f else m1
  (0, { haptics with magnitude := m2, work_scheduled := haptics.work_scheduled + 1 })

/-- A `regmap_write` call: the call is recorded, its error code comes from the
register map. -/
def regmap_write (env : RegmapEnv) (haptics : drv2624_data) (reg val : Nat) :
    Int × drv2624_data :=
  (env.regmap_write haptics.regmap_hist reg val,
    { haptics with regmap_hist := haptics.regmap_hist ++ [RegmapOp.write reg val] })

/-- A `regmap_update_bits` call: the call is recorded, its error code comes
from the register map. -/
def regmap_update_bits (env : RegmapEnv) (haptics : drv2624_data) (reg mask val : Nat) :
    Int × drv2624_data :=
  (env.regmap_update_bits haptics.regmap_hist reg mask val,
    { haptics with regmap_hist := haptics.regmap_hist ++ [RegmapOp.update_bits reg mask val] })

/-- Modelled from the spec: `regmap_update_bits` replaces the bits of the
8-bit register selected by `mask` with the corresponding bits of `val` and
keeps the others (`old` is the content before). -/
def update_bits_result (old mask val : Nat) : Nat :=
  (old &&& (0xff ^^^ (mask &&& 0xff))) ||| (val &&& mask &&& 0xff)

/-- The value of `drive_time` in `drv2624_init` before the minimum-frequency
bit is added: `5 * (1000 - lra_frequency) / lra_frequency` in `unsigned int`;
`none` stands for the division by zero. -/
def lra_drive_time (lra_frequency : Nat) : Option Nat :=
  if lra_frequency % 4294967296 = 0 then
    none
  else
    some ((5 * ((1000 + (4294967296 - lra_frequency % 4294967296)) % 4294967296))
      % 4294967296 / (lra_frequency % 4294967296))

/-- The value of `open_loop_period` in `drv2624_init`:
`(unsigned short)(1000000000 / (24619 * lra_frequency))`, the product and the
quotient in `unsigned int`; `none` stands for the division by zero. -/
def lra_open_loop_period (lra_frequency : Nat) : Option Nat :=
  if (24619 * lra_frequency) % 4294967296 = 0 then
    none
  else
    some (1000000000 / ((24619 * lra_frequency) % 4294967296) % 65536)

/-- The `drive_time` argument of the `regmap_update_bits` call on
`DRV2624_DRIVE_TIME`: below 125 Hz the minimum-frequency bit is or-ed in. -/
def lra_drive_time_arg (lra_frequency drive_time : Nat) : Nat :=
  if lra_frequency < 125 then
    drive_time ||| (DRV2624_MINFREQ_SEL_45HZ <<< DRV2624_MINFREQ_SEL_SHIFT)
  else
    drive_time

/-- The block of `drv2624_init` for `DRV2624_LRA_MODE`. -/
def drv2624_init_lra (env : RegmapEnv) (haptics : drv2624_data) :
    Option (Int × drv2624_data) :=
  match lra_drive_time haptics.lra_frequency, lra_open_loop_period haptics.lra_frequency with
  | some drive_time, some open_loop_period =>
    let r1 := regmap_update_bits env haptics DRV2624_DRIVE_TIME
      (DRV2624_DRIVE_TIME_MASK ||| DRV2624_MINFREQ_SEL_MASK)
      (lra_drive_time_arg haptics.lra_frequency drive_time)
    if r1.1 ≠ 0 then some r1
    else
      let r2 := regmap_update_bits env r1.2 DRV2624_OPENLOOP_PERIOD_H 0x03
        ((open_loop_period &&& 0x0300) >>> 8)
      if r2.1 ≠ 0 then some r2
      else some (regmap_write env r2.2 DRV2624_OPENLOOP_PERIOD_L (open_loop_period &&& 0x00ff))
  | _, _ => none

/-- The `do ... while (cal_buf == 1)` loop that ends `drv2624_init`; `fuel`
bounds the number of reads of the GO register, `none` says the bound was
reached with the calibration still running. -/
def drv2624_init_poll (env : RegmapEnv) : Nat → drv2624_data → Option (Int × drv2624_data)
  | 0, _ => none
  | fuel + 1, haptics =>
    let r := env.regmap_read haptics.regmap_hist DRV2624_GO
    let h1 : drv2624_data :=
      { haptics with regmap_hist := haptics.regmap_hist ++ [RegmapOp.read DRV2624_GO] }
    if r.1 ≠ 0 then some (r.1, h1)
    else if r.2 = 1 then drv2624_init_poll env fuel h1
    else some (0, h1)

/-- Embedding of `drv2624_init`.  `fuel` bounds the reads of the final
polling loop. -/
def drv2624_init (env : RegmapEnv) (fuel : Nat) (haptics : drv2624_data) :
    Option (Int × drv2624_data) :=
  let r1 := regmap_update_bits env haptics DRV2624_MODE DRV2624_PINFUNC_MASK
    (DRV2624_PINFUNC_INT <<< DRV2624_PINFUNC_SHIFT)
  if r1.1 ≠ 0 then some r1
  else
    let r2 := regmap_update_bits env r1.2 DRV2624_CONTROL1
      (DRV2624_ACTUATOR_MASK ||| DRV2624_LOOP_MASK ||| DRV2624_AUTOBRK_OK_MASK)
      (((haptics.mode <<< DRV2624_ACTUATOR_SHIFT) % 4294967296) |||
        (1 <<< DRV2624_LOOP_SHIFT) ||| DRV2624_AUTOBRK_OK_ENABLE)
    if r2.1 ≠ 0 then some r2
    else
      let r3 : Int × drv2624_data :=
        if haptics.mode = DRV2624_ERM_MODE then
          regmap_update_bits env r2.2 DRV2624_CONTROL2 DRV2624_LIB_MASK 0x01
        else (0, r2.2)
      if r3.1 ≠ 0 then some r3
      else
        let r4 := regmap_write env r3.2 DRV2624_RATED_VOLTAGE
          (Ov16a1q.to_u32 haptics.rated_voltage)
        if r4.1 ≠ 0 then some r4
        else
          let r5 := regmap_write env r4.2 DRV2624_OVERDRIVE_CLAMP
            (Ov16a1q.to_u32 haptics.overdrive_voltage)
          if r5.1 ≠ 0 then some r5
          else
            let r6 : Option (Int × drv2624_data) :=
              if haptics.mode = DRV2624_LRA_MODE then drv2624_init_lra env r5.2
              else some (0, r5.2)
            match r6 with
            | none => none
            | some r6 =>
              if r6.1 ≠ 0 then some r6
              else
                let r7 := regmap_update_bits env r6.2 DRV2624_MODE DRV2624_MODE_MASK
                  DRV2624_MODE_CALIBRATION
                if r7.1 ≠ 0 then some r7
                else
                  let r8 := regmap_write env r7.2 DRV2624_GO 1
                  if r8.1 ≠ 0 then some r8
                  else drv2624_init_poll env fuel r8.2

/-- The check of `lra-frequency` in `drv2624_probe`: values below 45 and
above 300 are refused. -/
def probe_accepts_lra_frequency (lra_frequency : Nat) : Bool :=
  ! (lra_frequency < 45 || lra_frequency > 300)

/-- A register map on which every call succeeds and the GO register reads 0
(calibration finished). -/
def regmap_ok : RegmapEnv where
  regmap_write := fun _ _ _ => 0
  regmap_update_bits := fun _ _ _ _ => 0
  regmap_read := fun _ _ => (0, 0)

/-- A device as `drv2624_probe` leaves it for an LRA actuator with the
resonance frequency `lra_frequency`. -/
def haptics_lra (lra_frequency : Nat) : drv2624_data where
  regmap_hist := []
  work_scheduled := 0
  magnitude := 0
  mode := DRV2624_LRA_MODE
  lra_frequency := lra_frequency
  rated_voltage := 81
  overdrive_voltage := 113

end Drv2624

namespace Ov16a1q

/-- An environment in which the bus works and power acquisition succeeds, but
`pm_runtime_get_if_in_use` reports the error `-EINVAL` (runtime PM disabled
for the device). -/
def env_pm_error : Env where
  i2c_master_send := fun _ frame => (frame.length : Int)
  i2c_transfer := fun _ _ _ => (2, fun _ => 0)
  rpm_resume := fun _ => 0
  get_if_in_use := fun _ => -22

/-! ## Register transport: theorems -/

theorem write_frame_eq (reg len val : Nat) (hreg : reg < 65536) (hlen : len ≤ 4)
    (hval : val < 4294967296) :
    (put_unaligned_be16 reg ++
      put_unaligned_be32 ((val <<< (8 * (4 - len))) % 2 ^ 32)).take (len + 2)
      = write_frame reg len val := by
  have h256 : reg / 256 % 256 = reg / 256 := by omega
  interval_cases len <;>
    simp [put_unaligned_be16, put_unaligned_be32, write_frame, be_bytes, List.range_succ,
      Nat.shiftLeft_eq, h256] <;> omega

theorem write_frame_length (reg len val : Nat) : (write_frame reg len val).length = len + 2 := by
  simp [write_frame, be_bytes]

theorem ov16a1q_write_eq (env : Env) (d : ov16a1q) (reg len val : Nat) (hreg : reg < 65536)
    (hlen : len ≤ 4) (hval : val < 4294967296) :
    ov16a1q_write env d reg len val =
      (if env.i2c_master_send d.bus_hist (write_frame reg len val) = ((len + 2 : Nat) : Int)
        then 0 else - EIO,
       { d with bus_hist := d.bus_hist ++ [BusOp.send (write_frame reg len val)] }) := by
  have hf := write_frame_eq reg len val hreg hlen hval
  have hl : ¬ len > 4 := by omega
  unfold ov16a1q_write
  simp only [hl, if_false, hf]
  split <;> simp_all

/-- C1: for a 16-bit address, a length in 1..4 and a 32-bit value,
`ov16a1q_write` puts exactly one send on the bus, of `len + 2` bytes: the
address big-endian followed by the low `len` bytes of the value big-endian;
it returns 0 when the bus reports `len + 2` bytes and `-EIO` for every other
bus result. -/
theorem C1_write_one_frame (env : Env) (d : ov16a1q) (reg len val : Nat) (hreg : reg < 65536)
    (hlen : 1 ≤ len ∧ len ≤ 4) (hval : val < 4294967296) :
    (write_frame reg len val).length = len + 2 ∧
    (ov16a1q_write env d reg len val).2 =
      { d with bus_hist := d.bus_hist ++ [BusOp.send (write_frame reg len val)] } ∧
    (env.i2c_master_send d.bus_hist (write_frame reg len val) = ((len + 2 : Nat) : Int) →
      (ov16a1q_write env d reg len val).1 = 0) ∧
    (env.i2c_master_send d.bus_hist (write_frame reg len val) ≠ ((len + 2 : Nat) : Int) →
      (ov16a1q_write env d reg len val).1 = - EIO) := by
  rw [ov16a1q_write_eq env d reg len val hreg hlen.2 hval]
  refine ⟨write_frame_length reg len val, rfl, ?_, ?_⟩
  · intro h
    exact if_pos h
  · intro h
    exact if_neg h

theorem C1_write_one_frame_witness :
    (0x3500 < 65536 ∧ (1 ≤ 3 ∧ 3 ≤ 4) ∧ 0x123456 < 4294967296) ∧
    ((write_frame 0x3500 3 0x123456).length = 3 + 2 ∧
    (ov16a1q_write (sim_env (fun _ => 0)) dev0 0x3500 3 0x123456).2 =
      { dev0 with bus_hist := dev0.bus_hist ++ [BusOp.send (write_frame 0x3500 3 0x123456)] } ∧
    ((sim_env (fun _ => 0)).i2c_master_send dev0.bus_hist (write_frame 0x3500 3 0x123456)
        = ((3 + 2 : Nat) : Int) →
      (ov16a1q_write (sim_env (fun _ => 0)) dev0 0x3500 3 0x123456).1 = 0) ∧
    ((sim_env (fun _ => 0)).i2c_master_send dev0.bus_hist (write_frame 0x3500 3 0x123456)
        ≠ ((3 + 2 : Nat) : Int) →
      (ov16a1q_write (sim_env (fun _ => 0)) dev0 0x3500 3 0x123456).1 = - EIO)) :=
  ⟨by decide, C1_write_one_frame (sim_env (fun _ => 0)) dev0 0x3500 3 0x123456
    (by decide) (by decide) (by decide)⟩

/-- C2: for a length in 1..4, when the two-message transfer completes fully
`ov16a1q_read` returns 0 and the value is the big-endian decoding of the
`len` received bytes, below `2 ^ (8 * len)`; when the transfer reports any
other count it returns `-EIO` and the caller's value is unchanged.  In both
cases exactly one transfer is put on the bus. -/
theorem C2_read_decodes (env : Env) (d : ov16a1q) (reg len val0 : Nat)
    (hlen : 1 ≤ len ∧ len ≤ 4) :
    (ov16a1q_read env d reg len val0).2.2 =
      { d with bus_hist := d.bus_hist ++ [BusOp.transfer (put_unaligned_be16 reg) len] } ∧
    ((env.i2c_transfer d.bus_hist (put_unaligned_be16 reg) len).1 = 2 →
      (ov16a1q_read env d reg len val0).1 = 0 ∧
      (ov16a1q_read env d reg len val0).2.1 =
        be_decode (received env d.bus_hist (put_unaligned_be16 reg) len) ∧
      (ov16a1q_read env d reg len val0).2.1 < 2 ^ (8 * len)) ∧
    ((env.i2c_transfer d.bus_hist (put_unaligned_be16 reg) len).1 ≠ 2 →
      (ov16a1q_read env d reg len val0).1 = - EIO ∧
      (ov16a1q_read env d reg len val0).2.1 = val0) := by
  obtain ⟨h1, h4⟩ := hlen
  have hl : ¬ len > 4 := by omega
  unfold ov16a1q_read
  simp only [hl, if_false]
  refine ⟨?_, ?_, ?_⟩
  · split <;> rfl
  · intro h
    simp only [h, ne_eq, not_true_eq_false, if_false, true_and]
    interval_cases len <;>
      simp [received, be_decode, get_unaligned_be32, List.range_succ] <;> omega
  · intro h
    simp only [ne_eq, h, not_false_eq_true, if_true, and_self]

theorem C2_read_decodes_witness :
    (1 ≤ 2 ∧ 2 ≤ 4) ∧
    ((ov16a1q_read (sim_env (fun _ => 0x41)) dev0 0x300b 2 0).2.2 =
      { dev0 with
        bus_hist := dev0.bus_hist ++ [BusOp.transfer (put_unaligned_be16 0x300b) 2] } ∧
    (((sim_env (fun _ => 0x41)).i2c_transfer dev0.bus_hist (put_unaligned_be16 0x300b) 2).1 = 2 →
      (ov16a1q_read (sim_env (fun _ => 0x41)) dev0 0x300b 2 0).1 = 0 ∧
      (ov16a1q_read (sim_env (fun _ => 0x41)) dev0 0x300b 2 0).2.1 =
        be_decode (received (sim_env (fun _ => 0x41)) dev0.bus_hist
          (put_unaligned_be16 0x300b) 2) ∧
      (ov16a1q_read (sim_env (fun _ => 0x41)) dev0 0x300b 2 0).2.1 < 2 ^ (8 * 2)) ∧
    (((sim_env (fun _ => 0x41)).i2c_transfer dev0.bus_hist (put_unaligned_be16 0x300b) 2).1 ≠ 2 →
      (ov16a1q_read (sim_env (fun _ => 0x41)) dev0 0x300b 2 0).1 = - EIO ∧
      (ov16a1q_read (sim_env (fun _ => 0x41)) dev0 0x300b 2 0).2.1 = 0)) :=
  ⟨by decide, C2_read_decodes (sim_env (fun _ => 0x41)) dev0 0x300b 2 0 (by decide)⟩

theorem sim_mem_append (mem0 : Nat → Nat) (hist : List BusOp) (op : BusOp) :
    sim_mem mem0 (hist ++ [op]) = sim_apply (sim_mem mem0 hist) op := by
  simp [sim_mem, List.foldl_append]

theorem sim_store_other (data : List Nat) (mem : Nat → Nat) (a x : Nat)
    (h : ∀ j, j < data.length → (a + j) % 65536 ≠ x) :
    sim_store mem a data x = mem x := by
  induction data generalizing mem a with
  | nil => rfl
  | cons b bs ih =>
    have h0 : x ≠ a % 65536 := by
      have := h 0 (by simp)
      simpa [eq_comm] using this
    rw [sim_store, ih]
    · simp [h0]
    · intro j hj
      have := h (j + 1) (by simpa using hj)
      rwa [show a + 1 + j = a + (j + 1) by omega]

theorem sim_store_get (data : List Nat) (mem : Nat → Nat) (a i : Nat)
    (hi : i < data.length) (hlen : data.length ≤ 65536) :
    sim_store mem a data ((a + i) % 65536) = data.getD i 0 := by
  induction data generalizing mem a i with
  | nil => simp at hi
  | cons b bs ih =>
    simp only [List.length_cons] at hi hlen
    cases i with
    | zero =>
      rw [sim_store, sim_store_other]
      · simp
      · intro j hj
        omega
    | succ k =>
      rw [sim_store, show a + (k + 1) = a + 1 + k by omega, ih _ _ _ (by omega) (by omega)]
      simp

/-- C3: over the simulated bus, writing `val` with length `len` in 1..4 at a
16-bit address and reading `len` bytes back from the same address yields
`val mod 2 ^ (8 * len)`, both calls returning 0. -/
theorem C3_write_read_roundtrip (mem0 : Nat → Nat) (d : ov16a1q) (reg len val val0 : Nat)
    (hreg : reg < 65536) (hlen : 1 ≤ len ∧ len ≤ 4) (hval : val < 4294967296) :
    (ov16a1q_write (sim_env mem0) d reg len val).1 = 0 ∧
    (ov16a1q_read (sim_env mem0) (ov16a1q_write (sim_env mem0) d reg len val).2 reg len val0).1
      = 0 ∧
    (ov16a1q_read (sim_env mem0) (ov16a1q_write (sim_env mem0) d reg len val).2 reg len val0).2.1
      = val % 2 ^ (8 * len) := by
  obtain ⟨h1, h4⟩ := hlen
  have hl : ¬ len > 4 := by omega
  have hsend : (sim_env mem0).i2c_master_send d.bus_hist (write_frame reg len val)
      = ((len + 2 : Nat) : Int) := by
    simp [sim_env, write_frame_length]
  have hw := ov16a1q_write_eq (sim_env mem0) d reg len val hreg h4 hval
  rw [if_pos hsend] at hw
  have haddr : be_decode (put_unaligned_be16 reg) = reg := by
    simp [be_decode, put_unaligned_be16]
    omega
  have hmem : ∀ i, i < len →
      sim_mem mem0 (d.bus_hist ++ [BusOp.send (write_frame reg len val)]) ((reg + i) % 65536)
        = (be_bytes len val).getD i 0 := by
    intro i hi
    have hreg2 : reg / 256 * 256 + reg % 256 = reg := by omega
    rw [sim_mem_append]
    simp only [write_frame, List.cons_append, List.nil_append, sim_apply, hreg2]
    exact sim_store_get _ _ _ _ (by simpa [be_bytes] using hi) (by simp [be_bytes]; omega)
  rw [hw]
  refine ⟨rfl, ?_, ?_⟩
  · simp [ov16a1q_read, hl, sim_env]
  · simp only [ov16a1q_read, hl, if_false, sim_env, ne_eq, not_true_eq_false, haddr]
    interval_cases len
    · simp only [List.range_succ, List.range_zero, List.nil_append, List.map_cons,
        List.map_nil, hmem 0 (by omega)]
      simp [be_bytes, get_unaligned_be32]
    · have e0 := hmem 0 (by omega)
      have e1 := hmem 1 (by omega)
      simp only [List.range_succ, List.range_zero, List.nil_append, List.map_cons,
        List.map_nil, List.map_append, List.cons_append, e0, e1]
      simp [be_bytes, get_unaligned_be32, List.range_succ]
      omega
    · have e0 := hmem 0 (by omega)
      have e1 := hmem 1 (by omega)
      have e2 := hmem 2 (by omega)
      simp only [List.range_succ, List.range_zero, List.nil_append, List.map_cons,
        List.map_nil, List.map_append, List.cons_append, e0, e1, e2]
      simp [be_bytes, get_unaligned_be32, List.range_succ]
      omega
    · have e0 := hmem 0 (by omega)
      have e1 := hmem 1 (by omega)
      have e2 := hmem 2 (by omega)
      have e3 := hmem 3 (by omega)
      simp only [List.range_succ, List.range_zero, List.nil_append, List.map_cons,
        List.map_nil, List.map_append, List.cons_append, e0, e1, e2, e3]
      simp [be_bytes, get_unaligned_be32, List.range_succ]
      omega

theorem C3_write_read_roundtrip_witness :
    (0x3500 < 65536 ∧ (1 ≤ 3 ∧ 3 ≤ 4) ∧ 0x12345678 < 4294967296) ∧
    ((ov16a1q_write (sim_env (fun _ => 0)) dev0 0x3500 3 0x12345678).1 = 0 ∧
    (ov16a1q_read (sim_env (fun _ => 0))
      (ov16a1q_write (sim_env (fun _ => 0)) dev0 0x3500 3 0x12345678).2 0x3500 3 7).1 = 0 ∧
    (ov16a1q_read (sim_env (fun _ => 0))
      (ov16a1q_write (sim_env (fun _ => 0)) dev0 0x3500 3 0x12345678).2 0x3500 3 7).2.1
      = 0x12345678 % 2 ^ (8 * 3)) :=
  ⟨by decide, C3_write_read_roundtrip (fun _ => 0) dev0 0x3500 3 0x12345678 7
    (by decide) (by decide) (by decide)⟩

/-- C4: for every length above 4, `ov16a1q_write` and `ov16a1q_read` return
`-EINVAL` and leave the device state, and with it the bus history, as it was;
the read also leaves the caller's value unchanged. -/
theorem C4_len_above_4_rejected (env : Env) (d : ov16a1q) (reg len val val0 : Nat)
    (hlen : 4 < len) :
    ov16a1q_write env d reg len val = (- EINVAL, d) ∧
    ov16a1q_read env d reg len val0 = (- EINVAL, val0, d) := by
  have hl : len > 4 := hlen
  simp [ov16a1q_write, ov16a1q_read, hl]

theorem C4_len_above_4_rejected_witness :
    4 < 5 ∧
    (ov16a1q_write (sim_env (fun _ => 0)) dev0 0x3500 5 1 = (- EINVAL, dev0) ∧
    ov16a1q_read (sim_env (fun _ => 0)) dev0 0x3500 5 7 = (- EINVAL, 7, dev0)) :=
  ⟨by decide, C4_len_above_4_rejected (sim_env (fun _ => 0)) dev0 0x3500 5 1 7 (by decide)⟩

/-- C5 (counterexample): with length 0 on a bus that completes every
transaction, neither call is rejected before the bus is touched: the write
returns 0 after sending the two address bytes and the read returns 0 after one
transfer. -/
theorem C5_len_zero_counterexample :
    ¬ ((ov16a1q_write (sim_env (fun _ => 0)) dev0 0x0100 0 1).1 = - EINVAL ∧
       (ov16a1q_write (sim_env (fun _ => 0)) dev0 0x0100 0 1).2.bus_hist = dev0.bus_hist ∧
       (ov16a1q_read (sim_env (fun _ => 0)) dev0 0x0100 0 7).1 = - EINVAL ∧
       (ov16a1q_read (sim_env (fun _ => 0)) dev0 0x0100 0 7).2.2.bus_hist = dev0.bus_hist) := by
  decide

/-- C5 (amended): with length 0 the guard `len > 4` does not fire.  The write
puts one send of the two address bytes on the bus and returns 0 when the bus
reports 2 bytes, `-EIO` otherwise; the read puts one transfer with an empty
read message on the bus and returns 0 with value 0 when the bus reports 2
messages, `-EIO` with the value unchanged otherwise.  Neither returns
`-EINVAL`. -/
theorem C5_len_zero_not_rejected (env : Env) (d : ov16a1q) (reg val val0 : Nat) :
    ov16a1q_write env d reg 0 val =
      (if env.i2c_master_send d.bus_hist (put_unaligned_be16 reg) = 2 then 0 else - EIO,
       { d with bus_hist := d.bus_hist ++ [BusOp.send (put_unaligned_be16 reg)] }) ∧
    ov16a1q_read env d reg 0 val0 =
      (if (env.i2c_transfer d.bus_hist (put_unaligned_be16 reg) 0).1 = 2 then 0 else - EIO,
       if (env.i2c_transfer d.bus_hist (put_unaligned_be16 reg) 0).1 = 2 then 0 else val0,
       { d with bus_hist := d.bus_hist ++ [BusOp.transfer (put_unaligned_be16 reg) 0] }) ∧
    (ov16a1q_write env d reg 0 val).1 ≠ - EINVAL ∧
    (ov16a1q_read env d reg 0 val0).1 ≠ - EINVAL := by
  have hw : ov16a1q_write env d reg 0 val =
      (if env.i2c_master_send d.bus_hist (put_unaligned_be16 reg) = 2 then 0 else - EIO,
       { d with bus_hist := d.bus_hist ++ [BusOp.send (put_unaligned_be16 reg)] }) := by
    have ht : ∀ x, (put_unaligned_be16 reg ++ put_unaligned_be32 x).take (0 + 2)
        = put_unaligned_be16 reg := by
      intro x
      simp [put_unaligned_be16]
    unfold ov16a1q_write
    simp only [ht]
    by_cases h : env.i2c_master_send d.bus_hist (put_unaligned_be16 reg) = 2 <;>
      simp [h]
  have hr : ov16a1q_read env d reg 0 val0 =
      (if (env.i2c_transfer d.bus_hist (put_unaligned_be16 reg) 0).1 = 2 then 0 else - EIO,
       if (env.i2c_transfer d.bus_hist (put_unaligned_be16 reg) 0).1 = 2 then 0 else val0,
       { d with bus_hist := d.bus_hist ++ [BusOp.transfer (put_unaligned_be16 reg) 0] }) := by
    unfold ov16a1q_read
    by_cases h : (env.i2c_transfer d.bus_hist (put_unaligned_be16 reg) 0).1 = 2 <;>
      simp [get_unaligned_be32, h]
  refine ⟨hw, hr, ?_, ?_⟩
  · rw [hw]
    by_cases h : env.i2c_master_send d.bus_hist (put_unaligned_be16 reg) = 2 <;>
      simp [h, EIO, EINVAL]
  · rw [hr]
    by_cases h : (env.i2c_transfer d.bus_hist (put_unaligned_be16 reg) 0).1 = 2 <;>
      simp [h, EIO, EINVAL]

/-! ## Register table player: theorems -/

theorem ov16a1q_write_width1 (env : Env) (d : ov16a1q) (r : ov16a1q_reg) :
    ov16a1q_write env d r.address 1 r.val =
      (if env.i2c_master_send d.bus_hist (reg_frame r) = 3 then 0 else - EIO,
       { d with bus_hist := d.bus_hist ++ [BusOp.send (reg_frame r)] }) := by
  have hf : (put_unaligned_be16 r.address ++
      put_unaligned_be32 ((r.val <<< (8 * (4 - 1))) % 2 ^ 32)).take (1 + 2) = reg_frame r := by
    simp [put_unaligned_be16, put_unaligned_be32, reg_frame, Nat.shiftLeft_eq]
    omega
  unfold ov16a1q_write
  simp only [hf]
  by_cases h : env.i2c_master_send d.bus_hist (reg_frame r) = 3 <;> simp [h]

theorem reg_frame_eq_write_frame (r : ov16a1q_reg) (h : r.address < 65536) :
    reg_frame r = write_frame r.address 1 r.val := by
  simp [reg_frame, write_frame, be_bytes]
  omega

theorem write_reg_list_foldl_state (env : Env) (regs : List ov16a1q_reg) (acc : Int × ov16a1q) :
    (regs.foldl (fun acc r => ov16a1q_write env acc.2 r.address 1 r.val) acc).2 =
      { acc.2 with
        bus_hist := acc.2.bus_hist ++ regs.map (fun r => BusOp.send (reg_frame r)) } := by
  induction regs generalizing acc with
  | nil => simp
  | cons r rs ih =>
    rw [List.foldl_cons, ih, ov16a1q_write_width1]
    simp

theorem write_reg_list_state (env : Env) (d : ov16a1q) (regs : List ov16a1q_reg) :
    (ov16a1q_write_reg_list env d regs).2 =
      { d with bus_hist := d.bus_hist ++ regs.map (fun r => BusOp.send (reg_frame r)) } :=
  write_reg_list_foldl_state env regs (0, d)

theorem write_reg_list_append (env : Env) (d : ov16a1q) (regs : List ov16a1q_reg)
    (r : ov16a1q_reg) :
    ov16a1q_write_reg_list env d (regs ++ [r]) =
      ov16a1q_write env (ov16a1q_write_reg_list env d regs).2 r.address 1 r.val := by
  simp [ov16a1q_write_reg_list, List.foldl_append]

/-- C6: for every register list and every behaviour of the bus,
`ov16a1q_write_reg_list` puts exactly one send per entry on the bus, in list
order, each the three-byte width-1 frame of its entry (address and low byte
of the value); nothing is stopped or skipped when a write fails. -/
theorem C6_reg_list_writes_every_entry (env : Env) (d : ov16a1q) (regs : List ov16a1q_reg) :
    (ov16a1q_write_reg_list env d regs).2 =
      { d with bus_hist := d.bus_hist ++ regs.map (fun r => BusOp.send (reg_frame r)) } ∧
    (regs.map (fun r => BusOp.send (reg_frame r))).length = regs.length ∧
    (∀ r ∈ regs, (reg_frame r).length = 3 ∧
      (r.address < 65536 → reg_frame r = write_frame r.address 1 r.val)) := by
  refine ⟨write_reg_list_state env d regs, by simp, ?_⟩
  intro r _
  exact ⟨by simp [reg_frame], reg_frame_eq_write_frame r⟩

/-- C7 (the code at the failing input): on a two-entry list whose first write
is not acknowledged and whose second write completes, the first
`ov16a1q_write` returns `-EIO`, yet `ov16a1q_write_reg_list` returns 0: the
loop overwrites `ret` with the status of every later write. -/
theorem C7_reg_list_drops_earlier_failure :
    (ov16a1q_write env_nack_first dev0 0x0103 1 0x0001).1 = - EIO ∧
    (ov16a1q_write_reg_list env_nack_first dev0
      [ov16a1q_reg.mk 0x0103 0x0001, ov16a1q_reg.mk 0x0102 0x0000]).1 = 0 ∧
    (ov16a1q_write_reg_list env_nack_first dev0
      [ov16a1q_reg.mk 0x0103 0x0001, ov16a1q_reg.mk 0x0102 0x0000]).2.bus_hist =
      [BusOp.send [0x01, 0x03, 0x01], BusOp.send [0x01, 0x02, 0x00]] := by
  decide

/-! ## Controls: theorems -/

theorem to_u32_lt (v : Int) : to_u32 v < 4294967296 := by
  unfold to_u32
  omega

theorem sends_complete_after_append (env : Env) (hist ws : List BusOp)
    (h : sends_complete_after env hist) : sends_complete_after env (hist ++ ws) := by
  intro ext frame
  rw [List.append_assoc]
  exact h _ _

theorem ov16a1q_write_ok (env : Env) (d : ov16a1q) (reg len val : Nat) (hreg : reg < 65536)
    (hlen : len ≤ 4) (hval : val < 4294967296) (hbus : sends_complete_after env d.bus_hist) :
    (ov16a1q_write env d reg len val).1 = 0 := by
  rw [ov16a1q_write_eq env d reg len val hreg hlen hval]
  have h := hbus [] (write_frame reg len val)
  rw [List.append_nil, write_frame_length] at h
  simp [h]

theorem op_reg_write_frame (reg len val : Nat) :
    op_reg (BusOp.send (write_frame reg len val)) = some reg := by
  simp [write_frame, op_reg]
  omega

theorem set_ctrl_eq (env : Env) (d : ov16a1q) (id : Nat) (val : Int) :
    ov16a1q_set_ctrl env d id val =
      set_ctrl_apply env (set_ctrl_range d id val) d.cur_mode.height id val := rfl

theorem modify_range_id_flags (c : v4l2_ctrl) (a b : Int) (st : Nat) (df : Int) :
    (v4l2_ctrl_modify_range c a b st df).id = c.id ∧
    (v4l2_ctrl_modify_range c a b st df).flags = c.flags := by
  unfold v4l2_ctrl_modify_range
  split <;> simp

theorem set_ctrl_range_fields (d : ov16a1q) (id : Nat) (val : Int) :
    (set_ctrl_range d id val).bus_hist = d.bus_hist ∧
    (set_ctrl_range d id val).usage_count = d.usage_count ∧
    (set_ctrl_range d id val).state_locks = d.state_locks ∧
    (set_ctrl_range d id val).state_unlocks = d.state_unlocks ∧
    (set_ctrl_range d id val).cur_mode = d.cur_mode := by
  unfold set_ctrl_range
  split <;> simp

theorem set_ctrl_range_ctrls (d : ov16a1q) (id : Nat) (val : Int) :
    ∀ c ∈ (set_ctrl_range d id val).ctrl_handler,
      ∃ c0 ∈ d.ctrl_handler, c.id = c0.id ∧ c.flags = c0.flags := by
  unfold set_ctrl_range
  split
  · intro c hc
    simp only [List.mem_map] at hc
    obtain ⟨c0, hc0, rfl⟩ := hc
    refine ⟨c0, hc0, ?_⟩
    split
    · exact modify_range_id_flags _ _ _ _ _
    · exact ⟨rfl, rfl⟩
  · intro c hc
    exact ⟨c, hc, rfl, rfl⟩

theorem set_ctrl_hw_state (env : Env) (s : ov16a1q) (height id : Nat) (val : Int) :
    ∃ ws, (set_ctrl_hw env s height id val).2 = { s with bus_hist := s.bus_hist ++ ws } ∧
      ∀ op ∈ ws, ctrl_reg_op op := by
  unfold set_ctrl_hw
  split_ifs
  · rw [ov16a1q_write_eq env s 0x3500 3 (to_u32 val) (by decide) (by decide) (to_u32_lt val)]
    exact ⟨_, rfl, by simp [ctrl_reg_op, op_reg_write_frame]⟩
  · rw [ov16a1q_write_eq env s 0x3508 2 (to_u32 val) (by decide) (by decide) (to_u32_lt val)]
    exact ⟨_, rfl, by simp [ctrl_reg_op, op_reg_write_frame]⟩
  · rw [ov16a1q_write_eq env s 0x380e 2 _ (by decide) (by decide) (Nat.mod_lt _ (by decide))]
    exact ⟨_, rfl, by simp [ctrl_reg_op, op_reg_write_frame]⟩
  · exact ⟨[], by simp, by simp⟩

theorem set_ctrl_hw_ok (env : Env) (s : ov16a1q) (height id : Nat) (val : Int)
    (hbus : sends_complete_after env s.bus_hist)
    (hid : id = V4L2_CID_VBLANK ∨ id = V4L2_CID_EXPOSURE ∨ id = V4L2_CID_ANALOGUE_GAIN) :
    (set_ctrl_hw env s height id val).1 = 0 := by
  unfold set_ctrl_hw
  split_ifs with h1 h2 h3
  · exact ov16a1q_write_ok env s _ _ _ (by decide) (by decide) (to_u32_lt val) hbus
  · exact ov16a1q_write_ok env s _ _ _ (by decide) (by decide) (to_u32_lt val) hbus
  · exact ov16a1q_write_ok env s _ _ _ (by decide) (by decide) (Nat.mod_lt _ (by decide)) hbus
  · rcases hid with h | h | h <;> contradiction

theorem get_if_in_use_fields (env : Env) (d : ov16a1q) :
    (pm_runtime_get_if_in_use env d).2.bus_hist = d.bus_hist ∧
    (pm_runtime_get_if_in_use env d).2.state_locks = d.state_locks ∧
    (pm_runtime_get_if_in_use env d).2.state_unlocks = d.state_unlocks ∧
    (pm_runtime_get_if_in_use env d).2.cur_mode = d.cur_mode ∧
    (pm_runtime_get_if_in_use env d).2.ctrl_handler = d.ctrl_handler := by
  unfold pm_runtime_get_if_in_use
  split <;> simp

/-- Shape of the state after `ov16a1q_set_ctrl`: the bus history grows only by
sends addressed to a control register; lock counters and the active mode are
untouched; the controls keep their ids and flags. -/
theorem set_ctrl_shape (env : Env) (d : ov16a1q) (id : Nat) (val : Int) :
    (∃ ws, (ov16a1q_set_ctrl env d id val).2.bus_hist = d.bus_hist ++ ws ∧
      ∀ op ∈ ws, ctrl_reg_op op) ∧
    (ov16a1q_set_ctrl env d id val).2.cur_mode = d.cur_mode ∧
    (ov16a1q_set_ctrl env d id val).2.state_locks = d.state_locks ∧
    (ov16a1q_set_ctrl env d id val).2.state_unlocks = d.state_unlocks ∧
    (∀ c ∈ (ov16a1q_set_ctrl env d id val).2.ctrl_handler,
      ∃ c0 ∈ d.ctrl_handler, c.id = c0.id ∧ c.flags = c0.flags) := by
  obtain ⟨r1, _, r3, r4, r5⟩ := set_ctrl_range_fields d id val
  obtain ⟨g1, g3, g4, g5, g6⟩ := get_if_in_use_fields env (set_ctrl_range d id val)
  have hc := set_ctrl_range_ctrls d id val
  rw [set_ctrl_eq]
  unfold set_ctrl_apply
  split
  · refine ⟨⟨[], ?_, by simp⟩, ?_, ?_, ?_, ?_⟩
    · simp [g1, r1]
    · simp [g5, r5]
    · simp [g3, r3]
    · simp [g4, r4]
    · simpa [g6] using hc
  · obtain ⟨ws, hws, hops⟩ := set_ctrl_hw_state env
      (pm_runtime_get_if_in_use env (set_ctrl_range d id val)).2 d.cur_mode.height id val
    simp only [hws, pm_runtime_put]
    refine ⟨⟨ws, ?_, hops⟩, ?_, ?_, ?_, ?_⟩
    · simp [g1, r1]
    · simp [g5, r5]
    · simp [g3, r3]
    · simp [g4, r4]
    · simpa [g6] using hc

theorem set_ctrl_ok (env : Env) (d : ov16a1q) (id : Nat) (val : Int)
    (hbus : sends_complete_after env d.bus_hist)
    (hid : id = V4L2_CID_VBLANK ∨ id = V4L2_CID_EXPOSURE ∨ id = V4L2_CID_ANALOGUE_GAIN) :
    (ov16a1q_set_ctrl env d id val).1 = 0 := by
  obtain ⟨r1, -⟩ := set_ctrl_range_fields d id val
  obtain ⟨g1, -⟩ := get_if_in_use_fields env (set_ctrl_range d id val)
  rw [set_ctrl_eq]
  unfold set_ctrl_apply
  split
  · rfl
  · exact set_ctrl_hw_ok env _ _ _ _ (by rw [g1, r1]; exact hbus) hid

theorem set_ctrl_usage (env : Env) (d : ov16a1q) (id : Nat) (val : Int)
    (hpm : ∀ s, 0 ≤ env.get_if_in_use s) :
    (ov16a1q_set_ctrl env d id val).2.usage_count = d.usage_count := by
  obtain ⟨_, r2, -⟩ := set_ctrl_range_fields d id val
  have h0 := hpm (set_ctrl_range d id val)
  rw [set_ctrl_eq]
  unfold set_ctrl_apply
  obtain ⟨ws, hws, -⟩ := set_ctrl_hw_state env
    (pm_runtime_get_if_in_use env (set_ctrl_range d id val)).2 d.cur_mode.height id val
  simp only [hws, pm_runtime_put]
  unfold pm_runtime_get_if_in_use
  by_cases hg : env.get_if_in_use (set_ctrl_range d id val) > 0
  · have hne : ¬ env.get_if_in_use (set_ctrl_range d id val) = 0 := by omega
    simp [hg, hne, r2]
  · have he : env.get_if_in_use (set_ctrl_range d id val) = 0 := by omega
    simp [he, r2]

theorem set_ctrl_writable_handled (env : Env) (d : ov16a1q) (id : Nat) (val : Int)
    (h : writable_handled d) : writable_handled (ov16a1q_set_ctrl env d id val).2 := by
  intro c hc hw
  obtain ⟨c0, hc0, hid, hfl⟩ := (set_ctrl_shape env d id val).2.2.2.2 c hc
  rw [hid]
  exact h c0 hc0 (by rw [← hfl]; exact hw)

/-- Shape of the state after the control re-application, whatever the bus and
the power state do. -/
theorem ctrl_loop_shape (env : Env) (idx : List Nat) (d : ov16a1q) :
    (∃ ws, (ctrl_handler_setup_loop env idx d).2.bus_hist = d.bus_hist ++ ws ∧
      ∀ op ∈ ws, ctrl_reg_op op) ∧
    (ctrl_handler_setup_loop env idx d).2.cur_mode = d.cur_mode ∧
    (ctrl_handler_setup_loop env idx d).2.state_locks = d.state_locks ∧
    (ctrl_handler_setup_loop env idx d).2.state_unlocks = d.state_unlocks := by
  induction idx generalizing d with
  | nil => exact ⟨⟨[], by simp [ctrl_handler_setup_loop], by simp⟩, rfl, rfl, rfl⟩
  | cons i idx ih =>
    rw [ctrl_handler_setup_loop]
    split
    · exact ih d
    · rename_i c _
      split
      · exact ih d
      · dsimp only
        split
        · obtain ⟨⟨ws, hws, hops⟩, hm, hl, hu, -⟩ := set_ctrl_shape env d c.id c.val
          exact ⟨⟨ws, hws, hops⟩, hm, hl, hu⟩
        · obtain ⟨⟨ws, hws, hops⟩, hm, hl, hu, -⟩ := set_ctrl_shape env d c.id c.val
          obtain ⟨⟨ws2, hws2, hops2⟩, hm2, hl2, hu2⟩ := ih (ov16a1q_set_ctrl env d c.id c.val).2
          refine ⟨⟨ws ++ ws2, ?_, ?_⟩, ?_, ?_, ?_⟩
          · rw [hws2, hws, List.append_assoc]
          · intro op hop
            rcases List.mem_append.mp hop with h | h
            · exact hops op h
            · exact hops2 op h
          · rw [hm2, hm]
          · rw [hl2, hl]
          · rw [hu2, hu]

theorem ctrl_loop_usage (env : Env) (idx : List Nat) (d : ov16a1q)
    (hpm : ∀ s, 0 ≤ env.get_if_in_use s) :
    (ctrl_handler_setup_loop env idx d).2.usage_count = d.usage_count := by
  induction idx generalizing d with
  | nil => rfl
  | cons i idx ih =>
    rw [ctrl_handler_setup_loop]
    split
    · exact ih d
    · rename_i c _
      split
      · exact ih d
      · dsimp only
        split
        · exact set_ctrl_usage env d c.id c.val hpm
        · rw [ih, set_ctrl_usage env d c.id c.val hpm]

theorem ctrl_loop_ok (env : Env) (idx : List Nat) (d : ov16a1q)
    (hbus : sends_complete_after env d.bus_hist) (hwr : writable_handled d) :
    (ctrl_handler_setup_loop env idx d).1 = 0 := by
  induction idx generalizing d with
  | nil => rfl
  | cons i idx ih =>
    rw [ctrl_handler_setup_loop]
    split
    · exact ih d hbus hwr
    · rename_i c hget
      split
      · exact ih d hbus hwr
      · rename_i hro
        have hmem : c ∈ d.ctrl_handler := List.get?_mem hget
        have hid := hwr c hmem (by simpa using hro)
        have h0 := set_ctrl_ok env d c.id c.val hbus hid
        dsimp only
        split
        · contradiction
        · obtain ⟨⟨ws, hws, -⟩, -⟩ := set_ctrl_shape env d c.id c.val
          exact ih _ (by rw [hws]; exact sends_complete_after_append env _ _ hbus)
            (set_ctrl_writable_handled env d c.id c.val hwr)

/-! ## Streaming: theorems -/

theorem write_reg_list_foldl_ok (env : Env) (regs : List ov16a1q_reg) (acc : Int × ov16a1q)
    (hbus : sends_complete_after env acc.2.bus_hist) (h0 : regs ≠ [] ∨ acc.1 = 0) :
    (regs.foldl (fun acc r => ov16a1q_write env acc.2 r.address 1 r.val) acc).1 = 0 := by
  induction regs generalizing acc with
  | nil =>
    rcases h0 with h | h
    · exact absurd rfl h
    · exact h
  | cons r rs ih =>
    rw [List.foldl_cons]
    have hs := hbus [] (reg_frame r)
    rw [List.append_nil] at hs
    have hw : ov16a1q_write env acc.2 r.address 1 r.val =
        (0, { acc.2 with bus_hist := acc.2.bus_hist ++ [BusOp.send (reg_frame r)] }) := by
      rw [ov16a1q_write_width1, hs]
      simp [reg_frame]
    rw [hw]
    exact ih _ (sends_complete_after_append env _ _ hbus) (Or.inr rfl)

theorem write_reg_list_ok (env : Env) (d : ov16a1q) (regs : List ov16a1q_reg)
    (hbus : sends_complete_after env d.bus_hist) :
    ov16a1q_write_reg_list env d regs =
      (0, { d with bus_hist := d.bus_hist ++ regs.map (fun r => BusOp.send (reg_frame r)) }) := by
  apply Prod.ext
  · exact write_reg_list_foldl_ok env regs (0, d) hbus (Or.inr rfl)
  · exact write_reg_list_state env d regs

theorem stream_enable_write (env : Env) (d : ov16a1q) (v : Nat) (hv : v < 256) :
    ov16a1q_write env d 0x0100 1 v =
      (if env.i2c_master_send d.bus_hist [0x01, 0x00, v] = 3 then 0 else - EIO,
       { d with bus_hist := d.bus_hist ++ [BusOp.send [0x01, 0x00, v]] }) := by
  have h := ov16a1q_write_width1 env d (ov16a1q_reg.mk 0x0100 v)
  have hf : reg_frame (ov16a1q_reg.mk 0x0100 v) = [0x01, 0x00, v] := by
    simp [reg_frame]
    omega
  rw [hf] at h
  exact h

theorem table_op_reg (r : ov16a1q_reg) (h : r.address < 65536) :
    op_reg (BusOp.send (reg_frame r)) = some r.address := by
  simp [reg_frame, op_reg]
  omega

set_option maxRecDepth 100000 in
theorem base_table_facts :
    ov16a1q_regs.length = 551 ∧
    ∀ r ∈ ov16a1q_regs, r.address < 65536 ∧ r.address ≠ 0x0100 := by
  decide

set_option maxRecDepth 100000 in
theorem mode_table_facts :
    ∀ m ∈ ov16a1q_modes, m.reg_list.length = 95 ∧
      ∀ r ∈ m.reg_list, r.address < 65536 ∧ r.address ≠ 0x0100 := by
  decide

theorem table_ops_not_stream_reg (regs : List ov16a1q_reg)
    (h : ∀ r ∈ regs, r.address < 65536 ∧ r.address ≠ 0x0100) :
    ∀ op ∈ table_ops regs, op_reg op ≠ some 0x0100 := by
  intro op hop
  simp only [table_ops, List.mem_map] at hop
  obtain ⟨r, hr, rfl⟩ := hop
  rw [table_op_reg r (h r hr).1]
  intro he
  exact (h r hr).2 (Option.some.inj he)

theorem ctrl_reg_op_not_stream_reg (op : BusOp) (h : ctrl_reg_op op) :
    op_reg op ≠ some 0x0100 := by
  rcases h with h | h | h <;> rw [h] <;> decide

/-- The part of `ov16a1q_start_stream` that follows the base table, on a bus
that completes every later send. -/
theorem start_stream_after_base (env : Env) (d : ov16a1q)
    (h1 : (ov16a1q_write_reg_list env d ov16a1q_regs).1 = 0)
    (hbus : sends_complete_after env (d.bus_hist ++ table_ops ov16a1q_regs))
    (hwr : writable_handled d) :
    (ov16a1q_start_stream env d).1 = 0 ∧
    (ov16a1q_start_stream env d).2.usage_count =
      (v4l2_ctrl_handler_setup env (tables_played d)).2.usage_count ∧
    ∃ ctrl_ops,
      (v4l2_ctrl_handler_setup env (tables_played d)).2.bus_hist =
        d.bus_hist ++ table_ops ov16a1q_regs ++ table_ops d.cur_mode.reg_list ++ ctrl_ops ∧
      (∀ op ∈ ctrl_ops, ctrl_reg_op op) ∧
      (ov16a1q_start_stream env d).2.bus_hist =
        d.bus_hist ++ table_ops ov16a1q_regs ++ table_ops d.cur_mode.reg_list ++ ctrl_ops ++
          [BusOp.send [0x01, 0x00, 0x01]] := by
  have hr1 : ov16a1q_write_reg_list env d ov16a1q_regs =
      (0, { d with bus_hist := d.bus_hist ++ table_ops ov16a1q_regs }) :=
    Prod.ext h1 (write_reg_list_state env d ov16a1q_regs)
  have hr2 : ov16a1q_write_reg_list env
      { d with bus_hist := d.bus_hist ++ table_ops ov16a1q_regs } d.cur_mode.reg_list =
      (0, tables_played d) :=
    write_reg_list_ok env { d with bus_hist := d.bus_hist ++ table_ops ov16a1q_regs }
      d.cur_mode.reg_list hbus
  have hbus3 : sends_complete_after env (tables_played d).bus_hist :=
    sends_complete_after_append env _ (table_ops d.cur_mode.reg_list) hbus
  have hr3 : (v4l2_ctrl_handler_setup env (tables_played d)).1 = 0 :=
    ctrl_loop_ok env _ (tables_played d) hbus3 hwr
  obtain ⟨⟨ctrl_ops, hops, hregs⟩, -⟩ :=
    ctrl_loop_shape env (List.range (tables_played d).ctrl_handler.length) (tables_played d)
  have hops2 : (v4l2_ctrl_handler_setup env (tables_played d)).2.bus_hist =
      d.bus_hist ++ table_ops ov16a1q_regs ++ table_ops d.cur_mode.reg_list ++ ctrl_ops := hops
  have hsend : env.i2c_master_send (v4l2_ctrl_handler_setup env (tables_played d)).2.bus_hist
      [0x01, 0x00, 0x01] = 3 := by
    rw [hops2]
    exact hbus3 ctrl_ops [0x01, 0x00, 0x01]
  have hr4 := stream_enable_write env (v4l2_ctrl_handler_setup env (tables_played d)).2 0x01
    (by decide)
  rw [hsend, if_pos rfl, hops2] at hr4
  unfold ov16a1q_start_stream
  simp only [hr1, hr2, hr3, hr4, ne_eq, not_true_eq_false, if_false]
  exact ⟨trivial, trivial, ctrl_ops, hops2, hregs, rfl⟩

/-- C8: when every send issued from now on completes, the active mode is a
catalog mode and the handler holds the driver's controls,
`ov16a1q_start_stream` returns 0 and puts on the bus, in this order, the 551
width-1 writes of the base table, the 95 of the mode table, the writes of the
control re-application, and last one write of value 1 to register 0x0100; no
earlier write of the sequence is addressed to 0x0100. -/
theorem C8_start_stream_sequence (env : Env) (d : ov16a1q)
    (hbus : sends_complete_after env d.bus_hist) (hmode : d.cur_mode ∈ ov16a1q_modes)
    (hwr : writable_handled d) :
    ov16a1q_regs.length = 551 ∧ d.cur_mode.reg_list.length = 95 ∧
    (ov16a1q_start_stream env d).1 = 0 ∧
    ∃ ctrl_ops,
      (v4l2_ctrl_handler_setup env (tables_played d)).2.bus_hist =
        d.bus_hist ++ table_ops ov16a1q_regs ++ table_ops d.cur_mode.reg_list ++ ctrl_ops ∧
      (ov16a1q_start_stream env d).2.bus_hist =
        d.bus_hist ++ table_ops ov16a1q_regs ++ table_ops d.cur_mode.reg_list ++ ctrl_ops ++
          [BusOp.send (write_frame 0x0100 1 0x01)] ∧
      (∀ op ∈ table_ops ov16a1q_regs ++ table_ops d.cur_mode.reg_list ++ ctrl_ops,
        op_reg op ≠ some 0x0100) := by
  have h1 : (ov16a1q_write_reg_list env d ov16a1q_regs).1 = 0 := by
    rw [write_reg_list_ok env d ov16a1q_regs hbus]
  obtain ⟨hret, -, ctrl_ops, hsetup, hregs, hhist⟩ := start_stream_after_base env d h1
    (sends_complete_after_append env _ _ hbus) hwr
  refine ⟨base_table_facts.1, (mode_table_facts _ hmode).1, hret, ctrl_ops, hsetup, hhist, ?_⟩
  intro op hop
  rcases List.mem_append.mp hop with h | h
  · rcases List.mem_append.mp h with h | h
    · exact table_ops_not_stream_reg _ base_table_facts.2 op h
    · exact table_ops_not_stream_reg _ (mode_table_facts _ hmode).2 op h
  · exact ctrl_reg_op_not_stream_reg op (hregs op h)

theorem C8_start_stream_sequence_witness :
    (sends_complete_after (sim_env (fun _ => 0)) dev0.bus_hist ∧
      dev0.cur_mode ∈ ov16a1q_modes ∧ writable_handled dev0) ∧
    (ov16a1q_regs.length = 551 ∧ dev0.cur_mode.reg_list.length = 95 ∧
    (ov16a1q_start_stream (sim_env (fun _ => 0)) dev0).1 = 0 ∧
    ∃ ctrl_ops,
      (v4l2_ctrl_handler_setup (sim_env (fun _ => 0)) (tables_played dev0)).2.bus_hist =
        dev0.bus_hist ++ table_ops ov16a1q_regs ++ table_ops dev0.cur_mode.reg_list
          ++ ctrl_ops ∧
      (ov16a1q_start_stream (sim_env (fun _ => 0)) dev0).2.bus_hist =
        dev0.bus_hist ++ table_ops ov16a1q_regs ++ table_ops dev0.cur_mode.reg_list
          ++ ctrl_ops ++ [BusOp.send (write_frame 0x0100 1 0x01)] ∧
      (∀ op ∈ table_ops ov16a1q_regs ++ table_ops dev0.cur_mode.reg_list ++ ctrl_ops,
        op_reg op ≠ some 0x0100)) :=
  ⟨⟨fun _ _ => rfl, by decide, by decide⟩,
    C8_start_stream_sequence (sim_env (fun _ => 0)) dev0 (fun _ _ => rfl) (by decide)
      (by decide)⟩

theorem write_keeps_refs (env : Env) (x : ov16a1q) (reg len val : Nat) :
    same_locks x (ov16a1q_write env x reg len val).2 ∧
    same_usage x (ov16a1q_write env x reg len val).2 := by
  unfold ov16a1q_write
  split
  · exact ⟨⟨rfl, rfl⟩, rfl⟩
  · dsimp only
    split <;> exact ⟨⟨rfl, rfl⟩, rfl⟩

theorem same_locks_write (env : Env) (d x : ov16a1q) (reg len val : Nat) (h : same_locks d x) :
    same_locks d (ov16a1q_write env x reg len val).2 := by
  obtain ⟨⟨hl, hu⟩, -⟩ := write_keeps_refs env x reg len val
  exact ⟨hl.trans h.1, hu.trans h.2⟩

theorem same_usage_write (env : Env) (d x : ov16a1q) (reg len val : Nat) (h : same_usage d x) :
    same_usage d (ov16a1q_write env x reg len val).2 :=
  (write_keeps_refs env x reg len val).2.trans h

theorem same_locks_reg_list (env : Env) (d x : ov16a1q) (regs : List ov16a1q_reg)
    (h : same_locks d x) : same_locks d (ov16a1q_write_reg_list env x regs).2 := by
  rw [write_reg_list_state]
  exact h

theorem same_usage_reg_list (env : Env) (d x : ov16a1q) (regs : List ov16a1q_reg)
    (h : same_usage d x) : same_usage d (ov16a1q_write_reg_list env x regs).2 := by
  rw [write_reg_list_state]
  exact h

theorem same_locks_setup (env : Env) (d x : ov16a1q) (h : same_locks d x) :
    same_locks d (v4l2_ctrl_handler_setup env x).2 := by
  obtain ⟨-, -, hl, hu⟩ := ctrl_loop_shape env (List.range x.ctrl_handler.length) x
  exact ⟨hl.trans h.1, hu.trans h.2⟩

theorem same_usage_setup (env : Env) (hpm : ∀ s, 0 ≤ env.get_if_in_use s) (d x : ov16a1q)
    (h : same_usage d x) : same_usage d (v4l2_ctrl_handler_setup env x).2 :=
  (ctrl_loop_usage env (List.range x.ctrl_handler.length) x hpm).trans h

/-- The function `ov16a1q_start_stream` leaves the lock counters as they were,
whatever the bus and the power state do. -/
theorem start_stream_same_locks (env : Env) (d : ov16a1q) :
    same_locks d (ov16a1q_start_stream env d).2 := by
  have h0 : same_locks d d := ⟨rfl, rfl⟩
  have h1 := same_locks_reg_list env d d ov16a1q_regs h0
  have h2 := same_locks_reg_list env d _
    (ov16a1q_write_reg_list env d ov16a1q_regs).2.cur_mode.reg_list h1
  have h3 := same_locks_setup env d _ h2
  have h4 := same_locks_write env d _ 0x0100 1 0x01 h3
  unfold ov16a1q_start_stream
  dsimp only
  split_ifs
  · exact h1
  · exact h2
  · exact h3
  · exact h4
  · exact h4

/-- The function `ov16a1q_start_stream` leaves the usage count as it was,
whatever the bus does, when the in-use query never fails. -/
theorem start_stream_same_usage (env : Env) (hpm : ∀ s, 0 ≤ env.get_if_in_use s)
    (d : ov16a1q) : same_usage d (ov16a1q_start_stream env d).2 := by
  have h0 : same_usage d d := rfl
  have h1 := same_usage_reg_list env d d ov16a1q_regs h0
  have h2 := same_usage_reg_list env d _
    (ov16a1q_write_reg_list env d ov16a1q_regs).2.cur_mode.reg_list h1
  have h3 := same_usage_setup env hpm d _ h2
  have h4 := same_usage_write env d _ 0x0100 1 0x01 h3
  unfold ov16a1q_start_stream
  dsimp only
  split_ifs
  · exact h1
  · exact h2
  · exact h3
  · exact h4
  · exact h4

theorem s_stream_on_eq (env : Env) (d : ov16a1q) (enable : Int) (hon : enable ≠ 0)
    (hres : ¬ env.rpm_resume (v4l2_subdev_lock_and_get_active_state d) < 0) :
    ov16a1q_s_stream env d enable =
      if (ov16a1q_start_stream env (stream_on_entry d)).1 ≠ 0 then
        ((ov16a1q_start_stream env (stream_on_entry d)).1,
          v4l2_subdev_unlock_state
            (pm_runtime_put_sync (ov16a1q_start_stream env (stream_on_entry d)).2))
      else
        (0, v4l2_subdev_unlock_state (ov16a1q_start_stream env (stream_on_entry d)).2) := by
  have hz : ¬ ((0 : Int) < 0) := by decide
  unfold ov16a1q_s_stream pm_runtime_resume_and_get stream_on_entry
  simp only [hon, ne_eq, not_false_eq_true, if_true, hres, if_false, hz]
  split
  · rfl
  · rename_i h
    rw [not_not] at h
    rw [h]

theorem s_stream_on_fail_eq (env : Env) (d : ov16a1q) (enable : Int) (hon : enable ≠ 0)
    (hres : env.rpm_resume (v4l2_subdev_lock_and_get_active_state d) < 0) :
    ov16a1q_s_stream env d enable =
      (env.rpm_resume (v4l2_subdev_lock_and_get_active_state d),
        v4l2_subdev_unlock_state (v4l2_subdev_lock_and_get_active_state d)) := by
  unfold ov16a1q_s_stream pm_runtime_resume_and_get
  simp only [hon, ne_eq, not_false_eq_true, if_true, hres]

/-- Reference balance of `ov16a1q_s_stream` with the runtime-power reference
as a counter.  A stream-enable request whose power acquisition fails returns
that error and touches nothing but the lock (no release, no bus write, counter
as before).  Otherwise, provided `pm_runtime_get_if_in_use` never reports an
error to the nested control writes, the counter changes by +1 when the request
returns 0 and is as before when it returns an error, the one reference being
released again after the failed start.  A stream-disable request returns 0 and
changes the counter by -1 whatever the stream-disable write reports.  On every
path the state lock is taken once and released once. -/
theorem s_stream_reference_balance (env : Env) (d : ov16a1q) (enable : Int) :
    (ov16a1q_s_stream env d enable).2.state_locks = d.state_locks + 1 ∧
    (ov16a1q_s_stream env d enable).2.state_unlocks = d.state_unlocks + 1 ∧
    (enable ≠ 0 →
      (env.rpm_resume (v4l2_subdev_lock_and_get_active_state d) < 0 →
        (ov16a1q_s_stream env d enable).1 =
          env.rpm_resume (v4l2_subdev_lock_and_get_active_state d) ∧
        (ov16a1q_s_stream env d enable).2 =
          v4l2_subdev_unlock_state (v4l2_subdev_lock_and_get_active_state d) ∧
        (ov16a1q_s_stream env d enable).2.usage_count = d.usage_count ∧
        (ov16a1q_s_stream env d enable).2.bus_hist = d.bus_hist) ∧
      ((∀ s, 0 ≤ env.get_if_in_use s) →
        ((ov16a1q_s_stream env d enable).1 = 0 →
          (ov16a1q_s_stream env d enable).2.usage_count = d.usage_count + 1) ∧
        ((ov16a1q_s_stream env d enable).1 ≠ 0 →
          (ov16a1q_s_stream env d enable).2.usage_count = d.usage_count) ∧
        (¬ env.rpm_resume (v4l2_subdev_lock_and_get_active_state d) < 0 →
          (ov16a1q_start_stream env (stream_on_entry d)).1 ≠ 0 →
          (ov16a1q_start_stream env (stream_on_entry d)).2.usage_count = d.usage_count + 1 ∧
          (ov16a1q_s_stream env d enable).2 =
            v4l2_subdev_unlock_state
              (pm_runtime_put_sync (ov16a1q_start_stream env (stream_on_entry d)).2)))) ∧
    (enable = 0 →
      (ov16a1q_s_stream env d enable).1 = 0 ∧
      (ov16a1q_s_stream env d enable).2.usage_count = d.usage_count - 1) := by
  obtain ⟨sl, sn⟩ := start_stream_same_locks env (stream_on_entry d)
  have eu : (stream_on_entry d).usage_count = d.usage_count + 1 := by
    simp [stream_on_entry, v4l2_subdev_lock_and_get_active_state]
  have el : (stream_on_entry d).state_locks = d.state_locks + 1 := by
    simp [stream_on_entry, v4l2_subdev_lock_and_get_active_state]
  have en : (stream_on_entry d).state_unlocks = d.state_unlocks := by
    simp [stream_on_entry, v4l2_subdev_lock_and_get_active_state]
  have hsu : (∀ s, 0 ≤ env.get_if_in_use s) →
      (ov16a1q_start_stream env (stream_on_entry d)).2.usage_count = d.usage_count + 1 := by
    intro hpm
    exact (start_stream_same_usage env hpm (stream_on_entry d)).trans eu
  rw [el] at sl
  rw [en] at sn
  by_cases hon : enable ≠ 0
  · by_cases hres : env.rpm_resume (v4l2_subdev_lock_and_get_active_state d) < 0
    · rw [s_stream_on_fail_eq env d enable hon hres]
      dsimp only
      refine ⟨?_, ?_, fun _ => ⟨fun _ => ⟨rfl, rfl, ?_, ?_⟩,
        fun _ => ⟨?_, fun _ => ?_, ?_⟩⟩, ?_⟩
      · simp [v4l2_subdev_unlock_state, v4l2_subdev_lock_and_get_active_state]
      · simp [v4l2_subdev_unlock_state, v4l2_subdev_lock_and_get_active_state]
      · simp [v4l2_subdev_unlock_state, v4l2_subdev_lock_and_get_active_state]
      · simp [v4l2_subdev_unlock_state, v4l2_subdev_lock_and_get_active_state]
      · intro h0
        omega
      · simp [v4l2_subdev_unlock_state, v4l2_subdev_lock_and_get_active_state]
      · intro h
        exact absurd hres h
      · intro h
        exact absurd h hon
    · rw [s_stream_on_eq env d enable hon hres]
      by_cases hs : (ov16a1q_start_stream env (stream_on_entry d)).1 ≠ 0
      · rw [if_pos hs]
        dsimp only
        refine ⟨?_, ?_, fun _ => ⟨fun h => absurd h hres, fun hpm => ⟨?_, ?_, ?_⟩⟩, ?_⟩
        · simp [v4l2_subdev_unlock_state, pm_runtime_put_sync, sl]
        · simp [v4l2_subdev_unlock_state, pm_runtime_put_sync, sn]
        · intro h0
          exact absurd h0 hs
        · intro _
          simp [v4l2_subdev_unlock_state, pm_runtime_put_sync, hsu hpm]
        · intro _ _
          exact ⟨hsu hpm, rfl⟩
        · intro h
          exact absurd h hon
      · rw [if_neg hs]
        dsimp only
        refine ⟨?_, ?_, fun _ => ⟨fun h => absurd h hres, fun hpm => ⟨?_, ?_, ?_⟩⟩, ?_⟩
        · simp [v4l2_subdev_unlock_state, sl]
        · simp [v4l2_subdev_unlock_state, sn]
        · intro _
          simp [v4l2_subdev_unlock_state, hsu hpm]
        · intro h
          exact absurd rfl h
        · intro _ h
          exact absurd h hs
        · intro h
          exact absurd h hon
  · rw [not_not] at hon
    subst hon
    obtain ⟨⟨wl, wn⟩, wu0⟩ :=
      write_keeps_refs env (v4l2_subdev_lock_and_get_active_state d) 0x0100 1 0x00
    have wu : (ov16a1q_write env (v4l2_subdev_lock_and_get_active_state d) 0x0100 1
        0x00).2.usage_count = d.usage_count := wu0
    have hstop : ∀ x, (ov16a1q_stop_stream env x).2 = (ov16a1q_write env x 0x0100 1 0x00).2 := by
      intro x
      unfold ov16a1q_stop_stream
      dsimp only
      split <;> rfl
    have hoff : ov16a1q_s_stream env d 0 =
        (0, v4l2_subdev_unlock_state (pm_runtime_put_autosuspend (pm_runtime_mark_last_busy
          (ov16a1q_write env (v4l2_subdev_lock_and_get_active_state d) 0x0100 1 0x00).2))) := by
      unfold ov16a1q_s_stream
      simp only [ne_eq, not_true_eq_false, if_false, hstop]
    rw [hoff]
    dsimp only
    refine ⟨?_, ?_, fun h => absurd rfl h, fun _ => ⟨rfl, ?_⟩⟩
    · simp only [v4l2_subdev_unlock_state, pm_runtime_put_autosuspend,
        pm_runtime_mark_last_busy, wl]
      rfl
    · simp only [v4l2_subdev_unlock_state, pm_runtime_put_autosuspend,
        pm_runtime_mark_last_busy, wn]
      rfl
    · simp only [v4l2_subdev_unlock_state, pm_runtime_put_autosuspend,
        pm_runtime_mark_last_busy, wu]

set_option maxRecDepth 1000000 in
/-- C10: a stream-enable request right after probe, on a working bus and with
a successful power acquisition, during which `pm_runtime_get_if_in_use` reports
the error `-EINVAL` to `ov16a1q_set_ctrl`.  Each of the three control writes of
the re-application goes to the bus and is followed by `pm_runtime_put` although
it took no reference: the request returns 0 and leaves the counter at -2
instead of +1 (650 transactions on the bus: 551 + 95 table writes, three
control writes, the stream-enable write).  A single control write in that
environment lowers the counter by one. -/
theorem C10_put_without_get :
    env_pm_error.rpm_resume (v4l2_subdev_lock_and_get_active_state dev0) = 0 ∧
    (ov16a1q_s_stream env_pm_error dev0 1).1 = 0 ∧
    dev0.usage_count = 0 ∧
    (ov16a1q_s_stream env_pm_error dev0 1).2.usage_count = -2 ∧
    (ov16a1q_s_stream env_pm_error dev0 1).2.usage_count ≠ dev0.usage_count + 1 ∧
    (ov16a1q_s_stream env_pm_error dev0 1).2.bus_hist.length = 650 ∧
    (ov16a1q_set_ctrl env_pm_error dev0 V4L2_CID_EXPOSURE 3916).1 = 0 ∧
    (ov16a1q_set_ctrl env_pm_error dev0 V4L2_CID_EXPOSURE 3916).2.bus_hist =
      [BusOp.send [0x35, 0x00, 0x00, 0x0f, 0x4c]] ∧
    (ov16a1q_set_ctrl env_pm_error dev0 V4L2_CID_EXPOSURE 3916).2.usage_count = -1 := by
  decide

theorem nack_first_complete (hist : List BusOp) (h : hist ≠ []) :
    sends_complete_after env_nack_first hist := by
  intro ext frame
  have hne : hist ++ ext ≠ [] := by
    intro he
    exact h (List.append_eq_nil.mp he).1
  simp [env_nack_first, hne]

theorem base_table_cons :
    ov16a1q_regs = ov16a1q_reg.mk 0x0103 0x0001 :: ov16a1q_regs.tail := rfl

/-- C9 (the code at the failing input): the first write of the base table is
not acknowledged (`ov16a1q_write` returns `-EIO`) and every later one
completes.  The stream-enable request nevertheless returns 0, keeps the power
reference, and its last bus write is the stream-enable write of value 1 to
register 0x0100. -/
theorem C9_failed_table_write_unreported :
    (ov16a1q_write env_nack_first (stream_on_entry dev0) 0x0103 1 0x0001).1 = - EIO ∧
    (ov16a1q_s_stream env_nack_first dev0 1).1 = 0 ∧
    (ov16a1q_s_stream env_nack_first dev0 1).2.usage_count = dev0.usage_count + 1 ∧
    (ov16a1q_s_stream env_nack_first dev0 1).2.bus_hist.getLast? =
      some (BusOp.send [0x01, 0x00, 0x01]) := by
  have hpm : ∀ s, 0 ≤ env_nack_first.get_if_in_use s := fun _ => (by decide : (0 : Int) ≤ 1)
  have hwr : writable_handled (stream_on_entry dev0) := by decide
  have hfirst : (ov16a1q_write env_nack_first (stream_on_entry dev0) 0x0103 1 0x0001).1
      = - EIO := by decide
  have hw1 := ov16a1q_write_width1 env_nack_first (stream_on_entry dev0)
    (ov16a1q_reg.mk 0x0103 0x0001)
  have h1 : (ov16a1q_write_reg_list env_nack_first (stream_on_entry dev0) ov16a1q_regs).1
      = 0 := by
    unfold ov16a1q_write_reg_list
    rw [base_table_cons, List.foldl_cons]
    apply write_reg_list_foldl_ok
    · rw [hw1]
      exact nack_first_complete _ (by simp)
    · exact Or.inl (by decide)
  have hbus : sends_complete_after env_nack_first
      ((stream_on_entry dev0).bus_hist ++ table_ops ov16a1q_regs) := by
    apply nack_first_complete
    rw [base_table_cons]
    simp [table_ops]
  obtain ⟨hret, -, ctrl_ops, -, -, hhist⟩ :=
    start_stream_after_base env_nack_first (stream_on_entry dev0) h1 hbus hwr
  have su : (ov16a1q_start_stream env_nack_first (stream_on_entry dev0)).2.usage_count
      = dev0.usage_count + 1 :=
    start_stream_same_usage env_nack_first hpm (stream_on_entry dev0)
  have hs := s_stream_on_eq env_nack_first dev0 1 (by decide) (by decide)
  rw [if_neg (by rw [hret]; decide)] at hs
  rw [hs]
  refine ⟨hfirst, rfl, ?_, ?_⟩
  · simp only [v4l2_subdev_unlock_state, su]
  · simp only [v4l2_subdev_unlock_state, hhist]
    simp

theorem s_stream_off_eq (env : Env) (d : ov16a1q) :
    ov16a1q_s_stream env d 0 =
      (0, v4l2_subdev_unlock_state (pm_runtime_put_autosuspend (pm_runtime_mark_last_busy
        (ov16a1q_write env (v4l2_subdev_lock_and_get_active_state d) 0x0100 1 0x00).2))) := by
  have hstop : ∀ x, (ov16a1q_stop_stream env x).2 = (ov16a1q_write env x 0x0100 1 0x00).2 := by
    intro x
    unfold ov16a1q_stop_stream
    dsimp only
    split <;> rfl
  unfold ov16a1q_s_stream
  simp only [ne_eq, not_true_eq_false, if_false, hstop]

/-- C11 (counterexample): on the device state right after probe, with no
stream-enable before, a stream-disable request is not a no-op: the three
properties "returns 0, bus history unchanged, usage count unchanged" do not
hold together. -/
theorem C11_stream_off_counterexample :
    ¬ ((ov16a1q_s_stream (sim_env (fun _ => 0)) dev0 0).1 = 0 ∧
       (ov16a1q_s_stream (sim_env (fun _ => 0)) dev0 0).2.bus_hist = dev0.bus_hist ∧
       (ov16a1q_s_stream (sim_env (fun _ => 0)) dev0 0).2.usage_count = dev0.usage_count) := by
  decide

/-- C11 (amended): `ov16a1q_s_stream` with `on = 0` returns 0 in every state,
and in every state it puts exactly one write on the bus, of value 0 to
register 0x0100, and releases one power reference; the driver keeps no record
of whether it is streaming. -/
theorem C11_stream_off_always_writes (env : Env) (d : ov16a1q) :
    (ov16a1q_s_stream env d 0).1 = 0 ∧
    (ov16a1q_s_stream env d 0).2.bus_hist =
      d.bus_hist ++ [BusOp.send (write_frame 0x0100 1 0x00)] ∧
    (ov16a1q_s_stream env d 0).2.usage_count = d.usage_count - 1 := by
  rw [s_stream_off_eq, stream_enable_write env _ 0x00 (by decide)]
  exact ⟨rfl, rfl, rfl⟩

/-! ## Power sequencing: theorems -/

/-- C12: `ov16a1q_power_on` either fully succeeds or fully unwinds.  When the
clock enable fails it returns that error, the regulators are never asked for
and the reset line stays low.  When the regulator bulk enable fails it returns
that error with the clock disabled again (one disable call for the one enable
call, enable count as before) and the reset line low.  When both succeed it
raises the reset line and returns 0; it returns 0 in no other case. -/
theorem C12_power_on_all_or_nothing (env : PowerEnv) (p : PowerState) :
    (env.clk_prepare_enable (power_on_clk_state p) ≠ 0 →
      (ov16a1q_power_on env p).1 = env.clk_prepare_enable (power_on_clk_state p) ∧
      (ov16a1q_power_on env p).2.calls =
        p.calls ++ [PowerCall.gpiod_set_value_cansleep 0, PowerCall.clk_prepare_enable] ∧
      (ov16a1q_power_on env p).2.reset_value = 0 ∧
      (ov16a1q_power_on env p).2.clk_enable_count = p.clk_enable_count ∧
      (ov16a1q_power_on env p).2.regulator_enable_count = p.regulator_enable_count) ∧
    (env.clk_prepare_enable (power_on_clk_state p) = 0 →
      env.regulator_bulk_enable (power_on_regulator_state env p) ≠ 0 →
      (ov16a1q_power_on env p).1 = env.regulator_bulk_enable (power_on_regulator_state env p) ∧
      (ov16a1q_power_on env p).2.calls =
        p.calls ++ [PowerCall.gpiod_set_value_cansleep 0, PowerCall.clk_prepare_enable,
          PowerCall.usleep_range 2000 3000, PowerCall.regulator_bulk_enable,
          PowerCall.clk_disable_unprepare] ∧
      ((ov16a1q_power_on env p).2.calls.drop p.calls.length).count
          PowerCall.clk_disable_unprepare =
        ((ov16a1q_power_on env p).2.calls.drop p.calls.length).count
          PowerCall.clk_prepare_enable ∧
      (ov16a1q_power_on env p).2.reset_value = 0 ∧
      (ov16a1q_power_on env p).2.clk_enable_count = p.clk_enable_count ∧
      (ov16a1q_power_on env p).2.regulator_enable_count = p.regulator_enable_count) ∧
    (env.clk_prepare_enable (power_on_clk_state p) = 0 →
      env.regulator_bulk_enable (power_on_regulator_state env p) = 0 →
      (ov16a1q_power_on env p).1 = 0 ∧
      (ov16a1q_power_on env p).2.calls =
        p.calls ++ [PowerCall.gpiod_set_value_cansleep 0, PowerCall.clk_prepare_enable,
          PowerCall.usleep_range 2000 3000, PowerCall.regulator_bulk_enable,
          PowerCall.gpiod_set_value_cansleep 1, PowerCall.usleep_range 1000 2000] ∧
      (ov16a1q_power_on env p).2.reset_value = 1 ∧
      (ov16a1q_power_on env p).2.clk_enable_count = p.clk_enable_count + 1 ∧
      (ov16a1q_power_on env p).2.regulator_enable_count = p.regulator_enable_count + 1) ∧
    ((ov16a1q_power_on env p).1 = 0 ↔
      (env.clk_prepare_enable (power_on_clk_state p) = 0 ∧
        env.regulator_bulk_enable (power_on_regulator_state env p) = 0)) ∧
    ((ov16a1q_power_on env p).2.reset_value = 1 ↔ (ov16a1q_power_on env p).1 = 0) := by
  by_cases hc : env.clk_prepare_enable (gpiod_set_value_cansleep p 0) = 0
  · by_cases hr : env.regulator_bulk_enable
        (usleep_range (clk_prepare_enable env (gpiod_set_value_cansleep p 0)).2 2000 3000) = 0
    · simp only [clk_prepare_enable, gpiod_set_value_cansleep, usleep_range] at hc hr
      simp only [hc, if_true] at hr
      simp at hr
      simp [ov16a1q_power_on, power_on_clk_state, power_on_regulator_state, clk_prepare_enable,
        regulator_bulk_enable, gpiod_set_value_cansleep, usleep_range, clk_disable_unprepare,
        hc, hr]
    · simp only [clk_prepare_enable, gpiod_set_value_cansleep, usleep_range] at hc hr
      simp only [hc, if_true] at hr
      simp at hr
      simp [ov16a1q_power_on, power_on_clk_state, power_on_regulator_state, clk_prepare_enable,
        regulator_bulk_enable, gpiod_set_value_cansleep, usleep_range, clk_disable_unprepare,
        hc, hr]
  · simp only [gpiod_set_value_cansleep] at hc
    simp [ov16a1q_power_on, power_on_clk_state, power_on_regulator_state, clk_prepare_enable,
      regulator_bulk_enable, gpiod_set_value_cansleep, usleep_range, clk_disable_unprepare,
      hc]

theorem C12_power_on_all_or_nothing_witness :
    (power_env_no_regulator.clk_prepare_enable (power_on_clk_state power0) = 0 ∧
      power_env_no_regulator.regulator_bulk_enable
        (power_on_regulator_state power_env_no_regulator power0) ≠ 0) ∧
    ((ov16a1q_power_on power_env_no_regulator power0).1 =
        power_env_no_regulator.regulator_bulk_enable
          (power_on_regulator_state power_env_no_regulator power0) ∧
      (ov16a1q_power_on power_env_no_regulator power0).2.calls =
        power0.calls ++ [PowerCall.gpiod_set_value_cansleep 0, PowerCall.clk_prepare_enable,
          PowerCall.usleep_range 2000 3000, PowerCall.regulator_bulk_enable,
          PowerCall.clk_disable_unprepare] ∧
      ((ov16a1q_power_on power_env_no_regulator power0).2.calls.drop power0.calls.length).count
          PowerCall.clk_disable_unprepare =
        ((ov16a1q_power_on power_env_no_regulator power0).2.calls.drop
          power0.calls.length).count PowerCall.clk_prepare_enable ∧
      (ov16a1q_power_on power_env_no_regulator power0).2.reset_value = 0 ∧
      (ov16a1q_power_on power_env_no_regulator power0).2.clk_enable_count =
        power0.clk_enable_count ∧
      (ov16a1q_power_on power_env_no_regulator power0).2.regulator_enable_count =
        power0.regulator_enable_count) :=
  ⟨⟨rfl, by decide⟩,
    (C12_power_on_all_or_nothing power_env_no_regulator power0).2.1 rfl (by decide)⟩

theorem power_on_ok_state (env : PowerEnv) (p : PowerState)
    (h : (ov16a1q_power_on env p).1 = 0) :
    (ov16a1q_power_on env p).2.reset_value = 1 ∧
    (ov16a1q_power_on env p).2.clk_enable_count = p.clk_enable_count + 1 ∧
    (ov16a1q_power_on env p).2.regulator_enable_count = p.regulator_enable_count + 1 := by
  by_cases hc : env.clk_prepare_enable (gpiod_set_value_cansleep p 0) = 0
  · by_cases hr : env.regulator_bulk_enable
        (usleep_range (clk_prepare_enable env (gpiod_set_value_cansleep p 0)).2 2000 3000) = 0
    · simp only [clk_prepare_enable, gpiod_set_value_cansleep, usleep_range] at hc hr
      simp only [hc, if_true] at hr
      simp at hr
      simp [ov16a1q_power_on, clk_prepare_enable, regulator_bulk_enable,
        gpiod_set_value_cansleep, usleep_range, clk_disable_unprepare, hc, hr]
    · simp only [clk_prepare_enable, gpiod_set_value_cansleep, usleep_range] at hc hr
      simp only [hc, if_true] at hr
      simp at hr
      simp [ov16a1q_power_on, clk_prepare_enable, regulator_bulk_enable,
        gpiod_set_value_cansleep, usleep_range, clk_disable_unprepare, hc, hr] at h
  · simp only [gpiod_set_value_cansleep] at hc
    simp [ov16a1q_power_on, clk_prepare_enable, regulator_bulk_enable,
      gpiod_set_value_cansleep, usleep_range, clk_disable_unprepare, hc] at h

theorem power_off_state (p : PowerState) :
    ov16a1q_power_off p =
      (0, { reset_value := 0, clk_enable_count := p.clk_enable_count - 1,
            regulator_enable_count := p.regulator_enable_count - 1,
            calls := p.calls ++ [PowerCall.gpiod_set_value_cansleep 0,
              PowerCall.usleep_range 2000 3000, PowerCall.clk_disable_unprepare,
              PowerCall.usleep_range 2000 3000, PowerCall.regulator_bulk_disable] }) := by
  simp [ov16a1q_power_off, gpiod_set_value_cansleep, usleep_range, clk_disable_unprepare,
    regulator_bulk_disable]

/-- C13: `ov16a1q_power_off` always returns 0 and makes its calls in the order
reset line low, clock disable, regulator bulk disable (a delay after each of
the first two); and after a successful `ov16a1q_power_on`, `ov16a1q_power_off`
brings the clock enable count and the regulator enable count back to their
values before the power-on and leaves the reset line low. -/
theorem C13_power_off_reverses_power_on (env : PowerEnv) (p : PowerState) :
    (ov16a1q_power_off p).1 = 0 ∧
    (ov16a1q_power_off p).2.calls =
      p.calls ++ [PowerCall.gpiod_set_value_cansleep 0, PowerCall.usleep_range 2000 3000,
        PowerCall.clk_disable_unprepare, PowerCall.usleep_range 2000 3000,
        PowerCall.regulator_bulk_disable] ∧
    (ov16a1q_power_off p).2.reset_value = 0 ∧
    ((ov16a1q_power_on env p).1 = 0 →
      (ov16a1q_power_off (ov16a1q_power_on env p).2).1 = 0 ∧
      (ov16a1q_power_off (ov16a1q_power_on env p).2).2.clk_enable_count =
        p.clk_enable_count ∧
      (ov16a1q_power_off (ov16a1q_power_on env p).2).2.regulator_enable_count =
        p.regulator_enable_count ∧
      (ov16a1q_power_off (ov16a1q_power_on env p).2).2.reset_value = 0) := by
  refine ⟨by rw [power_off_state], by rw [power_off_state], by rw [power_off_state], ?_⟩
  intro h
  obtain ⟨-, hclk, hreg⟩ := power_on_ok_state env p h
  rw [power_off_state]
  simp [hclk, hreg]

theorem C13_power_off_reverses_power_on_witness :
    (ov16a1q_power_on power_env_ok power0).1 = 0 ∧
    ((ov16a1q_power_off (ov16a1q_power_on power_env_ok power0).2).1 = 0 ∧
      (ov16a1q_power_off (ov16a1q_power_on power_env_ok power0).2).2.clk_enable_count =
        power0.clk_enable_count ∧
      (ov16a1q_power_off (ov16a1q_power_on power_env_ok power0).2).2.regulator_enable_count =
        power0.regulator_enable_count ∧
      (ov16a1q_power_off (ov16a1q_power_on power_env_ok power0).2).2.reset_value = 0) :=
  ⟨by decide, (C13_power_off_reverses_power_on power_env_ok power0).2.2.2 (by decide)⟩

/-! ## Mode selection and derived timing: theorems -/

theorem parse_of_scan_eq_find (modes : List ov16a1q_mode) (lanes : Nat) :
    parse_of_scan modes none lanes = modes.find? (fun m => decide (m.lane_count = lanes)) := by
  induction modes with
  | nil => rfl
  | cons m ms ih =>
    by_cases h : m.lane_count = lanes
    · simp [parse_of_scan, List.find?, h]
    · simp [parse_of_scan, List.find?, h, ih]

theorem catalog_mode (m : ov16a1q_mode) (h : m ∈ ov16a1q_modes) :
    m = ov16a1q_mode.mk 2304 1728 2550 3920 180000000 4 10 ov16a1q_2304x1728_4lane_regs
      MEDIA_BUS_FMT_SBGGR10_1X10 := by
  simpa [ov16a1q_modes] using h

/-- C14: starting with no mode selected, `ov16a1q_parse_of` selects the
2304x1728 mode for 4 data lanes; for every other lane count it selects nothing
and returns the driver's error for an unsupported lane count (`-EINVAL`); in
general the scan selects the first catalog entry whose `lane_count` equals the
requested count. -/
theorem C14_mode_selected_by_lane_count :
    (∃ m, ov16a1q_parse_of (some (0, 4)) none = (0, some m) ∧ m ∈ ov16a1q_modes ∧
      m.width = 2304 ∧ m.height = 1728 ∧ m.lane_count = 4) ∧
    (∀ lanes, lanes ≠ 4 → ov16a1q_parse_of (some (0, lanes)) none = (- EINVAL, none)) ∧
    (∀ modes lanes, parse_of_scan modes none lanes =
      modes.find? (fun m => decide (m.lane_count = lanes))) ∧
    (∀ lanes, (ov16a1q_parse_of (some (0, lanes)) none).2 =
      ov16a1q_modes.find? (fun m => decide (m.lane_count = lanes))) := by
  refine ⟨⟨_, rfl, by simp [ov16a1q_modes], rfl, rfl, rfl⟩, ?_, parse_of_scan_eq_find, ?_⟩
  · intro lanes h
    have h4 : ¬ (4 = lanes) := fun e => h e.symm
    simp [ov16a1q_parse_of, ov16a1q_modes, parse_of_scan, h4]
  · intro lanes
    rw [← parse_of_scan_eq_find]
    simp only [ov16a1q_parse_of, ne_eq, not_true_eq_false, if_false]
    split <;> simp_all

/-- C15: for every mode of the catalog the pixel rate the driver computes is
`link_freq * 2 * lane_count / depth` in exact integer arithmetic: the divisor
is not zero, the product stays inside the signed 64-bit range, and the result
is 144000000 (the catalog's one mode is the 2304x1728 mode). -/
theorem C15_pixel_rate_exact :
    ∀ m ∈ ov16a1q_modes,
      m.depth ≠ 0 ∧
      -9223372036854775808 ≤ m.link_freq * 2 * (m.lane_count : Int) ∧
      m.link_freq * 2 * (m.lane_count : Int) < 9223372036854775808 ∧
      (ov16a1q_pixel_rate m : Int) = m.link_freq * 2 * (m.lane_count : Int) / (m.depth : Int) ∧
      m.width = 2304 ∧ m.height = 1728 ∧
      ov16a1q_pixel_rate m = 144000000 := by
  intro m hm
  rw [catalog_mode m hm]
  decide

/-- C16: every mode of the catalog has `vts >= height` and `hts >= width`, so
the 32-bit subtractions giving the blanking do not wrap; for the 2304x1728
mode (the catalog's one mode) the horizontal blanking is 246 and the vertical
blanking is 2192. -/
theorem C16_blanking_does_not_wrap :
    ∀ m ∈ ov16a1q_modes,
      m.height ≤ m.vts ∧ m.width ≤ m.hts ∧
      (mode_h_blank m : Int) = (m.hts : Int) - (m.width : Int) ∧
      (mode_v_blank m : Int) = (m.vts : Int) - (m.height : Int) ∧
      m.width = 2304 ∧ m.height = 1728 ∧
      mode_h_blank m = 246 ∧ mode_v_blank m = 2192 := by
  intro m hm
  rw [catalog_mode m hm]
  decide

theorem C14_mode_selected_by_lane_count_witness :
    2 ≠ 4 ∧ ov16a1q_parse_of (some (0, 2)) none = (- EINVAL, none) :=
  ⟨by decide, C14_mode_selected_by_lane_count.2.1 2 (by decide)⟩

theorem C15_pixel_rate_exact_witness :
    dev0.cur_mode ∈ ov16a1q_modes ∧
    (dev0.cur_mode.depth ≠ 0 ∧
      -9223372036854775808 ≤ dev0.cur_mode.link_freq * 2 * (dev0.cur_mode.lane_count : Int) ∧
      dev0.cur_mode.link_freq * 2 * (dev0.cur_mode.lane_count : Int) < 9223372036854775808 ∧
      (ov16a1q_pixel_rate dev0.cur_mode : Int) =
        dev0.cur_mode.link_freq * 2 * (dev0.cur_mode.lane_count : Int)
          / (dev0.cur_mode.depth : Int) ∧
      dev0.cur_mode.width = 2304 ∧ dev0.cur_mode.height = 1728 ∧
      ov16a1q_pixel_rate dev0.cur_mode = 144000000) :=
  ⟨by decide, C15_pixel_rate_exact dev0.cur_mode (by decide)⟩

theorem C16_blanking_does_not_wrap_witness :
    dev0.cur_mode ∈ ov16a1q_modes ∧
    (dev0.cur_mode.height ≤ dev0.cur_mode.vts ∧ dev0.cur_mode.width ≤ dev0.cur_mode.hts ∧
      (mode_h_blank dev0.cur_mode : Int) =
        (dev0.cur_mode.hts : Int) - (dev0.cur_mode.width : Int) ∧
      (mode_v_blank dev0.cur_mode : Int) =
        (dev0.cur_mode.vts : Int) - (dev0.cur_mode.height : Int) ∧
      dev0.cur_mode.width = 2304 ∧ dev0.cur_mode.height = 1728 ∧
      mode_h_blank dev0.cur_mode = 246 ∧ mode_v_blank dev0.cur_mode = 2192) :=
  ⟨by decide, C16_blanking_does_not_wrap dev0.cur_mode (by decide)⟩

/-! ## Control initialisation: theorems -/

/-- The handler `ov16a1q_init_ctrls` builds for a catalog mode when no
framework call fails. -/
theorem init_ctrls_catalog (ienv : InitEnv) (m : ov16a1q_mode) (hm : m ∈ ov16a1q_modes)
    (h1 : ienv.v4l2_ctrl_handler_init = 0) (h2 : ienv.v4l2_fwnode_device_parse = 0)
    (h3 : ienv.v4l2_ctrl_new_fwnode_properties.1 = 0) :
    ov16a1q_init_ctrls ienv m =
      (0, [v4l2_ctrl.mk V4L2_CID_LINK_FREQ V4L2_CTRL_FLAG_READ_ONLY 0 0 0 0 0 [m.link_freq],
        v4l2_ctrl.mk V4L2_CID_PIXEL_RATE V4L2_CTRL_FLAG_READ_ONLY 0 (ov16a1q_pixel_rate m) 1
          (ov16a1q_pixel_rate m) (ov16a1q_pixel_rate m) [],
        v4l2_ctrl.mk V4L2_CID_HBLANK V4L2_CTRL_FLAG_READ_ONLY
          ((m.hts : Int) - (m.width : Int)) ((m.hts : Int) - (m.width : Int)) 1
          ((m.hts : Int) - (m.width : Int)) ((m.hts : Int) - (m.width : Int)) [],
        v4l2_ctrl.mk V4L2_CID_VBLANK 0 ((m.vts : Int) - (m.height : Int))
          (0x7ff7 - (m.height : Int)) 1 ((m.vts : Int) - (m.height : Int))
          ((m.vts : Int) - (m.height : Int)) [],
        v4l2_ctrl.mk V4L2_CID_EXPOSURE 0 0 ((m.vts : Int) - 4) 1 ((m.vts : Int) - 4)
          ((m.vts : Int) - 4) [],
        v4l2_ctrl.mk V4L2_CID_ANALOGUE_GAIN 0 128 1984 1 128 128 []]
        ++ ienv.v4l2_ctrl_new_fwnode_properties.2) := by
  have hsplit : ov16a1q_init_ctrls ienv m =
      if ienv.v4l2_ctrl_handler_init ≠ 0 then (ienv.v4l2_ctrl_handler_init, [])
      else if (init_ctrls_created m).error ≠ 0 then ((init_ctrls_created m).error, [])
      else if ienv.v4l2_fwnode_device_parse ≠ 0 then (ienv.v4l2_fwnode_device_parse, [])
      else if ienv.v4l2_ctrl_new_fwnode_properties.1 ≠ 0 then
        (ienv.v4l2_ctrl_new_fwnode_properties.1, [])
      else (0, (init_ctrls_created m).ctrls ++ ienv.v4l2_ctrl_new_fwnode_properties.2) := rfl
  rw [hsplit, catalog_mode m hm]
  have e : init_ctrls_created (ov16a1q_mode.mk 2304 1728 2550 3920 180000000 4 10
      ov16a1q_2304x1728_4lane_regs MEDIA_BUS_FMT_SBGGR10_1X10) =
      { ctrls := [v4l2_ctrl.mk V4L2_CID_LINK_FREQ V4L2_CTRL_FLAG_READ_ONLY 0 0 0 0 0 [180000000],
          v4l2_ctrl.mk V4L2_CID_PIXEL_RATE V4L2_CTRL_FLAG_READ_ONLY 0 144000000 1
            144000000 144000000 [],
          v4l2_ctrl.mk V4L2_CID_HBLANK V4L2_CTRL_FLAG_READ_ONLY 246 246 1 246 246 [],
          v4l2_ctrl.mk V4L2_CID_VBLANK 0 2192 31031 1 2192 2192 [],
          v4l2_ctrl.mk V4L2_CID_EXPOSURE 0 0 3916 1 3916 3916 [],
          v4l2_ctrl.mk V4L2_CID_ANALOGUE_GAIN 0 128 1984 1 128 128 []],
        error := 0 } := by decide
  have hr : ov16a1q_pixel_rate (ov16a1q_mode.mk 2304 1728 2550 3920 180000000 4 10
      ov16a1q_2304x1728_4lane_regs MEDIA_BUS_FMT_SBGGR10_1X10) = 144000000 := by decide
  rw [e, hr]
  simp [h1, h2, h3]

theorem init_ctrls_dev0 :
    ov16a1q_init_ctrls init_env_ok dev0.cur_mode = (0, dev0.ctrl_handler) := by
  decide

/-- C17: control initialisation for the catalog mode (height 1728, vts 3920),
with no framework call failing, creates the vertical blank control with
minimum 2192 = `vts - height`, step 1 and default 2192, but with the maximum
31031 = `0x7FF7 - height`, not 63807 = `0xFFFF - height`.  The sibling path
`ov16a1q_set_fmt`, run for the active configuration on the state control
initialisation left, installs `[2192, 63807]` for the same control and mode:
the two ranges are not the same. -/
theorem C17_init_vblank_max_differs :
    (ov16a1q_init_ctrls init_env_ok dev0.cur_mode).1 = 0 ∧
    dev0.ctrl_handler = (ov16a1q_init_ctrls init_env_ok dev0.cur_mode).2 ∧
    ((ov16a1q_init_ctrls init_env_ok dev0.cur_mode).2.filter
        (fun c => c.id = V4L2_CID_VBLANK)).map
      (fun c => (c.minimum, c.maximum, c.step, c.default_value)) = [(2192, 31031, 1, 2192)] ∧
    (dev0.cur_mode.vts : Int) - (dev0.cur_mode.height : Int) = 2192 ∧
    0x7FF7 - (dev0.cur_mode.height : Int) = 31031 ∧
    0xFFFF - (dev0.cur_mode.height : Int) = 63807 ∧
    set_fmt_vblank_range dev0.cur_mode = (2192, 63807, 1, 2192) ∧
    (ov16a1q_set_fmt (sim_env (fun _ => 0)) dev0 (v4l2_mbus_framefmt.mk 0 0 0 0)
        fmt_request_active).map
      (fun r => (r.1, (r.2.1.ctrl_handler.filter (fun c => c.id = V4L2_CID_VBLANK)).map
        (fun c => (c.minimum, c.maximum, c.step, c.default_value)))) =
      some (0, [(2192, 63807, 1, 2192)]) := by
  refine ⟨by decide, by decide, by decide, by decide, by decide, by decide, by decide, ?_⟩
  rfl

/-- The vertical blank control after control initialisation for a catalog
mode (the fourth control created): minimum `vts - height`, maximum
`0x7FF7 - height`, step 1, default and value `vts - height`; minimum, step and
default are the ones `ov16a1q_set_fmt` passes when it installs the range for
the mode. -/
theorem init_vblank_range_catalog (ienv : InitEnv) (m : ov16a1q_mode) (hm : m ∈ ov16a1q_modes)
    (h1 : ienv.v4l2_ctrl_handler_init = 0) (h2 : ienv.v4l2_fwnode_device_parse = 0)
    (h3 : ienv.v4l2_ctrl_new_fwnode_properties.1 = 0) :
    (ov16a1q_init_ctrls ienv m).1 = 0 ∧
    (ov16a1q_init_ctrls ienv m).2.get? 3 =
      some (v4l2_ctrl.mk V4L2_CID_VBLANK 0 ((m.vts : Int) - (m.height : Int))
        (0x7FF7 - (m.height : Int)) 1 ((m.vts : Int) - (m.height : Int))
        ((m.vts : Int) - (m.height : Int)) []) ∧
    (set_fmt_vblank_range m).1 = (m.vts : Int) - (m.height : Int) ∧
    (set_fmt_vblank_range m).2.2.1 = 1 ∧
    (set_fmt_vblank_range m).2.2.2 = (m.vts : Int) - (m.height : Int) := by
  rw [init_ctrls_catalog ienv m hm h1 h2 h3]
  refine ⟨rfl, rfl, ?_, rfl, ?_⟩ <;>
  · rw [catalog_mode m hm]
    decide

/-- C18: at control initialisation, for a catalog mode and with no framework
call failing, the handler holds, in creation order: the link frequency as a
read-only menu with the single entry `mode.link_freq`; the pixel rate with
range `[0, rate]` and default `rate`, where `rate` is the derived pixel rate;
the horizontal blank, read-only, with minimum, maximum and default
`hts - width`; (fourth, the vertical blank;) the exposure with range
`[0, vts - 4]`, step 1 and default `vts - 4`; the analogue gain with range
`[128, 1984]`, step 1 and default 128. -/
theorem C18_init_ctrls_controls (ienv : InitEnv) (m : ov16a1q_mode) (hm : m ∈ ov16a1q_modes)
    (h1 : ienv.v4l2_ctrl_handler_init = 0) (h2 : ienv.v4l2_fwnode_device_parse = 0)
    (h3 : ienv.v4l2_ctrl_new_fwnode_properties.1 = 0) :
    (ov16a1q_init_ctrls ienv m).1 = 0 ∧
    (ov16a1q_init_ctrls ienv m).2.get? 0 =
      some (v4l2_ctrl.mk V4L2_CID_LINK_FREQ V4L2_CTRL_FLAG_READ_ONLY 0 0 0 0 0
        [m.link_freq]) ∧
    (ov16a1q_init_ctrls ienv m).2.get? 1 =
      some (v4l2_ctrl.mk V4L2_CID_PIXEL_RATE V4L2_CTRL_FLAG_READ_ONLY 0 (ov16a1q_pixel_rate m)
        1 (ov16a1q_pixel_rate m) (ov16a1q_pixel_rate m) []) ∧
    (ov16a1q_init_ctrls ienv m).2.get? 2 =
      some (v4l2_ctrl.mk V4L2_CID_HBLANK V4L2_CTRL_FLAG_READ_ONLY
        ((m.hts : Int) - (m.width : Int)) ((m.hts : Int) - (m.width : Int)) 1
        ((m.hts : Int) - (m.width : Int)) ((m.hts : Int) - (m.width : Int)) []) ∧
    (ov16a1q_init_ctrls ienv m).2.get? 4 =
      some (v4l2_ctrl.mk V4L2_CID_EXPOSURE 0 0 ((m.vts : Int) - 4) 1 ((m.vts : Int) - 4)
        ((m.vts : Int) - 4) []) ∧
    (ov16a1q_init_ctrls ienv m).2.get? 5 =
      some (v4l2_ctrl.mk V4L2_CID_ANALOGUE_GAIN 0 128 1984 1 128 128 []) ∧
    (ov16a1q_init_ctrls ienv m).2.drop 6 = ienv.v4l2_ctrl_new_fwnode_properties.2 := by
  rw [init_ctrls_catalog ienv m hm h1 h2 h3]
  exact ⟨rfl, rfl, rfl, rfl, rfl, rfl, rfl⟩

theorem C18_init_ctrls_controls_witness :
    (dev0.cur_mode ∈ ov16a1q_modes ∧ init_env_ok.v4l2_ctrl_handler_init = 0 ∧
      init_env_ok.v4l2_fwnode_device_parse = 0 ∧
      init_env_ok.v4l2_ctrl_new_fwnode_properties.1 = 0) ∧
    ((ov16a1q_init_ctrls init_env_ok dev0.cur_mode).1 = 0 ∧
    (ov16a1q_init_ctrls init_env_ok dev0.cur_mode).2.get? 0 =
      some (v4l2_ctrl.mk V4L2_CID_LINK_FREQ V4L2_CTRL_FLAG_READ_ONLY 0 0 0 0 0
        [dev0.cur_mode.link_freq]) ∧
    (ov16a1q_init_ctrls init_env_ok dev0.cur_mode).2.get? 1 =
      some (v4l2_ctrl.mk V4L2_CID_PIXEL_RATE V4L2_CTRL_FLAG_READ_ONLY 0
        (ov16a1q_pixel_rate dev0.cur_mode) 1 (ov16a1q_pixel_rate dev0.cur_mode)
        (ov16a1q_pixel_rate dev0.cur_mode) []) ∧
    (ov16a1q_init_ctrls init_env_ok dev0.cur_mode).2.get? 2 =
      some (v4l2_ctrl.mk V4L2_CID_HBLANK V4L2_CTRL_FLAG_READ_ONLY
        ((dev0.cur_mode.hts : Int) - (dev0.cur_mode.width : Int))
        ((dev0.cur_mode.hts : Int) - (dev0.cur_mode.width : Int)) 1
        ((dev0.cur_mode.hts : Int) - (dev0.cur_mode.width : Int))
        ((dev0.cur_mode.hts : Int) - (dev0.cur_mode.width : Int)) []) ∧
    (ov16a1q_init_ctrls init_env_ok dev0.cur_mode).2.get? 4 =
      some (v4l2_ctrl.mk V4L2_CID_EXPOSURE 0 0 ((dev0.cur_mode.vts : Int) - 4) 1
        ((dev0.cur_mode.vts : Int) - 4) ((dev0.cur_mode.vts : Int) - 4) []) ∧
    (ov16a1q_init_ctrls init_env_ok dev0.cur_mode).2.get? 5 =
      some (v4l2_ctrl.mk V4L2_CID_ANALOGUE_GAIN 0 128 1984 1 128 128 []) ∧
    (ov16a1q_init_ctrls init_env_ok dev0.cur_mode).2.drop 6 =
      init_env_ok.v4l2_ctrl_new_fwnode_properties.2) :=
  ⟨⟨by decide, rfl, rfl, rfl⟩,
    C18_init_ctrls_controls init_env_ok dev0.cur_mode (by decide) rfl rfl rfl⟩

/-! ## Exposure range and vertical blank: theorems -/

theorem exposure_max_value (h : Nat) (v : Int) (h2 : 2 ≤ (h : Int) + v)
    (hlt : (h : Int) + v < 4294967296) :
    (((h + to_u32 v + (4294967296 - 2)) % 4294967296 : Nat) : Int) = (h : Int) + v - 2 := by
  unfold to_u32
  omega

theorem set_ctrl_range_vblank (d : ov16a1q) (v : Int)
    (h2 : 2 ≤ (d.cur_mode.height : Int) + v)
    (hlt : (d.cur_mode.height : Int) + v < 4294967296) :
    (set_ctrl_range d V4L2_CID_VBLANK v).ctrl_handler =
      d.ctrl_handler.map (fun c =>
        if c.id = V4L2_CID_EXPOSURE then
          v4l2_ctrl_modify_range c c.minimum ((d.cur_mode.height : Int) + v - 2) c.step
            ((d.cur_mode.height : Int) + v - 2)
        else c) := by
  unfold set_ctrl_range
  rw [if_pos rfl, exposure_max_value d.cur_mode.height v h2 hlt]

theorem set_ctrl_ctrl_handler (env : Env) (d : ov16a1q) (id : Nat) (val : Int) :
    (ov16a1q_set_ctrl env d id val).2.ctrl_handler = (set_ctrl_range d id val).ctrl_handler := by
  obtain ⟨-, -, -, -, g6⟩ := get_if_in_use_fields env (set_ctrl_range d id val)
  rw [set_ctrl_eq]
  unfold set_ctrl_apply
  split
  · exact g6
  · obtain ⟨ws, hws, -⟩ := set_ctrl_hw_state env
      (pm_runtime_get_if_in_use env (set_ctrl_range d id val)).2 d.cur_mode.height id val
    simp only [hws, pm_runtime_put]
    exact g6

theorem modify_range_accepted (c : v4l2_ctrl) (mx : Int) (hst : c.step ≠ 0)
    (hmin : c.minimum ≤ mx) :
    (v4l2_ctrl_modify_range c c.minimum mx c.step mx).id = c.id ∧
    (v4l2_ctrl_modify_range c c.minimum mx c.step mx).maximum = mx ∧
    (v4l2_ctrl_modify_range c c.minimum mx c.step mx).minimum = c.minimum ∧
    (v4l2_ctrl_modify_range c c.minimum mx c.step mx).step = c.step ∧
    (v4l2_ctrl_modify_range c c.minimum mx c.step mx).default_value = mx ∧
    (v4l2_ctrl_modify_range c c.minimum mx c.step mx).val ≤ mx ∧
    c.minimum ≤ (v4l2_ctrl_modify_range c c.minimum mx c.step mx).val := by
  have hno : ¬ (c.step = 0 ∨ mx < c.minimum ∨ mx < c.minimum ∨ mx < mx) := by
    intro h
    rcases h with h | h | h | h
    · exact hst h
    · omega
    · omega
    · omega
  unfold v4l2_ctrl_modify_range
  rw [if_neg hno]
  refine ⟨rfl, rfl, rfl, rfl, rfl, ?_, ?_⟩
  · dsimp only
    split_ifs <;> omega
  · dsimp only
    split_ifs <;> omega

/-- C19: for a catalog mode and every vertical blank value `v` of the
configured range, `ov16a1q_set_ctrl` for the vertical blank replaces the
exposure control by one whose maximum is exactly `height + v - 2`, whose
minimum and step are unchanged and whose current value is at most that
maximum.  The update is the first half of the function, made before the power
check and the register write, and the resulting controls do not depend on the
environment, so they are the same whether or not the device is in use. -/
theorem C19_vblank_sets_exposure_max (env : Env) (d : ov16a1q) (v : Int)
    (hmode : d.cur_mode ∈ ov16a1q_modes)
    (hv : (d.cur_mode.vts : Int) - (d.cur_mode.height : Int) ≤ v ∧
      v ≤ 0xFFFF - (d.cur_mode.height : Int))
    (hexp : ∀ c ∈ d.ctrl_handler, c.id = V4L2_CID_EXPOSURE →
      c.step ≠ 0 ∧ c.minimum ≤ (d.cur_mode.height : Int) + v - 2) :
    ov16a1q_set_ctrl env d V4L2_CID_VBLANK v =
      set_ctrl_apply env (set_ctrl_range d V4L2_CID_VBLANK v) d.cur_mode.height
        V4L2_CID_VBLANK v ∧
    (ov16a1q_set_ctrl env d V4L2_CID_VBLANK v).2.ctrl_handler =
      d.ctrl_handler.map (fun c =>
        if c.id = V4L2_CID_EXPOSURE then
          v4l2_ctrl_modify_range c c.minimum ((d.cur_mode.height : Int) + v - 2) c.step
            ((d.cur_mode.height : Int) + v - 2)
        else c) ∧
    (∀ c ∈ d.ctrl_handler, c.id = V4L2_CID_EXPOSURE →
      (v4l2_ctrl_modify_range c c.minimum ((d.cur_mode.height : Int) + v - 2) c.step
        ((d.cur_mode.height : Int) + v - 2)).id = V4L2_CID_EXPOSURE ∧
      (v4l2_ctrl_modify_range c c.minimum ((d.cur_mode.height : Int) + v - 2) c.step
        ((d.cur_mode.height : Int) + v - 2)).maximum = (d.cur_mode.height : Int) + v - 2 ∧
      (v4l2_ctrl_modify_range c c.minimum ((d.cur_mode.height : Int) + v - 2) c.step
        ((d.cur_mode.height : Int) + v - 2)).minimum = c.minimum ∧
      (v4l2_ctrl_modify_range c c.minimum ((d.cur_mode.height : Int) + v - 2) c.step
        ((d.cur_mode.height : Int) + v - 2)).step = c.step ∧
      (v4l2_ctrl_modify_range c c.minimum ((d.cur_mode.height : Int) + v - 2) c.step
        ((d.cur_mode.height : Int) + v - 2)).val ≤ (d.cur_mode.height : Int) + v - 2) := by
  have hcat := catalog_mode d.cur_mode hmode
  have hh : d.cur_mode.height = 1728 := by rw [hcat]
  have hvts : d.cur_mode.vts = 3920 := by rw [hcat]
  rw [hh, hvts] at hv
  obtain ⟨hlo, hhi⟩ := hv
  have hrange := set_ctrl_range_vblank d v (by rw [hh]; omega) (by rw [hh]; omega)
  refine ⟨rfl, ?_, ?_⟩
  · rw [set_ctrl_ctrl_handler, hrange]
  · intro c hc hid
    obtain ⟨hst, hmin⟩ := hexp c hc hid
    obtain ⟨a1, a2, a3, a4, -, a6, -⟩ :=
      modify_range_accepted c ((d.cur_mode.height : Int) + v - 2) hst hmin
    exact ⟨a1.trans hid, a2, a3, a4, a6⟩

theorem C19_vblank_sets_exposure_max_witness :
    (dev0.cur_mode ∈ ov16a1q_modes ∧
      ((dev0.cur_mode.vts : Int) - (dev0.cur_mode.height : Int) ≤ 3000 ∧
        (3000 : Int) ≤ 0xFFFF - (dev0.cur_mode.height : Int)) ∧
      (∀ c ∈ dev0.ctrl_handler, c.id = V4L2_CID_EXPOSURE →
        c.step ≠ 0 ∧ c.minimum ≤ (dev0.cur_mode.height : Int) + 3000 - 2)) ∧
    (ov16a1q_set_ctrl (sim_env (fun _ => 0)) dev0 V4L2_CID_VBLANK 3000).2.ctrl_handler =
      dev0.ctrl_handler.map (fun c =>
        if c.id = V4L2_CID_EXPOSURE then
          v4l2_ctrl_modify_range c c.minimum ((dev0.cur_mode.height : Int) + 3000 - 2) c.step
            ((dev0.cur_mode.height : Int) + 3000 - 2)
        else c) :=
  ⟨⟨by decide, by decide, by decide⟩,
    (C19_vblank_sets_exposure_max (sim_env (fun _ => 0)) dev0 3000 (by decide) (by decide)
      (by decide)).2.1⟩

/-- C20 (counterexample): the device state `dev0` is the one control
initialisation produces, and there the exposure range is `[0, vts - 4]`; after
one write of the in-range value 2192 to the vertical blank control it is
not. -/
theorem C20_exposure_range_counterexample :
    ov16a1q_init_ctrls init_env_ok dev0.cur_mode = (0, dev0.ctrl_handler) ∧
    exposure_range_vts_minus_4 dev0 ∧
    ((dev0.cur_mode.vts : Int) - (dev0.cur_mode.height : Int) ≤ 2192 ∧
      (2192 : Int) ≤ 0x7FF7 - (dev0.cur_mode.height : Int)) ∧
    ¬ exposure_range_vts_minus_4 (vblank_write (sim_env (fun _ => 0)) dev0 2192) := by
  decide

theorem vblank_write_cur_mode (env : Env) (d : ov16a1q) (v : Int) :
    (vblank_write env d v).cur_mode = d.cur_mode := by
  obtain ⟨-, hm, -⟩ := set_ctrl_shape env d V4L2_CID_VBLANK v
  unfold vblank_write
  split
  · exact hm
  · exact hm

theorem vblank_write_exposure (env : Env) (d : ov16a1q) (v : Int) (e : v4l2_ctrl)
    (hmode : d.cur_mode ∈ ov16a1q_modes)
    (hv : (d.cur_mode.vts : Int) - (d.cur_mode.height : Int) ≤ v ∧
      v ≤ 0xFFFF - (d.cur_mode.height : Int))
    (hget : d.ctrl_handler.get? 4 = some e)
    (he : e.id = V4L2_CID_EXPOSURE ∧ e.minimum = 0 ∧ e.step = 1) :
    ∃ e2, (vblank_write env d v).ctrl_handler.get? 4 = some e2 ∧
      (e2.id = V4L2_CID_EXPOSURE ∧ e2.minimum = 0 ∧ e2.step = 1) ∧
      e2.maximum = (d.cur_mode.height : Int) + v - 2 := by
  have hcat := catalog_mode d.cur_mode hmode
  have hh : d.cur_mode.height = 1728 := by rw [hcat]
  have hvts : d.cur_mode.vts = 3920 := by rw [hcat]
  rw [hh, hvts] at hv
  obtain ⟨hlo, hhi⟩ := hv
  obtain ⟨hid, hmin, hstep⟩ := he
  have hrange := set_ctrl_range_vblank d v (by rw [hh]; omega) (by rw [hh]; omega)
  have hset := set_ctrl_ctrl_handler env d V4L2_CID_VBLANK v
  rw [hrange] at hset
  obtain ⟨a1, a2, a3, a4, -, -, -⟩ :=
    modify_range_accepted e ((d.cur_mode.height : Int) + v - 2) (by rw [hstep]; decide)
      (by rw [hmin, hh]; omega)
  have hget2 : (ov16a1q_set_ctrl env d V4L2_CID_VBLANK v).2.ctrl_handler.get? 4 =
      some (v4l2_ctrl_modify_range e e.minimum ((d.cur_mode.height : Int) + v - 2) e.step
        ((d.cur_mode.height : Int) + v - 2)) := by
    rw [hset, List.get?_eq_getElem?, List.getElem?_map, ← List.get?_eq_getElem?, hget]
    simp [hid]
  have hne : ¬ (v4l2_ctrl_modify_range e e.minimum ((d.cur_mode.height : Int) + v - 2) e.step
      ((d.cur_mode.height : Int) + v - 2)).id = V4L2_CID_VBLANK := by
    rw [a1, hid]
    decide
  refine ⟨_, ?_, ⟨a1.trans hid, a3.trans hmin, a4.trans hstep⟩, a2⟩
  unfold vblank_write
  split
  · rw [List.get?_eq_getElem?, List.getElem?_map, ← List.get?_eq_getElem?, hget2]
    simp only [Option.map_some', if_neg hne]
  · exact hget2

/-- C20 (amended): in the state control initialisation produces for a catalog
mode, and after any sequence of in-range writes to the vertical blank control,
the exposure control (the fifth control created) has minimum 0; its maximum is
`vts - 4` of the mode as long as no vertical blank write was made, and
`height + v - 2` after a write of `v`, for the last value written. -/
theorem C20_exposure_range_after_writes (env : Env) (ienv : InitEnv) (d0 : ov16a1q)
    (vs : List Int) (hmode : d0.cur_mode ∈ ov16a1q_modes)
    (h1 : ienv.v4l2_ctrl_handler_init = 0) (h2 : ienv.v4l2_fwnode_device_parse = 0)
    (h3 : ienv.v4l2_ctrl_new_fwnode_properties.1 = 0)
    (hinit : d0.ctrl_handler = (ov16a1q_init_ctrls ienv d0.cur_mode).2)
    (hvs : ∀ v ∈ vs, (d0.cur_mode.vts : Int) - (d0.cur_mode.height : Int) ≤ v ∧
      v ≤ 0xFFFF - (d0.cur_mode.height : Int)) :
    ∃ e, (vs.foldl (vblank_write env) d0).ctrl_handler.get? 4 = some e ∧
      e.id = V4L2_CID_EXPOSURE ∧ e.minimum = 0 ∧
      e.maximum = exposure_max_after d0.cur_mode vs := by
  have key : (vs.foldl (vblank_write env) d0).cur_mode = d0.cur_mode ∧
      ∃ e, (vs.foldl (vblank_write env) d0).ctrl_handler.get? 4 = some e ∧
        (e.id = V4L2_CID_EXPOSURE ∧ e.minimum = 0 ∧ e.step = 1) ∧
        e.maximum = exposure_max_after d0.cur_mode vs := by
    induction vs using List.reverseRecOn with
    | nil =>
      refine ⟨rfl, ?_⟩
      rw [List.foldl_nil, hinit, init_ctrls_catalog ienv d0.cur_mode hmode h1 h2 h3]
      exact ⟨_, rfl, ⟨rfl, rfl, rfl⟩, rfl⟩
    | append_singleton l a ih =>
      have hl : ∀ v ∈ l, (d0.cur_mode.vts : Int) - (d0.cur_mode.height : Int) ≤ v ∧
          v ≤ 0xFFFF - (d0.cur_mode.height : Int) :=
        fun v hv => hvs v (List.mem_append_left _ hv)
      have ha := hvs a (List.mem_append_right _ (List.mem_singleton_self a))
      obtain ⟨hcm, e, hget, he, -⟩ := ih hl
      rw [List.foldl_append, List.foldl_cons, List.foldl_nil]
      refine ⟨by rw [vblank_write_cur_mode, hcm], ?_⟩
      obtain ⟨e2, hget2, he2, hmax2⟩ := vblank_write_exposure env
        (l.foldl (vblank_write env) d0) a e (by rw [hcm]; exact hmode)
        (by rw [hcm]; exact ha) hget he
      refine ⟨e2, hget2, he2, ?_⟩
      rw [hmax2, hcm]
      simp [exposure_max_after]
  obtain ⟨-, e, hget, ⟨hid, hmin, -⟩, hmax⟩ := key
  exact ⟨e, hget, hid, hmin, hmax⟩

theorem C20_exposure_range_after_writes_witness :
    (dev0.cur_mode ∈ ov16a1q_modes ∧ init_env_ok.v4l2_ctrl_handler_init = 0 ∧
      init_env_ok.v4l2_fwnode_device_parse = 0 ∧
      init_env_ok.v4l2_ctrl_new_fwnode_properties.1 = 0 ∧
      dev0.ctrl_handler = (ov16a1q_init_ctrls init_env_ok dev0.cur_mode).2 ∧
      (∀ v ∈ [(3000 : Int), 2192],
        (dev0.cur_mode.vts : Int) - (dev0.cur_mode.height : Int) ≤ v ∧
        v ≤ 0xFFFF - (dev0.cur_mode.height : Int))) ∧
    (∃ e, (([(3000 : Int), 2192]).foldl (vblank_write (sim_env (fun _ => 0)))
        dev0).ctrl_handler.get? 4 = some e ∧
      e.id = V4L2_CID_EXPOSURE ∧ e.minimum = 0 ∧
      e.maximum = exposure_max_after dev0.cur_mode [(3000 : Int), 2192]) :=
  ⟨⟨by decide, rfl, rfl, rfl, by decide, by decide⟩,
    C20_exposure_range_after_writes (sim_env (fun _ => 0)) init_env_ok dev0 [3000, 2192]
      (by decide) rfl rfl rfl (by decide) (by decide)⟩

/-! ## Control writes: the power check and the register selected -/

theorem get_if_in_use_pos (env : Env) (d : ov16a1q) (h : 0 < env.get_if_in_use d) :
    (pm_runtime_get_if_in_use env d).1 ≠ 0 ∧
    (pm_runtime_get_if_in_use env d).2 = { d with usage_count := d.usage_count + 1 } := by
  unfold pm_runtime_get_if_in_use
  have h1 : env.get_if_in_use d > 0 := h
  rw [if_pos h1]
  exact ⟨by dsimp only; omega, rfl⟩

theorem get_if_in_use_zero (env : Env) (d : ov16a1q) (h : env.get_if_in_use d = 0) :
    pm_runtime_get_if_in_use env d = (0, d) := by
  unfold pm_runtime_get_if_in_use
  simp [h]

/-- The state and the status of `ov16a1q_set_ctrl` on a device in use, in
terms of the register write of the `switch`. -/
theorem set_ctrl_in_use (env : Env) (d : ov16a1q) (id : Nat) (val : Int)
    (hin : 0 < env.get_if_in_use (set_ctrl_range d id val)) :
    ov16a1q_set_ctrl env d id val =
      ((set_ctrl_hw env { set_ctrl_range d id val with
          usage_count := (set_ctrl_range d id val).usage_count + 1 }
          d.cur_mode.height id val).1,
       pm_runtime_put (set_ctrl_hw env { set_ctrl_range d id val with
          usage_count := (set_ctrl_range d id val).usage_count + 1 }
          d.cur_mode.height id val).2) := by
  obtain ⟨g1, g2⟩ := get_if_in_use_pos env _ hin
  rw [set_ctrl_eq]
  unfold set_ctrl_apply
  rw [if_neg g1, g2]

/-- C21: when `pm_runtime_get_if_in_use` reports the device not in use (0),
`ov16a1q_set_ctrl` returns 0 for every control id and value, puts nothing on
the bus and leaves the power reference count unchanged. -/
theorem C21_not_in_use_no_write (env : Env) (d : ov16a1q) (id : Nat) (val : Int)
    (hidle : env.get_if_in_use (set_ctrl_range d id val) = 0) :
    (ov16a1q_set_ctrl env d id val).1 = 0 ∧
    (ov16a1q_set_ctrl env d id val).2.bus_hist = d.bus_hist ∧
    (ov16a1q_set_ctrl env d id val).2.usage_count = d.usage_count := by
  obtain ⟨r1, r2, -⟩ := set_ctrl_range_fields d id val
  rw [set_ctrl_eq]
  unfold set_ctrl_apply
  rw [get_if_in_use_zero env _ hidle]
  simp [r1, r2]

theorem C21_not_in_use_no_write_witness :
    env_not_in_use.get_if_in_use (set_ctrl_range dev0 V4L2_CID_VBLANK 3000) = 0 ∧
    (ov16a1q_set_ctrl env_not_in_use dev0 V4L2_CID_VBLANK 3000).1 = 0 ∧
    (ov16a1q_set_ctrl env_not_in_use dev0 V4L2_CID_VBLANK 3000).2.bus_hist = dev0.bus_hist ∧
    (ov16a1q_set_ctrl env_not_in_use dev0 V4L2_CID_VBLANK 3000).2.usage_count =
      dev0.usage_count :=
  ⟨rfl, C21_not_in_use_no_write env_not_in_use dev0 V4L2_CID_VBLANK 3000 rfl⟩

/-- C22: on a device in use (`pm_runtime_get_if_in_use` positive)
`ov16a1q_set_ctrl` puts exactly one register write on the bus, selected by the
control id: exposure, the 3-byte frame of `val` at 0x3500; analogue gain, the
2-byte frame of `val` at 0x3508; vertical blank, the 2-byte frame of
`height + val` (height of the active mode) at 0x380e.  It returns the result
of that write (0 or `-EIO`), and the reference it took is released again: the
usage count ends where it started.  `val` is the 32-bit pattern of the control
value, which is the value itself when that is not negative. -/
theorem C22_in_use_one_write (env : Env) (d : ov16a1q) (id : Nat) (val : Int)
    (hin : 0 < env.get_if_in_use (set_ctrl_range d id val)) :
    (id = V4L2_CID_EXPOSURE →
      (ov16a1q_set_ctrl env d id val).2.bus_hist =
        d.bus_hist ++ [BusOp.send (write_frame 0x3500 3 (to_u32 val))] ∧
      (ov16a1q_set_ctrl env d id val).1 = write_result env d.bus_hist 0x3500 3 (to_u32 val)) ∧
    (id = V4L2_CID_ANALOGUE_GAIN →
      (ov16a1q_set_ctrl env d id val).2.bus_hist =
        d.bus_hist ++ [BusOp.send (write_frame 0x3508 2 (to_u32 val))] ∧
      (ov16a1q_set_ctrl env d id val).1 = write_result env d.bus_hist 0x3508 2 (to_u32 val)) ∧
    (id = V4L2_CID_VBLANK →
      (ov16a1q_set_ctrl env d id val).2.bus_hist =
        d.bus_hist ++
          [BusOp.send (write_frame 0x380e 2 ((d.cur_mode.height + to_u32 val) % 4294967296))] ∧
      (ov16a1q_set_ctrl env d id val).1 =
        write_result env d.bus_hist 0x380e 2 ((d.cur_mode.height + to_u32 val) % 4294967296)) ∧
    (ov16a1q_set_ctrl env d id val).2.usage_count = d.usage_count ∧
    (0 ≤ val → val < 4294967296 → (to_u32 val : Int) = val) := by
  obtain ⟨r1, r2, -⟩ := set_ctrl_range_fields d id val
  rw [set_ctrl_in_use env d id val hin]
  refine ⟨?_, ?_, ?_, ?_, ?_⟩
  · intro hid
    have h : set_ctrl_hw env { set_ctrl_range d id val with
          usage_count := (set_ctrl_range d id val).usage_count + 1 } d.cur_mode.height id val =
        ov16a1q_write env { set_ctrl_range d id val with
          usage_count := (set_ctrl_range d id val).usage_count + 1 } 0x3500 3 (to_u32 val) := by
      unfold set_ctrl_hw
      rw [if_pos hid]
    rw [h, ov16a1q_write_eq env _ 0x3500 3 (to_u32 val) (by decide) (by decide) (to_u32_lt val)]
    simp [pm_runtime_put, write_result, r1]
  · intro hid
    have hne : ¬ id = V4L2_CID_EXPOSURE := by rw [hid]; decide
    have h : set_ctrl_hw env { set_ctrl_range d id val with
          usage_count := (set_ctrl_range d id val).usage_count + 1 } d.cur_mode.height id val =
        ov16a1q_write env { set_ctrl_range d id val with
          usage_count := (set_ctrl_range d id val).usage_count + 1 } 0x3508 2 (to_u32 val) := by
      unfold set_ctrl_hw
      rw [if_neg hne, if_pos hid]
    rw [h, ov16a1q_write_eq env _ 0x3508 2 (to_u32 val) (by decide) (by decide) (to_u32_lt val)]
    simp [pm_runtime_put, write_result, r1]
  · intro hid
    have hne : ¬ id = V4L2_CID_EXPOSURE := by rw [hid]; decide
    have hne2 : ¬ id = V4L2_CID_ANALOGUE_GAIN := by rw [hid]; decide
    have h : set_ctrl_hw env { set_ctrl_range d id val with
          usage_count := (set_ctrl_range d id val).usage_count + 1 } d.cur_mode.height id val =
        ov16a1q_write env { set_ctrl_range d id val with
          usage_count := (set_ctrl_range d id val).usage_count + 1 } 0x380e 2
          ((d.cur_mode.height + to_u32 val) % 4294967296) := by
      unfold set_ctrl_hw
      rw [if_neg hne, if_neg hne2, if_pos hid]
    rw [h, ov16a1q_write_eq env _ 0x380e 2 _ (by decide) (by decide) (Nat.mod_lt _ (by decide))]
    simp [pm_runtime_put, write_result, r1]
  · obtain ⟨ws, hws, -⟩ := set_ctrl_hw_state env { set_ctrl_range d id val with
          usage_count := (set_ctrl_range d id val).usage_count + 1 } d.cur_mode.height id val
    simp only [hws, pm_runtime_put]
    simp [r2]
  · intro h0 h1
    unfold to_u32
    omega

theorem C22_in_use_one_write_witness :
    0 < (sim_env (fun _ => 0)).get_if_in_use (set_ctrl_range dev0 V4L2_CID_VBLANK 3000) ∧
    (ov16a1q_set_ctrl (sim_env (fun _ => 0)) dev0 V4L2_CID_VBLANK 3000).2.bus_hist =
      [BusOp.send [0x38, 0x0e, 0x12, 0x78]] ∧
    (ov16a1q_set_ctrl (sim_env (fun _ => 0)) dev0 V4L2_CID_VBLANK 3000).1 = 0 ∧
    (ov16a1q_set_ctrl (sim_env (fun _ => 0)) dev0 V4L2_CID_VBLANK 3000).2.usage_count = 0 :=
  ⟨by decide,
   ((C22_in_use_one_write (sim_env (fun _ => 0)) dev0 V4L2_CID_VBLANK 3000
      (by decide)).2.2.1 rfl).1.trans (by decide),
   ((C22_in_use_one_write (sim_env (fun _ => 0)) dev0 V4L2_CID_VBLANK 3000
      (by decide)).2.2.1 rfl).2.trans (by decide),
   (C22_in_use_one_write (sim_env (fun _ => 0)) dev0 V4L2_CID_VBLANK 3000
      (by decide)).2.2.2.1⟩

/-- C23 (counterexample): on a device in use, `ov16a1q_set_ctrl` for the
horizontal blank control, which the `switch` does not handle, returns
`-EINVAL`, not 0. -/
theorem C23_unhandled_id_counterexample :
    0 < (sim_env (fun _ => 0)).get_if_in_use (set_ctrl_range dev0 V4L2_CID_HBLANK 246) ∧
    V4L2_CID_HBLANK ≠ V4L2_CID_EXPOSURE ∧ V4L2_CID_HBLANK ≠ V4L2_CID_ANALOGUE_GAIN ∧
    V4L2_CID_HBLANK ≠ V4L2_CID_VBLANK ∧
    (ov16a1q_set_ctrl (sim_env (fun _ => 0)) dev0 V4L2_CID_HBLANK 246).1 = -22 ∧
    (ov16a1q_set_ctrl (sim_env (fun _ => 0)) dev0 V4L2_CID_HBLANK 246).1 ≠ 0 := by
  decide

/-- C23 (amended): on a device in use, `ov16a1q_set_ctrl` for a control id
other than exposure, analogue gain and vertical blank returns `-EINVAL`, puts
nothing on the bus, and releases the reference it took (the usage count ends
where it started). -/
theorem C23_unhandled_id_einval (env : Env) (d : ov16a1q) (id : Nat) (val : Int)
    (hin : 0 < env.get_if_in_use (set_ctrl_range d id val))
    (h1 : id ≠ V4L2_CID_EXPOSURE) (h2 : id ≠ V4L2_CID_ANALOGUE_GAIN)
    (h3 : id ≠ V4L2_CID_VBLANK) :
    (ov16a1q_set_ctrl env d id val).1 = - EINVAL ∧
    (ov16a1q_set_ctrl env d id val).1 ≠ 0 ∧
    (ov16a1q_set_ctrl env d id val).2.bus_hist = d.bus_hist ∧
    (ov16a1q_set_ctrl env d id val).2.usage_count = d.usage_count := by
  obtain ⟨r1, r2, -⟩ := set_ctrl_range_fields d id val
  rw [set_ctrl_in_use env d id val hin]
  have h : set_ctrl_hw env { set_ctrl_range d id val with
        usage_count := (set_ctrl_range d id val).usage_count + 1 } d.cur_mode.height id val =
      (- EINVAL, { set_ctrl_range d id val with
        usage_count := (set_ctrl_range d id val).usage_count + 1 }) := by
    unfold set_ctrl_hw
    rw [if_neg h1, if_neg h2, if_neg h3]
  rw [h]
  refine ⟨rfl, ?_, ?_, ?_⟩
  · show (- EINVAL : Int) ≠ 0
    decide
  · simp [pm_runtime_put, r1]
  · simp [pm_runtime_put, r2]

theorem C23_unhandled_id_einval_witness :
    0 < (sim_env (fun _ => 0)).get_if_in_use (set_ctrl_range dev0 V4L2_CID_HBLANK 246) ∧
    (ov16a1q_set_ctrl (sim_env (fun _ => 0)) dev0 V4L2_CID_HBLANK 246).1 = - EINVAL ∧
    (ov16a1q_set_ctrl (sim_env (fun _ => 0)) dev0 V4L2_CID_HBLANK 246).1 ≠ 0 ∧
    (ov16a1q_set_ctrl (sim_env (fun _ => 0)) dev0 V4L2_CID_HBLANK 246).2.bus_hist =
      dev0.bus_hist ∧
    (ov16a1q_set_ctrl (sim_env (fun _ => 0)) dev0 V4L2_CID_HBLANK 246).2.usage_count =
      dev0.usage_count :=
  ⟨by decide, C23_unhandled_id_einval (sim_env (fun _ => 0)) dev0 V4L2_CID_HBLANK 246
    (by decide) (by decide) (by decide) (by decide)⟩

/-! ## Sensor identification: theorems -/

theorem read_id_eq (env : Env) (d : ov16a1q) :
    ov16a1q_read env d 0x300b 2 0 =
      (if (env.i2c_transfer d.bus_hist [0x30, 0x0b] 2).1 = 2 then 0 else - EIO,
       if (env.i2c_transfer d.bus_hist [0x30, 0x0b] 2).1 = 2 then
         be_decode (received env d.bus_hist [0x30, 0x0b] 2) else 0,
       { d with bus_hist := d.bus_hist ++ [BusOp.transfer [0x30, 0x0b] 2] }) := by
  have ha : put_unaligned_be16 0x300b = [0x30, 0x0b] := by decide
  unfold ov16a1q_read
  simp only [show ¬ (2 > 4) by decide, if_false, ha]
  by_cases h : (env.i2c_transfer d.bus_hist [0x30, 0x0b] 2).1 = 2
  · simp [h, received, be_decode, get_unaligned_be32, List.range_succ]
  · simp [h]

/-- C24: `ov16a1q_check_sensor_id` puts exactly one transfer on the bus, the
2-byte read of register 0x300b.  It returns 0 exactly when the transfer
completes and the two bytes decode (big-endian) to 0x1641; a completed read
of any other value gives `-ENODEV`; a failed transfer gives the read's
`-EIO`, which is a different code. -/
theorem C24_check_sensor_id (env : Env) (d : ov16a1q) :
    (ov16a1q_check_sensor_id env d).2 =
      { d with bus_hist := d.bus_hist ++ [BusOp.transfer [0x30, 0x0b] 2] } ∧
    ((ov16a1q_check_sensor_id env d).1 = 0 ↔
      ((env.i2c_transfer d.bus_hist [0x30, 0x0b] 2).1 = 2 ∧
        be_decode (received env d.bus_hist [0x30, 0x0b] 2) = 0x1641)) ∧
    ((env.i2c_transfer d.bus_hist [0x30, 0x0b] 2).1 = 2 →
      be_decode (received env d.bus_hist [0x30, 0x0b] 2) ≠ 0x1641 →
      (ov16a1q_check_sensor_id env d).1 = - ENODEV) ∧
    ((env.i2c_transfer d.bus_hist [0x30, 0x0b] 2).1 ≠ 2 →
      (ov16a1q_check_sensor_id env d).1 = - EIO ∧
      (ov16a1q_check_sensor_id env d).1 = (ov16a1q_read env d 0x300b 2 0).1) ∧
    (- ENODEV : Int) ≠ - EIO := by
  unfold ov16a1q_check_sensor_id
  rw [read_id_eq]
  by_cases h : (env.i2c_transfer d.bus_hist [0x30, 0x0b] 2).1 = 2
  · by_cases hv : be_decode (received env d.bus_hist [0x30, 0x0b] 2) = 0x1641
    · simp [h, hv, EIO, ENODEV]
    · simp [h, hv, EIO, ENODEV]
  · simp [h, EIO, ENODEV]

/-! ## Format negotiation: theorems -/

theorem catalog_mode_values (mode : ov16a1q_mode) (hmode : mode ∈ ov16a1q_modes) :
    to_s64 (ov16a1q_pixel_rate mode) = 144000000 ∧
    set_fmt_vblank_range mode = (2192, 63807, 1, 2192) ∧
    to_s32 (mode_v_blank mode) = 2192 ∧
    mode_h_blank mode = 246 ∧
    mode.width = 2304 ∧ mode.height = 1728 ∧ mode.hts = 2550 ∧ mode.vts = 3920 ∧
    mode.link_freq = 180000000 ∧ mode.lane_count = 4 ∧ mode.depth = 10 := by
  rw [catalog_mode mode hmode]
  decide

theorem be_decode_bytes2 (x : Nat) (h : x < 65536) : be_decode (be_bytes 2 x) = x := by
  simp [be_bytes, be_decode, List.range_succ]
  omega

theorem be_decode_bytes3 (x : Nat) (h : x < 16777216) : be_decode (be_bytes 3 x) = x := by
  simp [be_bytes, be_decode, List.range_succ]
  omega

theorem set_ctrl_in_use_vblank (env : Env) (d : ov16a1q) (val : Int)
    (hin : 0 < env.get_if_in_use (set_ctrl_range d V4L2_CID_VBLANK val)) :
    (ov16a1q_set_ctrl env d V4L2_CID_VBLANK val).2.bus_hist =
      d.bus_hist ++
        [BusOp.send (write_frame 0x380e 2 ((d.cur_mode.height + to_u32 val) % 4294967296))] := by
  obtain ⟨r1, -⟩ := set_ctrl_range_fields d V4L2_CID_VBLANK val
  rw [set_ctrl_in_use env d V4L2_CID_VBLANK val hin]
  have h : set_ctrl_hw env { set_ctrl_range d V4L2_CID_VBLANK val with
        usage_count := (set_ctrl_range d V4L2_CID_VBLANK val).usage_count + 1 }
        d.cur_mode.height V4L2_CID_VBLANK val =
      ov16a1q_write env { set_ctrl_range d V4L2_CID_VBLANK val with
        usage_count := (set_ctrl_range d V4L2_CID_VBLANK val).usage_count + 1 } 0x380e 2
        ((d.cur_mode.height + to_u32 val) % 4294967296) := by
    unfold set_ctrl_hw
    rw [if_neg (by decide), if_neg (by decide), if_pos rfl]
  rw [h, ov16a1q_write_eq env _ 0x380e 2 _ (by decide) (by decide) (Nat.mod_lt _ (by decide))]
  simp [pm_runtime_put, r1]

theorem set_ctrl_in_use_exposure (env : Env) (d : ov16a1q) (val : Int)
    (hin : 0 < env.get_if_in_use (set_ctrl_range d V4L2_CID_EXPOSURE val)) :
    (ov16a1q_set_ctrl env d V4L2_CID_EXPOSURE val).2.bus_hist =
      d.bus_hist ++ [BusOp.send (write_frame 0x3500 3 (to_u32 val))] := by
  obtain ⟨r1, -⟩ := set_ctrl_range_fields d V4L2_CID_EXPOSURE val
  rw [set_ctrl_in_use env d V4L2_CID_EXPOSURE val hin]
  have h : set_ctrl_hw env { set_ctrl_range d V4L2_CID_EXPOSURE val with
        usage_count := (set_ctrl_range d V4L2_CID_EXPOSURE val).usage_count + 1 }
        d.cur_mode.height V4L2_CID_EXPOSURE val =
      ov16a1q_write env { set_ctrl_range d V4L2_CID_EXPOSURE val with
        usage_count := (set_ctrl_range d V4L2_CID_EXPOSURE val).usage_count + 1 } 0x3500 3
        (to_u32 val) := by
    unfold set_ctrl_hw
    rw [if_pos rfl]
  rw [h, ov16a1q_write_eq env _ 0x3500 3 (to_u32 val) (by decide) (by decide) (to_u32_lt val)]
  simp [pm_runtime_put, r1]

/-- C26: let the active mode be a catalog mode and `v` a vertical blank value
in either range the driver installs (`[vts - height, 0x7ff7 - height]` by
`ov16a1q_init_ctrls`, `[vts - height, 0xffff - height]` by `ov16a1q_set_fmt`).
Then `height + v` is at most 0xFFFF, and on a device in use
`ov16a1q_set_ctrl` for the vertical blank control puts on the bus the frame
0x38 0x0e followed by two bytes that decode (big-endian) to `height + v`
itself.  The same call gives the exposure control the maximum
`height + v - 2`, the exact difference (the 32-bit computation does not wrap),
which is below `2 ^ 24`; and for every exposure value `e` from 0 to that
maximum `ov16a1q_set_ctrl` for the exposure control puts on the bus the frame
0x35 0x00 followed by three bytes that decode to `e` itself. -/
theorem C26_control_writes_not_truncated (env : Env) (d : ov16a1q) (v : Int)
    (hm : d.cur_mode ∈ ov16a1q_modes)
    (hin : ∀ s, 0 < env.get_if_in_use s)
    (hlo : (d.cur_mode.vts : Int) - (d.cur_mode.height : Int) ≤ v)
    (hhi : v ≤ 0x7ff7 - (d.cur_mode.height : Int) ∨ v ≤ 0xffff - (d.cur_mode.height : Int)) :
    ((ov16a1q_init_ctrls init_env_ok d.cur_mode).2.get? 3 =
      some (v4l2_ctrl.mk V4L2_CID_VBLANK 0
        ((d.cur_mode.vts : Int) - (d.cur_mode.height : Int))
        (0x7ff7 - (d.cur_mode.height : Int)) 1
        ((d.cur_mode.vts : Int) - (d.cur_mode.height : Int))
        ((d.cur_mode.vts : Int) - (d.cur_mode.height : Int)) []) ∧
     (set_fmt_vblank_range d.cur_mode).1 = (d.cur_mode.vts : Int) - (d.cur_mode.height : Int) ∧
     (set_fmt_vblank_range d.cur_mode).2.1 = 0xffff - (d.cur_mode.height : Int)) ∧
    (d.cur_mode.height : Int) + v ≤ 0xFFFF ∧
    (((d.cur_mode.height + v.toNat : Nat) : Int) = (d.cur_mode.height : Int) + v ∧
     (ov16a1q_set_ctrl env d V4L2_CID_VBLANK v).2.bus_hist =
       d.bus_hist ++ [BusOp.send ([0x38, 0x0e] ++ be_bytes 2 (d.cur_mode.height + v.toNat))] ∧
     be_decode (be_bytes 2 (d.cur_mode.height + v.toNat)) = d.cur_mode.height + v.toNat) ∧
    ((ov16a1q_set_ctrl env d V4L2_CID_VBLANK v).2.ctrl_handler =
       d.ctrl_handler.map (fun c =>
         if c.id = V4L2_CID_EXPOSURE then
           v4l2_ctrl_modify_range c c.minimum ((d.cur_mode.height : Int) + v - 2) c.step
             ((d.cur_mode.height : Int) + v - 2)
         else c) ∧
     0 ≤ (d.cur_mode.height : Int) + v - 2 ∧
     (d.cur_mode.height : Int) + v - 2 < 2 ^ 24) ∧
    (∀ (d2 : ov16a1q) (e : Int), 0 ≤ e → e ≤ (d.cur_mode.height : Int) + v - 2 →
      ((e.toNat : Nat) : Int) = e ∧
      (ov16a1q_set_ctrl env d2 V4L2_CID_EXPOSURE e).2.bus_hist =
        d2.bus_hist ++ [BusOp.send ([0x35, 0x00] ++ be_bytes 3 e.toNat)] ∧
      be_decode (be_bytes 3 e.toNat) = e.toNat) := by
  obtain ⟨-, hvr, -, -, -, hh, -, hvts, -⟩ := catalog_mode_values d.cur_mode hm
  have hv0 : 0 ≤ v := by omega
  have hv1 : v ≤ 63807 := by omega
  have hu : to_u32 v = v.toNat := by
    unfold to_u32
    omega
  have hfv : (d.cur_mode.height + to_u32 v) % 4294967296 = d.cur_mode.height + v.toNat := by
    rw [hu]
    omega
  refine ⟨⟨?_, ?_, ?_⟩, by omega, ⟨by omega, ?_, ?_⟩, ⟨?_, by omega, by omega⟩, ?_⟩
  · rw [init_ctrls_catalog init_env_ok d.cur_mode hm rfl rfl rfl, hvts, hh]
    rfl
  · rw [hvr, hvts, hh]
    rfl
  · rw [hvr, hh]
    rfl
  · rw [set_ctrl_in_use_vblank env d v (hin _), hfv]
    rfl
  · exact be_decode_bytes2 _ (by omega)
  · rw [set_ctrl_ctrl_handler,
      set_ctrl_range_vblank d v (by omega) (by omega)]
  · intro d2 e he0 he1
    have hue : to_u32 e = e.toNat := by
      unfold to_u32
      omega
    refine ⟨by omega, ?_, be_decode_bytes3 _ (by omega)⟩
    rw [set_ctrl_in_use_exposure env d2 e (hin _), hue]
    rfl

theorem C26_control_writes_not_truncated_witness :
    (dev0.cur_mode ∈ ov16a1q_modes ∧ (∀ s, 0 < (sim_env (fun _ => 0)).get_if_in_use s) ∧
      (dev0.cur_mode.vts : Int) - (dev0.cur_mode.height : Int) ≤ 63807 ∧
      (63807 : Int) ≤ 0xffff - (dev0.cur_mode.height : Int)) ∧
    (dev0.cur_mode.height : Int) + 63807 ≤ 0xFFFF ∧
    (ov16a1q_set_ctrl (sim_env (fun _ => 0)) dev0 V4L2_CID_VBLANK 63807).2.bus_hist =
      dev0.bus_hist ++
        [BusOp.send ([0x38, 0x0e] ++ be_bytes 2 (dev0.cur_mode.height + (63807 : Int).toNat))] ∧
    be_decode (be_bytes 2 (dev0.cur_mode.height + (63807 : Int).toNat)) =
      dev0.cur_mode.height + (63807 : Int).toNat ∧
    (dev0.cur_mode.height : Int) + 63807 - 2 < 2 ^ 24 :=
  ⟨⟨by decide, fun _ => (by decide : (0 : Int) < 1), by decide, by decide⟩,
   (C26_control_writes_not_truncated (sim_env (fun _ => 0)) dev0 63807 (by decide)
      (fun _ => (by decide : (0 : Int) < 1)) (by decide) (Or.inr (by decide))).2.1,
   (C26_control_writes_not_truncated (sim_env (fun _ => 0)) dev0 63807 (by decide)
      (fun _ => (by decide : (0 : Int) < 1)) (by decide) (Or.inr (by decide))).2.2.1.2.1,
   (C26_control_writes_not_truncated (sim_env (fun _ => 0)) dev0 63807 (by decide)
      (fun _ => (by decide : (0 : Int) < 1)) (by decide) (Or.inr (by decide))).2.2.1.2.2,
   (C26_control_writes_not_truncated (sim_env (fun _ => 0)) dev0 63807 (by decide)
      (fun _ => (by decide : (0 : Int) < 1)) (by decide) (Or.inr (by decide))).2.2.2.1.2.2⟩

/-! ## Register map left by the tables: theorems -/

theorem sim_apply_reg_frame (mem : Nat → Nat) (r : ov16a1q_reg) (x : Nat) :
    sim_apply mem (BusOp.send (reg_frame r)) x =
      if x = r.address % 65536 then r.val % 256 else mem x := by
  have ha : (r.address / 256 % 256 * 256 + r.address % 256) % 65536 = r.address % 65536 := by
    omega
  simp only [reg_frame, sim_apply, sim_store, ha]

theorem sim_mem_table (regs : List ov16a1q_reg) (mem : Nat → Nat) (a : Nat) :
    sim_mem mem (table_ops regs) a = (last_write regs a).getD (mem a) := by
  induction regs generalizing mem with
  | nil => rfl
  | cons r rs ih =>
    have hstep : sim_mem mem (table_ops (r :: rs)) =
        sim_mem (sim_apply mem (BusOp.send (reg_frame r))) (table_ops rs) := by
      simp [sim_mem, table_ops]
    rw [hstep, ih, sim_apply_reg_frame]
    simp only [last_write]
    cases last_write rs a with
    | some v => rfl
    | none =>
      dsimp only
      split <;> rfl

theorem sim_mem_tables (mem0 : Nat → Nat) (hist : List BusOp) (regs : List ov16a1q_reg)
    (a : Nat) :
    sim_mem mem0 (hist ++ table_ops regs) a = (last_write regs a).getD (sim_mem mem0 hist a) := by
  have h : sim_mem mem0 (hist ++ table_ops regs) = sim_mem (sim_mem mem0 hist) (table_ops regs) := by
    simp [sim_mem, List.foldl_append]
  rw [h, sim_mem_table]

set_option maxRecDepth 100000 in
theorem last_write_tables :
    (last_write (ov16a1q_regs ++ ov16a1q_2304x1728_4lane_regs) 0x3808 = some 0x09 ∧
     last_write (ov16a1q_regs ++ ov16a1q_2304x1728_4lane_regs) 0x3809 = some 0x00 ∧
     last_write (ov16a1q_regs ++ ov16a1q_2304x1728_4lane_regs) 0x380a = some 0x06 ∧
     last_write (ov16a1q_regs ++ ov16a1q_2304x1728_4lane_regs) 0x380b = some 0xc0 ∧
     last_write (ov16a1q_regs ++ ov16a1q_2304x1728_4lane_regs) 0x380e = some 0x0f ∧
     last_write (ov16a1q_regs ++ ov16a1q_2304x1728_4lane_regs) 0x380f = some 0x50) ∧
    (last_write ov16a1q_regs 0x3808 = some 0x12 ∧
     last_write ov16a1q_regs 0x3809 = some 0x30 ∧
     last_write ov16a1q_regs 0x380a = some 0x0d ∧
     last_write ov16a1q_regs 0x380b = some 0xa8 ∧
     last_write ov16a1q_regs 0x380e = some 0x0f ∧
     last_write ov16a1q_regs 0x380f = some 0x51) := by
  decide

/-- C27: once `ov16a1q_write_reg_list` has played the base table and then the
table of the 2304x1728 mode (the bus history grows by the frames of the two
tables, in that order), the register file of the simulated bus, in which a
later write to an address overrides an earlier one, holds at 0x3808:0x3809
the width 2304, at 0x380a:0x380b the height 1728 and at 0x380e:0x380f the
frame length 3920 of the mode record, each pair read high byte first.  After
the base table alone the three pairs hold 4656, 3496 and 3921: the mode table
overrides them. -/
theorem C27_tables_give_mode_geometry (mem0 : Nat → Nat) (d : ov16a1q) :
    (ov16a1q_write_reg_list (sim_env mem0)
        (ov16a1q_write_reg_list (sim_env mem0) d ov16a1q_regs).2
        ov16a1q_2304x1728_4lane_regs).2.bus_hist =
      d.bus_hist ++ table_ops (ov16a1q_regs ++ ov16a1q_2304x1728_4lane_regs) ∧
    (reg_pair (sim_mem mem0
        (d.bus_hist ++ table_ops (ov16a1q_regs ++ ov16a1q_2304x1728_4lane_regs))) 0x3808 = 2304 ∧
     reg_pair (sim_mem mem0
        (d.bus_hist ++ table_ops (ov16a1q_regs ++ ov16a1q_2304x1728_4lane_regs))) 0x380a = 1728 ∧
     reg_pair (sim_mem mem0
        (d.bus_hist ++ table_ops (ov16a1q_regs ++ ov16a1q_2304x1728_4lane_regs))) 0x380e = 3920) ∧
    (reg_pair (sim_mem mem0 (d.bus_hist ++ table_ops ov16a1q_regs)) 0x3808 = 4656 ∧
     reg_pair (sim_mem mem0 (d.bus_hist ++ table_ops ov16a1q_regs)) 0x380a = 3496 ∧
     reg_pair (sim_mem mem0 (d.bus_hist ++ table_ops ov16a1q_regs)) 0x380e = 3921) ∧
    (∀ m ∈ ov16a1q_modes, m.reg_list = ov16a1q_2304x1728_4lane_regs ∧
      m.width = 2304 ∧ m.height = 1728 ∧ m.vts = 3920) := by
  obtain ⟨⟨a1, a2, a3, a4, a5, a6⟩, b1, b2, b3, b4, b5, b6⟩ := last_write_tables
  refine ⟨?_, ⟨?_, ?_, ?_⟩, ⟨?_, ?_, ?_⟩, ?_⟩
  · rw [write_reg_list_state, write_reg_list_state]
    simp [table_ops]
  · simp only [reg_pair, Nat.reduceAdd, sim_mem_tables, a1, a2, Option.getD_some]
  · simp only [reg_pair, Nat.reduceAdd, sim_mem_tables, a3, a4, Option.getD_some]
  · simp only [reg_pair, Nat.reduceAdd, sim_mem_tables, a5, a6, Option.getD_some]
  · simp only [reg_pair, Nat.reduceAdd, sim_mem_tables, b1, b2, Option.getD_some]
  · simp only [reg_pair, Nat.reduceAdd, sim_mem_tables, b3, b4, Option.getD_some]
  · simp only [reg_pair, Nat.reduceAdd, sim_mem_tables, b5, b6, Option.getD_some]
  · intro m hm
    rw [catalog_mode m hm]
    exact ⟨rfl, rfl, rfl, rfl⟩

end Ov16a1q

namespace Drv2624

/-! ## The drv2624 haptics driver: theorems -/

theorem play_magnitude_eq (haptics : drv2624_data) (strong weak : Nat)
    (hs : strong < 65536) (hw : weak < 65536) :
    drv2624_haptics_play haptics strong weak =
      (0, { haptics with
            magnitude := min ((if strong > 0 then strong else weak) >>> 8) 0x7f,
            work_scheduled := haptics.work_scheduled + 1 }) := by
  unfold drv2624_haptics_play
  have e : ∀ x : Nat, x >>> 8 = x / 256 := fun x => by
    rw [Nat.shiftRight_eq_div_pow]
  simp only [e]
  have hm : (if (if strong > 0 then strong / 256 % 256
        else if weak > 0 then weak / 256 % 256 else 0) > 0x7f then 0x7f
      else (if strong > 0 then strong / 256 % 256
        else if weak > 0 then weak / 256 % 256 else 0)) =
      min ((if strong > 0 then strong else weak) / 256) 0x7f := by
    split_ifs <;> omega
  rw [hm]

/-- C28: for every pair of 16-bit magnitudes `drv2624_haptics_play` returns 0,
schedules the work once and stores the magnitude `min (m >> 8) 0x7f`, where
`m` is the strong magnitude when that is positive and the weak magnitude
otherwise.  The stored magnitude is at most 0x7f, it is 0 when both inputs are
0, and a strong magnitude in 1..255 gives 0 whatever the weak magnitude is. -/
theorem C28_play_magnitude (haptics : drv2624_data) (strong weak : Nat)
    (hs : strong < 65536) (hw : weak < 65536) :
    (drv2624_haptics_play haptics strong weak).1 = 0 ∧
    (drv2624_haptics_play haptics strong weak).2.magnitude =
      min ((if strong > 0 then strong else weak) >>> 8) 0x7f ∧
    (drv2624_haptics_play haptics strong weak).2.magnitude ≤ 0x7f ∧
    (strong = 0 → weak = 0 → (drv2624_haptics_play haptics strong weak).2.magnitude = 0) ∧
    (1 ≤ strong → strong ≤ 255 →
      (drv2624_haptics_play haptics strong weak).2.magnitude = 0) ∧
    (drv2624_haptics_play haptics strong weak).2.work_scheduled =
      haptics.work_scheduled + 1 := by
  rw [play_magnitude_eq haptics strong weak hs hw]
  have e : ∀ x : Nat, x >>> 8 = x / 256 := fun x => by
    rw [Nat.shiftRight_eq_div_pow]
  refine ⟨rfl, rfl, ?_, ?_, ?_, rfl⟩
  · exact Nat.min_le_right _ _
  · intro h1 h2
    subst h1 h2
    rfl
  · intro h1 h2
    show min ((if strong > 0 then strong else weak) >>> 8) 0x7f = 0
    rw [if_pos (by omega), e]
    omega

theorem C28_play_magnitude_witness :
    (200 : Nat) < 65536 ∧ (65535 : Nat) < 65536 ∧
    (drv2624_haptics_play (haptics_lra 150) 200 65535).1 = 0 ∧
    (drv2624_haptics_play (haptics_lra 150) 200 65535).2.magnitude = 0 :=
  ⟨by decide, by decide,
   (C28_play_magnitude (haptics_lra 150) 200 65535 (by decide) (by decide)).1,
   (C28_play_magnitude (haptics_lra 150) 200 65535 (by decide) (by decide)).2.2.2.2.1
     (by decide) (by decide)⟩

theorem update_bits_field (old mask val sub : Nat)
    (h0 : (0xff ^^^ (mask &&& 0xff)) &&& sub = 0)
    (h1 : mask &&& (0xff &&& sub) = sub) :
    update_bits_result old mask val &&& sub = val &&& sub := by
  unfold update_bits_result
  rw [Nat.and_comm _ sub, Nat.and_or_distrib_left, Nat.and_comm sub (old &&& _),
    Nat.and_assoc old, h0, Nat.and_zero, Nat.zero_or, Nat.and_comm sub,
    Nat.and_assoc (val &&& mask), Nat.and_assoc val, h1]

set_option maxRecDepth 100000 in
theorem drive_time_facts : ∀ f < 301, 45 ≤ f →
    (probe_accepts_lra_frequency f = true ∧
     lra_drive_time f = some (5 * (1000 - f) / f) ∧
     (5 * (1000 - f) / f ≤ 0x1f ↔ 136 ≤ f) ∧
     (f ≤ 135 → lra_drive_time_arg f (5 * (1000 - f) / f) &&& (0xffffffff ^^^ 0x9f) ≠ 0) ∧
     lra_drive_time_arg f (5 * (1000 - f) / f) &&& 0x1f = 5 * (1000 - f) / f % 32 ∧
     (lra_drive_time_arg f (5 * (1000 - f) / f) &&& 0x80 ≠ 0 ↔ f < 125)) := by
  decide

set_option maxRecDepth 100000 in
theorem open_loop_period_facts : ∀ f < 301, 45 ≤ f →
    (lra_open_loop_period f = some (1000000000 / (24619 * f)) ∧
     24619 * f ≠ 0 ∧ 24619 * f < 4294967296 ∧
     135 ≤ 1000000000 / (24619 * f) ∧ 1000000000 / (24619 * f) ≤ 902 ∧
     ((1000000000 / (24619 * f) &&& 0x0300) >>> 8) * 256 +
       (1000000000 / (24619 * f) &&& 0x00ff) = 1000000000 / (24619 * f) ∧
     ((1000000000 / (24619 * f) &&& 0x0300) >>> 8) &&& 0x03 =
       1000000000 / (24619 * f) / 256 ∧
     1000000000 / (24619 * f) &&& 0x00ff = 1000000000 / (24619 * f) % 256) := by
  decide

/-- On a register map where every call succeeds and the GO register reads 0,
`drv2624_init` of an LRA device returns 0 after these ten calls. -/
theorem init_lra_hist (f dt p : Nat) (hdt : lra_drive_time f = some dt)
    (hp : lra_open_loop_period f = some p) :
    drv2624_init regmap_ok 1 (haptics_lra f) =
      some (0, { haptics_lra f with regmap_hist := [
        RegmapOp.update_bits DRV2624_MODE 0x0c 0x08,
        RegmapOp.update_bits DRV2624_CONTROL1 0xd0 0xd0,
        RegmapOp.write DRV2624_RATED_VOLTAGE 81,
        RegmapOp.write DRV2624_OVERDRIVE_CLAMP 113,
        RegmapOp.update_bits DRV2624_DRIVE_TIME 0x9f (lra_drive_time_arg f dt),
        RegmapOp.update_bits DRV2624_OPENLOOP_PERIOD_H 0x03 ((p &&& 0x0300) >>> 8),
        RegmapOp.write DRV2624_OPENLOOP_PERIOD_L (p &&& 0x00ff),
        RegmapOp.update_bits DRV2624_MODE 0x03 0x03,
        RegmapOp.write DRV2624_GO 1,
        RegmapOp.read DRV2624_GO] }) := by
  simp [drv2624_init, drv2624_init_lra, drv2624_init_poll, regmap_write, regmap_update_bits,
    regmap_ok, haptics_lra, hdt, hp, DRV2624_ERM_MODE, DRV2624_LRA_MODE]
  decide

/-- C29: for every `lra_frequency` `f` that `drv2624_probe` accepts
(45 ≤ f ≤ 300) the block of `drv2624_init` for LRA mode computes
`drive_time = 5 * (1000 - f) / f` (no division by zero) and hands it, with the
minimum-frequency bit or-ed in below 125 Hz, to `regmap_update_bits` on
`DRV2624_DRIVE_TIME` under the mask 0x9f.  The value fits the 5-bit field
(at most 0x1f) exactly when `f ≥ 136`; for `f ≤ 135` it has bits outside the
mask 0x9f, and the field the update leaves in the register is
`drive_time mod 32`; the register's bit 0x80 ends up set exactly when
`f < 125`. -/
theorem C29_drive_time_field (f : Nat) (h45 : 45 ≤ f) (h300 : f ≤ 300) :
    probe_accepts_lra_frequency f = true ∧
    lra_drive_time f = some (5 * (1000 - f) / f) ∧
    (∃ p, drv2624_init regmap_ok 1 (haptics_lra f) =
      some (0, { haptics_lra f with regmap_hist := [
        RegmapOp.update_bits DRV2624_MODE 0x0c 0x08,
        RegmapOp.update_bits DRV2624_CONTROL1 0xd0 0xd0,
        RegmapOp.write DRV2624_RATED_VOLTAGE 81,
        RegmapOp.write DRV2624_OVERDRIVE_CLAMP 113,
        RegmapOp.update_bits DRV2624_DRIVE_TIME
          (DRV2624_DRIVE_TIME_MASK ||| DRV2624_MINFREQ_SEL_MASK)
          (lra_drive_time_arg f (5 * (1000 - f) / f)),
        RegmapOp.update_bits DRV2624_OPENLOOP_PERIOD_H 0x03 ((p &&& 0x0300) >>> 8),
        RegmapOp.write DRV2624_OPENLOOP_PERIOD_L (p &&& 0x00ff),
        RegmapOp.update_bits DRV2624_MODE 0x03 0x03,
        RegmapOp.write DRV2624_GO 1,
        RegmapOp.read DRV2624_GO] })) ∧
    DRV2624_DRIVE_TIME_MASK ||| DRV2624_MINFREQ_SEL_MASK = 0x9f ∧
    (5 * (1000 - f) / f ≤ 0x1f ↔ 136 ≤ f) ∧
    (f ≤ 135 → lra_drive_time_arg f (5 * (1000 - f) / f) &&& (0xffffffff ^^^ 0x9f) ≠ 0) ∧
    (∀ old, update_bits_result old 0x9f (lra_drive_time_arg f (5 * (1000 - f) / f))
        &&& DRV2624_DRIVE_TIME_MASK = 5 * (1000 - f) / f % 32) ∧
    (∀ old, update_bits_result old 0x9f (lra_drive_time_arg f (5 * (1000 - f) / f))
        &&& DRV2624_MINFREQ_SEL_MASK ≠ 0 ↔ f < 125) := by
  obtain ⟨a1, a2, a3, a4, a5, a6⟩ := drive_time_facts f (by omega) h45
  obtain ⟨b1, -⟩ := open_loop_period_facts f (by omega) h45
  refine ⟨a1, a2, ⟨_, init_lra_hist f _ _ a2 b1⟩, by decide, a3, a4, ?_, ?_⟩
  · intro old
    rw [show DRV2624_DRIVE_TIME_MASK = 0x1f from rfl,
      update_bits_field old 0x9f _ 0x1f (by decide) (by decide)]
    exact a5
  · intro old
    rw [show DRV2624_MINFREQ_SEL_MASK = 0x80 from rfl,
      update_bits_field old 0x9f _ 0x80 (by decide) (by decide)]
    exact a6

theorem C29_drive_time_field_witness :
    (45 ≤ 100 ∧ 100 ≤ 300) ∧
    lra_drive_time 100 = some 45 ∧
    ¬ (5 * (1000 - 100) / 100 ≤ 0x1f) ∧
    update_bits_result 0 0x9f (lra_drive_time_arg 100 (5 * (1000 - 100) / 100))
      &&& DRV2624_DRIVE_TIME_MASK = 13 :=
  ⟨by decide,
   (C29_drive_time_field 100 (by decide) (by decide)).2.1,
   fun h => absurd ((C29_drive_time_field 100 (by decide) (by decide)).2.2.2.2.1.mp h)
     (by decide),
   (C29_drive_time_field 100 (by decide) (by decide)).2.2.2.2.2.2.1 0⟩

/-- C30: for every `lra_frequency` `f` that `drv2624_probe` accepts
(45 ≤ f ≤ 300) the block of `drv2624_init` for LRA mode divides by nothing
that is zero, and `24619 * f` stays below `2 ^ 32`.  The period
`1000000000 / (24619 * f)` lies in 135..902, so the cast to `unsigned short`
changes nothing and the value is below 1024; the two parts written to the
device, `(p & 0x0300) >> 8` under the mask 0x03 and `p & 0x00ff`, put
together give `p` again. -/
theorem C30_open_loop_period (f : Nat) (h45 : 45 ≤ f) (h300 : f ≤ 300) :
    f ≠ 0 ∧ 24619 * f ≠ 0 ∧ 24619 * f < 4294967296 ∧
    lra_drive_time f ≠ none ∧
    lra_open_loop_period f = some (1000000000 / (24619 * f)) ∧
    (∃ dt, drv2624_init regmap_ok 1 (haptics_lra f) =
      some (0, { haptics_lra f with regmap_hist := [
        RegmapOp.update_bits DRV2624_MODE 0x0c 0x08,
        RegmapOp.update_bits DRV2624_CONTROL1 0xd0 0xd0,
        RegmapOp.write DRV2624_RATED_VOLTAGE 81,
        RegmapOp.write DRV2624_OVERDRIVE_CLAMP 113,
        RegmapOp.update_bits DRV2624_DRIVE_TIME 0x9f dt,
        RegmapOp.update_bits DRV2624_OPENLOOP_PERIOD_H 0x03
          ((1000000000 / (24619 * f) &&& 0x0300) >>> 8),
        RegmapOp.write DRV2624_OPENLOOP_PERIOD_L (1000000000 / (24619 * f) &&& 0x00ff),
        RegmapOp.update_bits DRV2624_MODE 0x03 0x03,
        RegmapOp.write DRV2624_GO 1,
        RegmapOp.read DRV2624_GO] })) ∧
    135 ≤ 1000000000 / (24619 * f) ∧ 1000000000 / (24619 * f) ≤ 902 ∧
    1000000000 / (24619 * f) % 65536 = 1000000000 / (24619 * f) ∧
    1000000000 / (24619 * f) < 1024 ∧
    ((1000000000 / (24619 * f) &&& 0x0300) >>> 8) * 256 +
      (1000000000 / (24619 * f) &&& 0x00ff) = 1000000000 / (24619 * f) ∧
    (∀ old, (update_bits_result old 0x03 ((1000000000 / (24619 * f) &&& 0x0300) >>> 8)
        &&& 0x03) * 256 + (1000000000 / (24619 * f) &&& 0x00ff) =
      1000000000 / (24619 * f)) := by
  obtain ⟨-, a2, -⟩ := drive_time_facts f (by omega) h45
  obtain ⟨b1, b2, b3, b4, b5, b6, b7, b8⟩ := open_loop_period_facts f (by omega) h45
  refine ⟨by omega, b2, b3, by rw [a2]; exact Option.some_ne_none _, b1,
    ⟨_, init_lra_hist f _ _ a2 b1⟩, b4, b5, ?_, by omega, b6, ?_⟩
  · exact Nat.mod_eq_of_lt (by omega)
  · intro old
    rw [update_bits_field old 0x03 _ 0x03 (by decide) (by decide), b7, b8]
    omega

theorem C30_open_loop_period_witness :
    (45 ≤ 45 ∧ 45 ≤ 300) ∧
    lra_open_loop_period 45 = some 902 ∧
    ((1000000000 / (24619 * 45) &&& 0x0300) >>> 8) * 256 +
      (1000000000 / (24619 * 45) &&& 0x00ff) = 902 :=
  ⟨by decide,
   (C30_open_loop_period 45 (by decide) (by decide)).2.2.2.2.1,
   (C30_open_loop_period 45 (by decide) (by decide)).2.2.2.2.2.2.2.2.2.2.1⟩

end Drv2624
